import Mathlib

/-!
IgcsConnector: the screenshot session controller

A shallow embedding of `src/ScreenshotController.cpp`.

Modelling conventions

* The controller object is the record `ScreenshotController`; every member function is a
  function from the controller before the call to the controller after the call, paired with
  the list of externally visible effects (`Event`) in the order the call performs them.
* Answers of the collaborators (camera tools connector, clock, random source, file system,
  codec) are read from an `Env` record; the ReShade runtime is a `Runtime` record.
* A finite `float` is the rational number it denotes, and every `float` operation rounds its
  exact result to binary32, to nearest with ties to even (`round32`, with gradual underflow).
  Infinities and NaN are not represented: a result of magnitude `2 ^ 128` or more stays
  finite and a quotient by zero is 0, so statements about `float` values carry hypotheses that
  keep every intermediate result finite. The conversion `float -> int` truncates toward zero
  (`floatToInt`).
* `int` members are unbounded integers; `uint32_t` products wrap modulo `2^32`.
* The completion thread is the function `completeShotSession`, which yields `none` while its
  wait predicate (`_state != InSession`) is false and otherwise runs to its end in one step;
  the wake-up a sleeping thread needs before it evaluates the predicate again is not modelled.
* The accesses of the member functions to `_state` and their operations on
  `_waitCompletionMutex` are listed separately, as sequences of `SyncStep`.
* Sequences of calls are driven by `storeGrabbedShots` (one `storeGrabbedShot` per captured
  buffer) and `presentCalledTimes` (repeated `presentCalled`).
* `runOperations` runs the public operations; `runCalls` runs any member function,
  `storeGrabbedShot` and `reset` included.
-/

namespace IgcsConnector

/-! ## Enumerations (values used by the controller) -/

/-- States of the controller (`ConstantsEnums.h` is not part of the sources; the enumerators
are the ones the controller names). -/
inductive ScreenshotControllerState where
  | Off
  | InSession
  | Canceling
  | SavingShots
deriving DecidableEq, Repr

/-- Shot patterns named by the controller. -/
inductive ScreenshotType where
  | HorizontalPanorama
  | MultiShot
  | MultiView
  | DebugGrid
deriving DecidableEq, Repr

/-- Output file formats named by the controller. -/
inductive ScreenshotFiletype where
  | Bmp
  | Jpeg
  | Png
deriving DecidableEq, Repr

/-- Answers of the connector to a session start request. -/
inductive ScreenshotSessionStartReturnCode where
  | AllOk
  | Error_CameraNotEnabled
  | Error_CameraPathPlaying
  | Error_AlreadySessionActive
  | Error_CameraFeatureNotAvailable
deriving DecidableEq, Repr

/-! ## Effects -/

/-- Externally visible effects of the controller, one constructor per collaborator call. -/
inductive Event where
  /-- Call `_cameraToolsConnector.startScreenshotSession(typeOfShotToUse)`; the argument is
  the enumerator whose `uint8_t` value is passed. -/
  | startScreenshotSession (typeOfShotToUse : ScreenshotType)
  /-- Call `_cameraToolsConnector.endScreenshotSession()`. -/
  | endScreenshotSession
  /-- Call `_cameraToolsConnector.moveCameraMultishot(x, y, z, flag)`. -/
  | moveCameraMultishot (x y z : ℚ) (flag : Bool)
  /-- Call `_cameraToolsConnector.moveCameraPanorama(distance)`. -/
  | moveCameraPanorama (distance : ℚ)
  /-- Call `_cameraToolsConnector.rotateCamera(pitch, yaw, roll)`. -/
  | rotateCamera (pitch yaw roll : ℚ)
  /-- Call `OverlayControl::addNotification(message)`. -/
  | addNotification (message : String)
  /-- Call `_waitCompletionHandle.notify_all()`. -/
  | notify_all
  /-- Statement `std::thread t(&ScreenshotController::completeShotSession, this); t.detach();`. -/
  | detachCompletionThread
  /-- Call `_mkdir(folderName)`. -/
  | mkdir (folderName : String)
  /-- Call `stbi_write_bmp(filename, w, h, comp, data)`. -/
  | stbi_write_bmp (filename : String) (w h comp : Nat) (data : List UInt8)
  /-- Call `stbi_write_jpg(filename, w, h, comp, data, quality)`. -/
  | stbi_write_jpg (filename : String) (w h comp : Nat) (data : List UInt8) (quality : Nat)
  /-- Call `fopen_s(&pngFile, filename, "wb")`. -/
  | fopen_s (filename : String)
  /-- Call `fwrite(encoded_data, size, 1, pngFile)` on the file opened as `filename`. -/
  | fwrite (filename : String) (encoded_data : List UInt8)
  /-- Call `fclose(pngFile)` on the file opened as `filename`. -/
  | fclose (filename : String)
deriving DecidableEq

/-- Commands that move or rotate the camera. -/
def Event.isMotion : Event → Bool
  | .moveCameraMultishot _ _ _ _ => true
  | .moveCameraPanorama _ => true
  | .rotateCamera _ _ _ => true
  | _ => false

/-- Calls on the camera tools connector. -/
def Event.isConnectorCommand : Event → Bool
  | .startScreenshotSession _ => true
  | .endScreenshotSession => true
  | .moveCameraMultishot _ _ _ _ => true
  | .moveCameraPanorama _ => true
  | .rotateCamera _ _ _ => true
  | _ => false

/-- Notifications shown through the overlay. -/
def Event.isNotification : Event → Bool
  | .addNotification _ => true
  | _ => false

/-- Effects that touch the disk: folder creation and file output. -/
def Event.isPersistence : Event → Bool
  | .mkdir _ => true
  | .stbi_write_bmp _ _ _ _ _ => true
  | .stbi_write_jpg _ _ _ _ _ _ => true
  | .fopen_s _ => true
  | .fwrite _ _ => true
  | .fclose _ => true
  | _ => false

/-! ## Collaborators -/

/-- The fields of `struct tm` read by `createScreenshotFolder`. -/
structure Tm where
  tm_year : Int
  tm_mon : Int
  tm_mday : Int
  tm_hour : Int
  tm_min : Int
  tm_sec : Int
deriving DecidableEq

/-- Answers of the collaborators during one call, and the build flavour. -/
structure Env where
  /-- Whether the translation unit is compiled with `_DEBUG` defined. -/
  debugBuild : Bool
  /-- The `float` constant for pi used by `IGCS::Utils::degreesToRadians`. -/
  pi : ℚ
  /-- Result of `_cameraToolsConnector.cameraToolsConnected()`. -/
  cameraToolsConnected : Bool
  /-- Result of `_cameraToolsConnector.startScreenshotSession(type)`. -/
  startScreenshotSession : ScreenshotType → ScreenshotSessionStartReturnCode
  /-- The successive `double` draws `dis(gen)` of `moveCameraForMultiView`, numbered from 0. -/
  dis : Nat → ℚ
  /-- Result of `localtime_s` on the current time. -/
  localtime : Tm
  /-- Whether `fopen_s(&f, filename, "wb")` succeeds. -/
  fopenSucceeds : String → Bool
  /-- Result of `fpng::fpng_encode_image_to_memory(data, w, h, comp, out)`. -/
  fpng_encode : List UInt8 → Nat → Nat → Nat → List UInt8

/-- The ReShade effect runtime as seen by `reshadeEffectsRendered`. -/
structure Runtime where
  /-- Width reported by `get_screenshot_width_and_height`. -/
  width : Nat
  /-- Height reported by `get_screenshot_width_and_height`. -/
  height : Nat
  /-- Byte that `capture_screenshot` stores at each offset of the buffer it is handed. -/
  capture_screenshot : Nat → UInt8

/-! ## Controller -/

/-- Data members of `ScreenshotController` (the connector reference is part of `Env`). -/
structure ScreenshotController where
  _rootFolder : String
  _numberOfFramesToWaitBetweenSteps : Int
  _filetype : ScreenshotFiletype
  _framebufferWidth : Nat
  _framebufferHeight : Nat
  _typeOfShot : ScreenshotType
  _state : ScreenshotControllerState
  _pano_totalFoVRadians : ℚ
  _pano_currentFoVRadians : ℚ
  _lightField_distancePerStep : ℚ
  _pano_anglePerStep : ℚ
  _numberOfShotsToTake : Int
  _convolutionFrameCounter : Int
  _shotCounter : Int
  _overlapPercentagePerPanoShot : ℚ
  _isTestRun : Bool
  _grabbedFrames : List (List UInt8)
deriving DecidableEq

/-- Result of a member function: the controller afterwards and the effects performed. -/
abbrev Outcome := ScreenshotController × List Event

/-! ## Arithmetic helpers -/

/-- The integer nearest to `q`, the even one of the two when `q` lies halfway. -/
def roundHalfEven (q : ℚ) : Int :=
  let f := ⌊q⌋
  if q - f < 1 / 2 then f
  else if 1 / 2 < q - f then f + 1
  else if f % 2 = 0 then f else f + 1

/-- Binary exponent of the unit in the last place of binary32 around `x`: 24 significant bits
in the normal range, the fixed unit `2 ^ (-149)` below `2 ^ (-126)`. -/
def ulpExponent (x : ℚ) : Int :=
  max (Int.log 2 |x|) (-126) - 23

/-- Rounding of an exact result to binary32, to nearest with ties to even. -/
def round32 (x : ℚ) : ℚ :=
  (roundHalfEven (x / (2 : ℚ) ^ ulpExponent x) : ℚ) * (2 : ℚ) ^ ulpExponent x

/-- The finite binary32 values: at most 24 significant bits, exponent of the last bit between
`-149` and `104`. -/
def IsFloat32 (x : ℚ) : Prop :=
  ∃ m k : Int, |m| < 2 ^ 24 ∧ -149 ≤ k ∧ k ≤ 104 ∧ x = (m : ℚ) * (2 : ℚ) ^ k

/-- The `float` sum `x + y`. -/
def fadd (x y : ℚ) : ℚ := round32 (x + y)

/-- The `float` difference `x - y`. -/
def fsub (x y : ℚ) : ℚ := round32 (x - y)

/-- The `float` product `x * y`. -/
def fmul (x y : ℚ) : ℚ := round32 (x * y)

/-- The `float` quotient `x / y`. -/
def fdiv (x y : ℚ) : ℚ := round32 (x / y)

/-- Conversion `int -> float`. -/
def intToFloat (n : Int) : ℚ := round32 n

/-- Conversion `double -> float`. -/
def doubleToFloat (x : ℚ) : ℚ := round32 x

/-- Conversion `float -> int`: truncation toward zero. -/
def floatToInt (q : ℚ) : Int :=
  if 0 ≤ q then ⌊q⌋ else ⌈q⌉

/-- Product of two `uint32_t` values. -/
def mulU32 (a b : Nat) : Nat :=
  (a * b) % 2 ^ 32

/-- Modelled from the spec: `IGCS::Utils::degreesToRadians` (its file `Utils.h` is not part of
the sources) converts degrees to radians; taken as the `float` expression
`pi * angleInDegrees / 180.0f`. -/
def degreesToRadians (env : Env) (angleInDegrees : ℚ) : ℚ :=
  fdiv (fmul env.pi angleInDegrees) 180

/-- The `printf` conversion `%.<digits>d`: at least `digits` decimal digits, zero padded. -/
def formatIntPrecision (digits : Nat) (v : Int) : String :=
  let body := toString v.natAbs
  let padded := String.mk (List.replicate (digits - body.length) (Char.ofNat 48)) ++ body
  if v < 0 then "-" ++ padded else padded

/-- The path separator character of the source, a backslash. -/
def backslash : Char := Char.ofNat 92

/-! ## Member functions -/

/-- Member function `ScreenshotController::reset`. -/
def reset (c : ScreenshotController) : ScreenshotController :=
  { c with
    _typeOfShot := ScreenshotType.HorizontalPanorama
    _state := ScreenshotControllerState.Off
    _pano_totalFoVRadians := 0
    _pano_currentFoVRadians := 0
    _lightField_distancePerStep := 0
    _pano_anglePerStep := 0
    _numberOfShotsToTake := 0
    _convolutionFrameCounter := 0
    _shotCounter := 0
    _overlapPercentagePerPanoShot := 30
    _isTestRun := false
    _grabbedFrames := [] }

/-- Member function `ScreenshotController::configure`. -/
def configure (c : ScreenshotController) (rootFolder : String)
    (numberOfFramesToWaitBetweenSteps : Int) (filetype : ScreenshotFiletype) :
    ScreenshotController :=
  if c._state ≠ ScreenshotControllerState.Off then c
  else
    { reset c with
      _rootFolder := rootFolder
      _numberOfFramesToWaitBetweenSteps := numberOfFramesToWaitBetweenSteps
      _filetype := filetype }

/-- Member function `ScreenshotController::shouldTakeShot`. -/
def shouldTakeShot (c : ScreenshotController) : Bool :=
  if c._convolutionFrameCounter > 0 then false
  else decide (c._state = ScreenshotControllerState.InSession)

/-- Member function `ScreenshotController::presentCalled`. -/
def presentCalled (c : ScreenshotController) : ScreenshotController :=
  if c._convolutionFrameCounter > 0 then
    { c with _convolutionFrameCounter := c._convolutionFrameCounter - 1 }
  else c

/-- Member function `ScreenshotController::cancelSession`. -/
def cancelSession (c : ScreenshotController) : Outcome :=
  match c._state with
  | .Off => (c, [])
  | .InSession =>
    ({ c with _state := ScreenshotControllerState.Canceling },
      [Event.endScreenshotSession, Event.notify_all])
  | .SavingShots => ({ c with _state := ScreenshotControllerState.Canceling }, [])
  | .Canceling => (c, [])

/-- Member function `ScreenshotController::displayScreenshotSessionStartError`. -/
def displayScreenshotSessionStartError
    (sessionStartResult : ScreenshotSessionStartReturnCode) : List Event :=
  let reason :=
    match sessionStartResult with
    | .Error_CameraNotEnabled => "you haven't enabled the camera."
    | .Error_CameraPathPlaying => "there's a camera path playing."
    | .Error_AlreadySessionActive => "there's already a session active."
    | .Error_CameraFeatureNotAvailable => "the camera feature isn't available in the tools."
    | .AllOk => "Unknown error."
  [Event.addNotification ("Screenshot session couldn't be started: " ++ reason)]

/-- Member function `ScreenshotController::startSession`: the returned flag and the effects. -/
def startSession (env : Env) (c : ScreenshotController) : Bool × List Event :=
  let typeOfShotToUse :=
    if env.debugBuild ∧ c._typeOfShot = ScreenshotType.DebugGrid then ScreenshotType.MultiShot
    else c._typeOfShot
  let sessionStartResult := env.startScreenshotSession typeOfShotToUse
  if sessionStartResult ≠ ScreenshotSessionStartReturnCode.AllOk then
    (false, Event.startScreenshotSession typeOfShotToUse ::
      displayScreenshotSessionStartError sessionStartResult)
  else (true, [Event.startScreenshotSession typeOfShotToUse])

/-- Member function `ScreenshotController::moveCameraForLightfield`. -/
def moveCameraForLightfield (c : ScreenshotController) (direction : Int) (atEnd : Bool) :
    List Event :=
  let distance : ℚ := fmul (intToFloat direction) c._lightField_distancePerStep
  let distance :=
    if atEnd then fmul distance (fmul (1 / 2) (intToFloat c._numberOfShotsToTake)) else distance
  [Event.moveCameraMultishot distance 0 0 false]

/-- Member function `ScreenshotController::moveCameraForPanorama`. -/
def moveCameraForPanorama (c : ScreenshotController) (direction : Int) (atEnd : Bool) :
    List Event :=
  let distance : ℚ := fmul (intToFloat direction) c._pano_anglePerStep
  let distance :=
    if atEnd then fmul distance (fmul (1 / 2) (intToFloat c._numberOfShotsToTake)) else distance
  [Event.moveCameraPanorama distance]

/-- Member function `ScreenshotController::moveCameraForDebugGrid`; `/` and `%` on `int`
truncate, and their results are converted to `float` before the `float` arithmetic. -/
def moveCameraForDebugGrid (shotCounter : Int) (atEnd : Bool) : List Event :=
  let horizontalStep : ℚ :=
    if atEnd then -20 else fadd (-20) (fmul 10 (intToFloat (Int.tmod shotCounter 5)))
  let verticalStep : ℚ :=
    if atEnd then -20 else fadd (-20) (fmul 10 (intToFloat (Int.tdiv shotCounter 5)))
  [Event.moveCameraMultishot horizontalStep verticalStep
    (fmul (intToFloat (Int.tmod shotCounter 5)) 10) true]

/-- Member function `ScreenshotController::moveCameraForMultiView`. -/
def moveCameraForMultiView (env : Env) : List Event :=
  let randomX := doubleToFloat (env.dis 0)
  let randomY := doubleToFloat (env.dis 1)
  let randomZ := doubleToFloat (env.dis 2)
  let randomPitch := doubleToFloat (env.dis 3)
  let randomYaw := doubleToFloat (env.dis 4)
  [Event.moveCameraMultishot randomX randomY randomZ false,
   Event.rotateCamera randomPitch randomYaw 0]

/-- Member function `ScreenshotController::modifyCamera`. -/
def modifyCamera (env : Env) (c : ScreenshotController) : List Event :=
  match c._typeOfShot with
  | .HorizontalPanorama => moveCameraForPanorama c 1 false
  | .MultiShot => moveCameraForLightfield c 1 false
  | .MultiView => moveCameraForMultiView env
  | .DebugGrid => if env.debugBuild then moveCameraForDebugGrid c._shotCounter false else []

/-- Member function `ScreenshotController::typeOfShotAsString`. -/
def typeOfShotAsString (env : Env) (c : ScreenshotController) : String :=
  match c._typeOfShot with
  | .HorizontalPanorama => "HorizontalPanorama"
  | .MultiShot => "Lightfield"
  | .MultiView => "MultiView"
  | .DebugGrid => if env.debugBuild then "DebugGrid" else ""

/-- Member function `ScreenshotController::storeGrabbedShot`. -/
def storeGrabbedShot (env : Env) (c : ScreenshotController) (grabbedShot : List UInt8) :
    Outcome :=
  if grabbedShot.length ≤ 0 then (c, [])
  else
    let c1 :=
      { c with
        _grabbedFrames := c._grabbedFrames ++ [grabbedShot]
        _shotCounter := c._shotCounter + 1 }
    if c1._shotCounter ≥ c1._numberOfShotsToTake then
      ({ c1 with _state := ScreenshotControllerState.SavingShots }, [Event.notify_all])
    else
      ({ c1 with _convolutionFrameCounter := c1._numberOfFramesToWaitBetweenSteps },
        modifyCamera env c1)

/-- One iteration of the packing loop of `reshadeEffectsRendered`: the four bytes at offset
`4 * i` are read, then stored at offset `3 * i`. -/
def packPixel (shotData : List UInt8) (i : Nat) : List UInt8 :=
  let b0 := shotData.getD (4 * i) 0
  let b1 := shotData.getD (4 * i + 1) 0
  let b2 := shotData.getD (4 * i + 2) 0
  let b3 := shotData.getD (4 * i + 3) 0
  (((shotData.set (3 * i) b0).set (3 * i + 1) b1).set (3 * i + 2) b2).set (3 * i + 3) b3

/-- The packing loop `for (int i = 0; i < pixels; ++i)` of `reshadeEffectsRendered`. -/
def packRGBA (shotData : List UInt8) (pixels : Nat) : List UInt8 :=
  (List.range pixels).foldl packPixel shotData

/-- The buffer `shotData` after `capture_screenshot` filled it. -/
def capturedShotData (runtime : Runtime) : List UInt8 :=
  (List.range (mulU32 (mulU32 runtime.width runtime.height) 4)).map runtime.capture_screenshot

/-- Member function `ScreenshotController::reshadeEffectsRendered`. -/
def reshadeEffectsRendered (env : Env) (c : ScreenshotController) (runtime : Runtime) :
    Outcome :=
  if c._state ≠ ScreenshotControllerState.InSession then (c, [])
  else if shouldTakeShot c then
    let c1 :=
      { c with
        _framebufferWidth := runtime.width
        _framebufferHeight := runtime.height }
    let shotData := capturedShotData runtime
    let shotData := packRGBA shotData (mulU32 c1._framebufferWidth c1._framebufferHeight)
    storeGrabbedShot env c1 shotData
  else (c, [])

/-- Member function `ScreenshotController::startHorizontalPanoramaShot`. -/
def startHorizontalPanoramaShot (env : Env) (c : ScreenshotController)
    (totalFoVInDegrees overlapPercentagePerPanoShot currentFoVInDegrees : ℚ)
    (isTestRun : Bool) : Outcome :=
  if !env.cameraToolsConnected then (c, [])
  else
    let c1 := reset c
    let currentFoVInRadians := degreesToRadians env currentFoVInDegrees
    let c2 :=
      { c1 with
        _pano_totalFoVRadians := degreesToRadians env totalFoVInDegrees
        _overlapPercentagePerPanoShot := overlapPercentagePerPanoShot
        _pano_currentFoVRadians := currentFoVInRadians
        _typeOfShot := ScreenshotType.HorizontalPanorama
        _isTestRun := isTestRun }
    let c3 :=
      { c2 with
        _pano_anglePerStep :=
          fmul currentFoVInRadians (fdiv (fsub 100 overlapPercentagePerPanoShot) 100) }
    let c4 :=
      { c3 with
        _numberOfShotsToTake :=
          floatToInt (fadd (fdiv c3._pano_totalFoVRadians c3._pano_anglePerStep) 1) }
    let started := startSession env c4
    if !started.1 then (c4, started.2)
    else
      ({ c4 with
          _convolutionFrameCounter := c4._numberOfFramesToWaitBetweenSteps
          _state := ScreenshotControllerState.InSession },
        started.2 ++ moveCameraForPanorama c4 (-1) true ++ [Event.detachCompletionThread])

/-- The panorama requests in the intended range: binary32 arguments with both fields of view
between 1 and 360 degrees and an overlap between 0 and 99 percent, and a binary32 constant for
pi between 3 and 4. On these every `float` operation of `startHorizontalPanoramaShot` has a
finite non-zero result, so the rounding model agrees with the machine arithmetic. -/
def PanoramaInputs (env : Env) (totalFoVInDegrees overlapPercentagePerPanoShot
    currentFoVInDegrees : ℚ) : Prop :=
  (IsFloat32 env.pi ∧ 3 ≤ env.pi ∧ env.pi ≤ 4)
  ∧ (IsFloat32 totalFoVInDegrees ∧ 1 ≤ totalFoVInDegrees ∧ totalFoVInDegrees ≤ 360)
  ∧ (IsFloat32 overlapPercentagePerPanoShot ∧ 0 ≤ overlapPercentagePerPanoShot
      ∧ overlapPercentagePerPanoShot ≤ 99)
  ∧ (IsFloat32 currentFoVInDegrees ∧ 1 ≤ currentFoVInDegrees ∧ currentFoVInDegrees ≤ 360)

/-- Member function `ScreenshotController::startLightfieldShot`. -/
def startLightfieldShot (env : Env) (c : ScreenshotController) (distancePerStep : ℚ)
    (numberOfShots : Int) (isTestRun : Bool) : Outcome :=
  if !env.cameraToolsConnected then (c, [])
  else
    let c1 :=
      { reset c with
        _isTestRun := isTestRun
        _lightField_distancePerStep := distancePerStep
        _numberOfShotsToTake := numberOfShots
        _typeOfShot := ScreenshotType.MultiShot }
    let started := startSession env c1
    if !started.1 then (c1, started.2)
    else
      ({ c1 with
          _convolutionFrameCounter := c1._numberOfFramesToWaitBetweenSteps
          _state := ScreenshotControllerState.InSession },
        started.2 ++ moveCameraForLightfield c1 (-1) true ++ [Event.detachCompletionThread])

/-- Member function `ScreenshotController::startDebugGridShot`. -/
def startDebugGridShot (env : Env) (c : ScreenshotController) : Outcome :=
  if !env.cameraToolsConnected then (c, [])
  else
    let c1 :=
      { reset c with
        _isTestRun := true
        _lightField_distancePerStep := 10
        _numberOfShotsToTake := 15
        _typeOfShot := ScreenshotType.DebugGrid }
    let started := startSession env c1
    if !started.1 then (c1, started.2)
    else
      ({ c1 with
          _convolutionFrameCounter := c1._numberOfFramesToWaitBetweenSteps
          _state := ScreenshotControllerState.InSession },
        started.2 ++ moveCameraForDebugGrid (-1) true ++ [Event.detachCompletionThread])

/-- Member function `ScreenshotController::startMultiViewShot`. -/
def startMultiViewShot (env : Env) (c : ScreenshotController) (numberOfShots : Int)
    (isTestRun : Bool) : Outcome :=
  if !env.cameraToolsConnected then (c, [])
  else
    let c1 :=
      { reset c with
        _isTestRun := isTestRun
        _numberOfShotsToTake := numberOfShots
        _typeOfShot := ScreenshotType.MultiView }
    let started := startSession env c1
    if !started.1 then (c1, started.2)
    else
      ({ c1 with
          _convolutionFrameCounter := c1._numberOfFramesToWaitBetweenSteps
          _state := ScreenshotControllerState.InSession },
        started.2 ++ [Event.detachCompletionThread])

/-- A call of one of the four public start operations, with its arguments. -/
inductive StartRequest where
  | horizontalPanorama (totalFoVInDegrees overlapPercentagePerPanoShot currentFoVInDegrees : ℚ)
      (isTestRun : Bool)
  | lightfield (distancePerStep : ℚ) (numberOfShots : Int) (isTestRun : Bool)
  | debugGrid
  | multiView (numberOfShots : Int) (isTestRun : Bool)

/-- Dispatch of a start request to the member function it names. -/
def StartRequest.call (env : Env) (c : ScreenshotController) : StartRequest → Outcome
  | .horizontalPanorama totalFoV overlap currentFoV isTestRun =>
    startHorizontalPanoramaShot env c totalFoV overlap currentFoV isTestRun
  | .lightfield distancePerStep numberOfShots isTestRun =>
    startLightfieldShot env c distancePerStep numberOfShots isTestRun
  | .debugGrid => startDebugGridShot env c
  | .multiView numberOfShots isTestRun => startMultiViewShot env c numberOfShots isTestRun

/-- Member function `ScreenshotController::createScreenshotFolder`: the folder name and the
effects. -/
def createScreenshotFolder (env : Env) (c : ScreenshotController) : String × List Event :=
  let tm := env.localtime
  let optionalBackslash :=
    if c._rootFolder.data.getLast? = some backslash then "" else String.singleton backslash
  let folderName :=
    c._rootFolder ++ optionalBackslash ++ typeOfShotAsString env c
      ++ "-" ++ formatIntPrecision 4 (tm.tm_year + 1900)
      ++ "-" ++ formatIntPrecision 2 (tm.tm_mon + 1)
      ++ "-" ++ formatIntPrecision 2 tm.tm_mday
      ++ "-" ++ formatIntPrecision 2 tm.tm_hour
      ++ "-" ++ formatIntPrecision 2 tm.tm_min
      ++ "-" ++ formatIntPrecision 2 tm.tm_sec
  (folderName, [Event.mkdir folderName])

/-- Member function `ScreenshotController::saveShotToFile`. -/
def saveShotToFile (env : Env) (c : ScreenshotController) (destinationFolder : String)
    (data : List UInt8) (frameNumber : Int) : List Event :=
  let stem := destinationFolder ++ String.singleton backslash ++ toString frameNumber
  match c._filetype with
  | .Bmp =>
    [Event.stbi_write_bmp (stem ++ ".bmp") c._framebufferWidth c._framebufferHeight 3 data]
  | .Jpeg =>
    [Event.stbi_write_jpg (stem ++ ".jpg") c._framebufferWidth c._framebufferHeight 3 data 98]
  | .Png =>
    let filename := stem ++ ".png"
    let encoded_data := env.fpng_encode data c._framebufferWidth c._framebufferHeight 3
    if env.fopenSucceeds filename then
      [Event.fopen_s filename, Event.fwrite filename encoded_data, Event.fclose filename]
    else [Event.fopen_s filename]

/-- The range-for loop of `saveGrabbedShots` over the frames still to be written, with the
current value of `frameNumber`. -/
def saveFrames (env : Env) (c : ScreenshotController) (destinationFolder : String) :
    List (List UInt8) → Int → List Event
  | [], _ => []
  | frame :: rest, frameNumber =>
    saveShotToFile env c destinationFolder frame frameNumber
      ++ saveFrames env c destinationFolder rest (frameNumber + 1)

/-- Member function `ScreenshotController::saveGrabbedShots`. -/
def saveGrabbedShots (env : Env) (c : ScreenshotController) : Outcome :=
  if c._grabbedFrames.length ≤ 0 then (c, [])
  else if !c._isTestRun then
    let c1 := { c with _state := ScreenshotControllerState.SavingShots }
    let folder := createScreenshotFolder env c1
    (c1, folder.2 ++ saveFrames env c1 folder.1 c1._grabbedFrames 0)
  else (c, [])

/-- Member function `ScreenshotController::waitForShots`: `none` while the wait predicate
`_state != InSession` is false (the thread stays blocked), otherwise the effects. The function
gives the outcome of an evaluation of the predicate; a thread that already sleeps in `wait`
evaluates it again only when it is woken (`notify_all`, or a spurious wake-up), so a result
`some` for a sleeping thread presupposes such a wake-up. -/
def waitForShots (c : ScreenshotController) : Option (List Event) :=
  if c._state ≠ ScreenshotControllerState.InSession then some [Event.endScreenshotSession]
  else none

/-- Member function `ScreenshotController::completeShotSession`, the body of the completion
thread: `none` while `waitForShots` is blocked. -/
def completeShotSession (env : Env) (c : ScreenshotController) : Option Outcome :=
  let shotTypeDescription := typeOfShotAsString env c
  match waitForShots c with
  | none => none
  | some waited =>
    let saved : Outcome :=
      if c._state ≠ ScreenshotControllerState.Canceling then
        if c._isTestRun then (c, [Event.addNotification "Test run completed."])
        else
          let written := saveGrabbedShots env c
          (written.1,
            [Event.addNotification
                ("All " ++ shotTypeDescription ++ " shots have been taken. Writing shots to disk...")]
              ++ written.2 ++ [Event.addNotification (shotTypeDescription ++ " done.")])
      else (c, [])
    some (reset saved.1, waited ++ saved.2)

/-! ## Sequences of public operations -/

/-- The public operations of the controller, as the host and the completion thread invoke
them, each with the collaborator answers it observes. -/
inductive Operation where
  | configure (rootFolder : String) (numberOfFramesToWaitBetweenSteps : Int)
      (filetype : ScreenshotFiletype)
  | start (env : Env) (request : StartRequest)
  | presentCalled
  | reshadeEffectsRendered (env : Env) (runtime : Runtime)
  | cancelSession
  | completeShotSession (env : Env)

/-- Effect of one operation; a completion thread that is still blocked changes nothing. -/
def Operation.apply (c : ScreenshotController) : Operation → Outcome
  | .configure rootFolder wait filetype =>
    (IgcsConnector.configure c rootFolder wait filetype, [])
  | .start env request => request.call env c
  | .presentCalled => (IgcsConnector.presentCalled c, [])
  | .reshadeEffectsRendered env runtime => IgcsConnector.reshadeEffectsRendered env c runtime
  | .cancelSession => IgcsConnector.cancelSession c
  | .completeShotSession env => (IgcsConnector.completeShotSession env c).getD (c, [])

/-- The controller after a sequence of operations. -/
def runOperations (c : ScreenshotController) (ops : List Operation) : ScreenshotController :=
  ops.foldl (fun acc op => (op.apply acc).1) c

/-- Modelled from the spec: the class declaration `ScreenshotController.h` is not part of the
sources; a newly constructed controller is idle (state `Off`, the initial state), with the
per-session members at the values `reset` assigns and any output configuration. -/
def idleController (rootFolder : String) (numberOfFramesToWaitBetweenSteps : Int)
    (filetype : ScreenshotFiletype) : ScreenshotController :=
  { _rootFolder := rootFolder
    _numberOfFramesToWaitBetweenSteps := numberOfFramesToWaitBetweenSteps
    _filetype := filetype
    _framebufferWidth := 0
    _framebufferHeight := 0
    _typeOfShot := ScreenshotType.HorizontalPanorama
    _state := ScreenshotControllerState.Off
    _pano_totalFoVRadians := 0
    _pano_currentFoVRadians := 0
    _lightField_distancePerStep := 0
    _pano_anglePerStep := 0
    _numberOfShotsToTake := 0
    _convolutionFrameCounter := 0
    _shotCounter := 0
    _overlapPercentagePerPanoShot := 30
    _isTestRun := false
    _grabbedFrames := [] }

/-- Controllers reachable from an idle controller by a sequence of public operations. -/
def Reachable (c : ScreenshotController) : Prop :=
  ∃ (rootFolder : String) (wait : Int) (filetype : ScreenshotFiletype) (ops : List Operation),
    runOperations (idleController rootFolder wait filetype) ops = c

/-- The invariant carried along every sequence of public operations: the shot counter counts
the buffered frames; during a session either nothing is buffered yet or the target is not yet
reached; and the buffered frames number at most the larger of the target and one. -/
def SessionInvariant (c : ScreenshotController) : Prop :=
  c._shotCounter = (c._grabbedFrames.length : Int)
  ∧ (c._state = ScreenshotControllerState.InSession →
      c._grabbedFrames.length = 0 ∨ (c._grabbedFrames.length : Int) < c._numberOfShotsToTake)
  ∧ (c._grabbedFrames.length : Int) ≤ max c._numberOfShotsToTake 1

/-! ## Sample inputs -/

/-- A release build whose connector is connected and accepts every session; `pi` is the
binary32 value nearest to pi. -/
def acceptingEnv : Env :=
  { debugBuild := false
    pi := 13176795 / 2 ^ 22
    cameraToolsConnected := true
    startScreenshotSession := fun _ => ScreenshotSessionStartReturnCode.AllOk
    dis := fun _ => 0
    localtime :=
      { tm_year := 124, tm_mon := 0, tm_mday := 5, tm_hour := 3, tm_min := 4, tm_sec := 5 }
    fopenSucceeds := fun _ => true
    fpng_encode := fun data _ _ _ => data }

/-- A connected connector that refuses every session as already active. -/
def refusingEnv : Env :=
  { acceptingEnv with
    startScreenshotSession := fun _ => ScreenshotSessionStartReturnCode.Error_AlreadySessionActive }

/-- A connector that is not connected. -/
def disconnectedEnv : Env :=
  { acceptingEnv with cameraToolsConnected := false }

/-- An idle controller that waits zero frames between steps. -/
def idleSample : ScreenshotController :=
  idleController "" 0 ScreenshotFiletype.Jpeg

/-- A runtime with a 1x1 framebuffer whose pixel is R = 200, G = 100, B = 50, A = 255. -/
def onePixel : Runtime :=
  { width := 1
    height := 1
    capture_screenshot := fun p => [200, 100, 50, 255].getD p 0 }

/-- A light-field session of `n` shots, just started from `idleSample`. -/
def lightfieldSession (n : Int) : ScreenshotController :=
  (startLightfieldShot acceptingEnv idleSample 1 n false).1

/-- A three-shot light-field session after its first capture. -/
def sessionWithFrame : ScreenshotController :=
  (reshadeEffectsRendered acceptingEnv (lightfieldSession 3) onePixel).1

/-- A multi-view session started after `configure` stored a wait count of `-1`. -/
def negativeWaitSession : ScreenshotController :=
  (startMultiViewShot acceptingEnv
    (configure idleSample "" (-1) ScreenshotFiletype.Jpeg) 2 false).1

/-- A light-field session started with a shot count of zero, after its first capture. -/
def zeroShotRun : ScreenshotController :=
  runOperations idleSample
    [Operation.start acceptingEnv (StartRequest.lightfield 1 0 false),
     Operation.reshadeEffectsRendered acceptingEnv onePixel]

/-! ## Drivers for sequences of calls -/

/-- Successive calls of `storeGrabbedShot`, one per captured buffer in capture order, with the
effects of all calls in order. -/
def storeGrabbedShots (env : Env) (c : ScreenshotController) : List (List UInt8) → Outcome
  | [] => (c, [])
  | grabbedShot :: rest =>
    let first := storeGrabbedShot env c grabbedShot
    let others := storeGrabbedShots env first.1 rest
    (others.1, first.2 ++ others.2)

/-- The controller after `j` successive calls of `presentCalled`. -/
def presentCalledTimes (c : ScreenshotController) : Nat → ScreenshotController
  | 0 => c
  | j + 1 => presentCalled (presentCalledTimes c j)

/-! ## Bounds of the packing loop -/

/-- One iteration of the packing loop with its accesses checked: `none` when the four bytes
read at offset `4 * i` or the four bytes written at offset `3 * i` do not all lie inside the
buffer. -/
def packPixelChecked (shotData : List UInt8) (i : Nat) : Option (List UInt8) :=
  if 4 * i + 3 < shotData.length ∧ 3 * i + 3 < shotData.length then
    some (packPixel shotData i)
  else none

/-- The packing loop with every access checked. -/
def packRGBAChecked (shotData : List UInt8) (pixels : Nat) : Option (List UInt8) :=
  (List.range pixels).foldlM packPixelChecked shotData

/-! ## Reading the effects -/

/-- The data a call writes to a file: the file name and the bytes handed to `stbi_write_bmp`,
`stbi_write_jpg` or `fwrite`. Opening or closing a file writes nothing. -/
def Event.fileWrite : Event → Option (String × List UInt8)
  | .stbi_write_bmp filename _ _ _ data => some (filename, data)
  | .stbi_write_jpg filename _ _ _ data _ => some (filename, data)
  | .fwrite filename encoded_data => some (filename, encoded_data)
  | _ => none

/-- The file name extension `saveShotToFile` uses for a file type. -/
def fileExtension : ScreenshotFiletype → String
  | .Bmp => ".bmp"
  | .Jpeg => ".jpg"
  | .Png => ".png"

/-- The name `saveShotToFile` gives the file of frame `frameNumber` in `destinationFolder`. -/
def shotFileName (destinationFolder : String) (filetype : ScreenshotFiletype)
    (frameNumber : Int) : String :=
  destinationFolder ++ String.singleton backslash ++ toString frameNumber
    ++ fileExtension filetype

/-! ## Sample sessions -/

/-- A two-shot light-field test run, just started from `idleSample`. -/
def testRunSession : ScreenshotController :=
  (startLightfieldShot acceptingEnv idleSample 1 2 true).1

/-- Two captured one-pixel buffers. -/
def twoShots : List (List UInt8) :=
  [[200, 100, 50, 255], [10, 20, 30, 255]]

/-- A two-shot light-field session, not a test run, after both captures. -/
def completedSession : ScreenshotController :=
  (storeGrabbedShots acceptingEnv (lightfieldSession 2) twoShots).1

/-- A two-shot light-field session configured for PNG, not a test run, after both captures. -/
def pngCompletedSession : ScreenshotController :=
  (storeGrabbedShots acceptingEnv
    (startLightfieldShot acceptingEnv (configure idleSample "" 0 ScreenshotFiletype.Png)
      1 2 false).1 twoShots).1

/-- The collaborators of `acceptingEnv` on a disk where no file can be opened for writing. -/
def closedDiskEnv : Env :=
  { acceptingEnv with fopenSucceeds := fun _ => false }

/-- An idle controller configured to wait two frames between steps. -/
def waitTwoIdle : ScreenshotController :=
  configure idleSample "" 2 ScreenshotFiletype.Jpeg

/-! ## Sequences of member function calls -/

/-- A call of a member function of the controller, `storeGrabbedShot` and `reset` included,
with the collaborator answers it observes. -/
inductive MemberCall where
  | configure (rootFolder : String) (numberOfFramesToWaitBetweenSteps : Int)
      (filetype : ScreenshotFiletype)
  | start (env : Env) (request : StartRequest)
  | presentCalled
  | storeGrabbedShot (env : Env) (grabbedShot : List UInt8)
  | reshadeEffectsRendered (env : Env) (runtime : Runtime)
  | cancelSession
  | completeShotSession (env : Env)
  | reset

/-- Effect of one call; a completion thread that is still blocked changes nothing. -/
def MemberCall.apply (c : ScreenshotController) : MemberCall → Outcome
  | .configure rootFolder wait filetype =>
    (IgcsConnector.configure c rootFolder wait filetype, [])
  | .start env request => request.call env c
  | .presentCalled => (IgcsConnector.presentCalled c, [])
  | .storeGrabbedShot env grabbedShot => IgcsConnector.storeGrabbedShot env c grabbedShot
  | .reshadeEffectsRendered env runtime => IgcsConnector.reshadeEffectsRendered env c runtime
  | .cancelSession => IgcsConnector.cancelSession c
  | .completeShotSession env => (IgcsConnector.completeShotSession env c).getD (c, [])
  | .reset => (IgcsConnector.reset c, [])

/-- The controller after a sequence of calls. -/
def runCalls (c : ScreenshotController) (calls : List MemberCall) : ScreenshotController :=
  calls.foldl (fun acc call => (call.apply acc).1) c

/-- Controllers reachable from an idle controller by a sequence of member function calls. -/
def ReachableByCalls (c : ScreenshotController) : Prop :=
  ∃ (rootFolder : String) (wait : Int) (filetype : ScreenshotFiletype)
    (calls : List MemberCall),
    runCalls (idleController rootFolder wait filetype) calls = c

/-! ## Rotation of a panorama -/

/-- The angle a command rotates the panorama camera by: the argument of
`moveCameraPanorama`, and 0 for every other effect. -/
def Event.panoramaRotation : Event → ℚ
  | .moveCameraPanorama distance => distance
  | _ => 0

/-- The sum of the panorama rotations of a sequence of effects. -/
def rotationSum (events : List Event) : ℚ :=
  (events.map Event.panoramaRotation).sum

/-- Fourteen captured one-pixel buffers. -/
def fourteenShots : List (List UInt8) :=
  List.replicate 14 [200, 100, 50, 255]

/-- A sequence of calls that stores a frame outside any session and then starts one. -/
def sampleCalls : List MemberCall :=
  [MemberCall.storeGrabbedShot acceptingEnv [200, 100, 50, 255],
   MemberCall.start acceptingEnv (StartRequest.multiView 3 false),
   MemberCall.storeGrabbedShot acceptingEnv [10, 20, 30, 255],
   MemberCall.storeGrabbedShot acceptingEnv [],
   MemberCall.presentCalled]

/-! ## Accesses to the session state and the wait-completion mutex -/

/-- The steps of a member function that matter for the synchronisation of `_state`:
acquisitions and releases of `_waitCompletionMutex`, and reads and writes of `_state`. -/
inductive SyncStep where
  /-- The calling thread acquires `_waitCompletionMutex`: the constructor of
  `std::unique_lock`, or the re-acquisition when `wait` wakes up. -/
  | lock
  /-- The calling thread releases `_waitCompletionMutex`: `wait` going to sleep, or the
  destructor of `std::unique_lock`. -/
  | unlock
  /-- An expression reads `_state`. -/
  | readState
  /-- A statement assigns `_state`. -/
  | writeState
deriving DecidableEq, Repr

/-- Whether every read and write of `_state` in a sequence of steps happens while the calling
thread holds `_waitCompletionMutex`; `held` tells whether it holds the mutex at the start. -/
def mutexGuarded : Bool → List SyncStep → Bool
  | _, [] => true
  | _, .lock :: rest => mutexGuarded true rest
  | _, .unlock :: rest => mutexGuarded false rest
  | held, .readState :: rest => held && mutexGuarded held rest
  | held, .writeState :: rest => held && mutexGuarded held rest

/-- Steps of `ScreenshotController::cancelSession`: `switch(_state)` reads the state, and the
cases `InSession` and `SavingShots` assign it; no lock is taken. -/
def cancelSessionSteps (c : ScreenshotController) : List SyncStep :=
  match c._state with
  | .Off => [SyncStep.readState]
  | .InSession => [SyncStep.readState, SyncStep.writeState]
  | .SavingShots => [SyncStep.readState, SyncStep.writeState]
  | .Canceling => [SyncStep.readState]

/-- Steps of `ScreenshotController::shouldTakeShot`: the state is read by the `return`
statement, reached when the skip counter is not positive; no lock is taken. -/
def shouldTakeShotSteps (c : ScreenshotController) : List SyncStep :=
  if c._convolutionFrameCounter > 0 then [] else [SyncStep.readState]

/-- Steps of `ScreenshotController::storeGrabbedShot`: the state is assigned when the
incremented shot counter reaches the target; no lock is taken. -/
def storeGrabbedShotSteps (c : ScreenshotController) (grabbedShot : List UInt8) :
    List SyncStep :=
  if grabbedShot.length ≤ 0 then []
  else if c._shotCounter + 1 ≥ c._numberOfShotsToTake then [SyncStep.writeState]
  else []

/-- Steps of `ScreenshotController::waitForShots` when the thread goes to sleep `sleeps` times:
`std::unique_lock lock(_waitCompletionMutex)` acquires the mutex, `wait(lock, predicate)`
evaluates the predicate (a read of `_state`) with the mutex held, each sleep releases the mutex
and re-acquires it before the predicate is evaluated again, and the destructor of `lock`
releases the mutex. -/
def waitForShotsSteps (sleeps : Nat) : List SyncStep :=
  [SyncStep.lock, SyncStep.readState]
    ++ (List.replicate sleeps [SyncStep.unlock, SyncStep.lock, SyncStep.readState]).flatten
    ++ [SyncStep.unlock]

/-- Steps of `ScreenshotController::saveGrabbedShots`: the state is assigned when frames are
buffered and the session is not a test run; no lock is taken. -/
def saveGrabbedShotsSteps (c : ScreenshotController) : List SyncStep :=
  if c._grabbedFrames.length ≤ 0 then []
  else if !c._isTestRun then [SyncStep.writeState]
  else []

/-- Steps of `ScreenshotController::reset`: the state is assigned; no lock is taken. -/
def resetSteps : List SyncStep :=
  [SyncStep.writeState]

/-- Steps of `ScreenshotController::completeShotSession` on the controller `c` found when the
wait returns: the steps of `waitForShots`, the read of `_state` in
`if(_state != Canceling)`, the steps of `saveGrabbedShots` when it is called, and the steps of
`reset`. -/
def completeShotSessionSteps (c : ScreenshotController) (sleeps : Nat) : List SyncStep :=
  waitForShotsSteps sleeps ++ [SyncStep.readState]
    ++ (if c._state ≠ ScreenshotControllerState.Canceling then
          if c._isTestRun then [] else saveGrabbedShotsSteps c
        else [])
    ++ resetSteps

/-! ## Lemmas on binary32 rounding -/

theorem roundHalfEven_intCast (n : Int) : roundHalfEven (n : ℚ) = n := by
  simp [roundHalfEven]

theorem roundHalfEven_of_near (q : ℚ) (m : Int) (h1 : (m : ℚ) - 1 / 2 < q)
    (h2 : q < (m : ℚ) + 1 / 2) : roundHalfEven q = m := by
  unfold roundHalfEven
  have hf1 : (⌊q⌋ : ℚ) ≤ q := Int.floor_le q
  have hf2 : q < (⌊q⌋ : ℚ) + 1 := Int.lt_floor_add_one q
  by_cases hlt : q - (⌊q⌋ : ℚ) < 1 / 2
  · simp only [hlt, if_true]
    have ha : ((⌊q⌋ : Int) : ℚ) < (m : ℚ) + 1 := by linarith
    have hb : (m : ℚ) - 1 < ((⌊q⌋ : Int) : ℚ) := by linarith
    have ha' : ⌊q⌋ < m + 1 := by exact_mod_cast ha
    have hb' : m - 1 < ⌊q⌋ := by exact_mod_cast hb
    omega
  · simp only [hlt, if_false]
    have hge : 1 / 2 ≤ q - (⌊q⌋ : ℚ) := not_lt.mp hlt
    have ha : ((⌊q⌋ : Int) : ℚ) < (m : ℚ) := by linarith
    have hb : (m : ℚ) - 2 < ((⌊q⌋ : Int) : ℚ) := by linarith
    have ha' : ⌊q⌋ < m := by exact_mod_cast ha
    have hb' : m - 2 < ⌊q⌋ := by exact_mod_cast hb
    have hfm : ⌊q⌋ = m - 1 := by omega
    have hgt : 1 / 2 < q - (⌊q⌋ : ℚ) := by
      rw [hfm]; push_cast; linarith
    simp only [hgt, if_true]
    omega

theorem roundHalfEven_of_tie (q : ℚ) (m : Int) (hq : q = (m : ℚ) + 1 / 2) :
    roundHalfEven q = if m % 2 = 0 then m else m + 1 := by
  have hfloor : ⌊q⌋ = m := by
    rw [Int.floor_eq_iff, hq]
    constructor <;> linarith
  unfold roundHalfEven
  simp only [hfloor, hq]
  norm_num

theorem ulpExponent_eq (x : ℚ) (e : Int) (he : -126 ≤ e) (hlo : (2 : ℚ) ^ e ≤ |x|)
    (hhi : |x| < (2 : ℚ) ^ (e + 1)) : ulpExponent x = e - 23 := by
  have hpos : 0 < |x| := lt_of_lt_of_le (by positivity) hlo
  have h1 : e ≤ Int.log 2 |x| :=
    (Int.zpow_le_iff_le_log (by norm_num) hpos).1 (by exact_mod_cast hlo)
  have h2 : Int.log 2 |x| < e + 1 :=
    (Int.lt_zpow_iff_log_lt (by norm_num) hpos).1 (by exact_mod_cast hhi)
  unfold ulpExponent
  have hlog : Int.log 2 |x| = e := by omega
  rw [hlog, max_eq_left he]

/-- Evaluation of `round32` away from a tie: `x` lies in the binade of `2 ^ e` and strictly
within half a unit of `m` units. -/
theorem round32_eq_of_near (x v : ℚ) (e m : Int) (he : -126 ≤ e) (hlo : (2 : ℚ) ^ e ≤ |x|)
    (hhi : |x| < (2 : ℚ) ^ (e + 1))
    (h1 : ((m : ℚ) - 1 / 2) * (2 : ℚ) ^ (e - 23) < x)
    (h2 : x < ((m : ℚ) + 1 / 2) * (2 : ℚ) ^ (e - 23))
    (hv : v = (m : ℚ) * (2 : ℚ) ^ (e - 23)) : round32 x = v := by
  unfold round32
  rw [ulpExponent_eq x e he hlo hhi, hv]
  have hu : (0 : ℚ) < (2 : ℚ) ^ (e - 23) := by positivity
  rw [roundHalfEven_of_near _ m ((lt_div_iff₀ hu).2 h1) ((div_lt_iff₀ hu).2 h2)]

/-- Evaluation of `round32` on a tie: `x` is `m` units and a half, and the even neighbour is
taken. -/
theorem round32_eq_of_tie (x v : ℚ) (e m : Int) (he : -126 ≤ e) (hlo : (2 : ℚ) ^ e ≤ |x|)
    (hhi : |x| < (2 : ℚ) ^ (e + 1))
    (hx : x = ((m : ℚ) + 1 / 2) * (2 : ℚ) ^ (e - 23))
    (hv : v = ((if m % 2 = 0 then m else m + 1 : Int) : ℚ) * (2 : ℚ) ^ (e - 23)) :
    round32 x = v := by
  unfold round32
  rw [ulpExponent_eq x e he hlo hhi, hv]
  have hu : (2 : ℚ) ^ (e - 23) ≠ 0 := by positivity
  rw [roundHalfEven_of_tie _ m (by rw [hx, mul_div_assoc, div_self hu, mul_one])]

theorem round32_zero : round32 0 = 0 := by
  simp [round32, roundHalfEven]

/-- Values `m * 2 ^ k` with at most 24 significant bits and `k` at least `-149` are not
changed by the rounding. -/
theorem round32_exact (m k : Int) (hm : |m| < 2 ^ 24) (hk : -149 ≤ k) :
    round32 ((m : ℚ) * (2 : ℚ) ^ k) = (m : ℚ) * (2 : ℚ) ^ k := by
  by_cases hm0 : m = 0
  · subst hm0
    simp [round32_zero]
  · have hmq : (0 : ℚ) < |(m : ℚ)| := abs_pos.mpr (by exact_mod_cast hm0)
    have hx : (0 : ℚ) < |(m : ℚ) * (2 : ℚ) ^ k| := by
      rw [abs_mul]; positivity
    have hlt : |(m : ℚ) * (2 : ℚ) ^ k| < (2 : ℚ) ^ (24 + k) := by
      rw [abs_mul, abs_of_pos (by positivity : (0 : ℚ) < (2 : ℚ) ^ k), zpow_add₀ (by norm_num)]
      apply mul_lt_mul_of_pos_right _ (by positivity)
      have h24 : ((|m| : Int) : ℚ) < ((2 ^ 24 : Int) : ℚ) := by exact_mod_cast hm
      rw [Int.cast_abs] at h24
      calc |(m : ℚ)| < ((2 ^ 24 : Int) : ℚ) := h24
        _ = (2 : ℚ) ^ (24 : Int) := by norm_num
    have hlog : Int.log 2 |(m : ℚ) * (2 : ℚ) ^ k| < 24 + k :=
      (Int.lt_zpow_iff_log_lt (by norm_num) hx).1 (by exact_mod_cast hlt)
    have hp : ulpExponent ((m : ℚ) * (2 : ℚ) ^ k) ≤ k := by
      unfold ulpExponent
      rcases le_total (Int.log 2 |(m : ℚ) * (2 : ℚ) ^ k|) (-126) with h | h
      · rw [max_eq_right h]; omega
      · rw [max_eq_left h]; omega
    obtain ⟨j, hj⟩ : ∃ j : Nat, k - ulpExponent ((m : ℚ) * (2 : ℚ) ^ k) = (j : Int) :=
      ⟨(k - ulpExponent ((m : ℚ) * (2 : ℚ) ^ k)).toNat, (Int.toNat_of_nonneg (by omega)).symm⟩
    have hq : (m : ℚ) * (2 : ℚ) ^ k / (2 : ℚ) ^ ulpExponent ((m : ℚ) * (2 : ℚ) ^ k)
        = ((m * 2 ^ j : Int) : ℚ) := by
      rw [mul_div_assoc, ← zpow_sub₀ (by norm_num), hj]
      push_cast
      rw [zpow_natCast]
    unfold round32
    rw [hq, roundHalfEven_intCast, ← hq]
    field_simp

theorem round32_of_isFloat32 (x : ℚ) (h : IsFloat32 x) : round32 x = x := by
  obtain ⟨m, k, hm, hk, _, rfl⟩ := h
  exact round32_exact m k hm hk

theorem isFloat32_neg (x : ℚ) (h : IsFloat32 x) : IsFloat32 (-x) := by
  obtain ⟨m, k, hm, hk, hk2, rfl⟩ := h
  exact ⟨-m, k, by rwa [abs_neg], hk, hk2, by push_cast; ring⟩

theorem isFloat32_intCast (n : Int) (hn : |n| ≤ 2 ^ 24) : IsFloat32 (n : ℚ) := by
  by_cases h : |n| < 2 ^ 24
  · exact ⟨n, 0, h, by norm_num, by norm_num, by simp⟩
  · have habs : |n| = 2 ^ 24 := by omega
    rcases abs_eq (by norm_num : (0 : Int) ≤ 2 ^ 24) |>.1 habs with h1 | h1
    · exact ⟨1, 24, by norm_num, by norm_num, by norm_num, by rw [h1]; norm_num⟩
    · exact ⟨-1, 24, by norm_num, by norm_num, by norm_num, by rw [h1]; norm_num⟩

theorem isFloat32_half_intCast (n : Int) (hn : |n| ≤ 2 ^ 24) :
    IsFloat32 ((1 / 2) * (n : ℚ)) := by
  by_cases h : |n| < 2 ^ 24
  · exact ⟨n, -1, h, by norm_num, by norm_num, by rw [zpow_neg_one]; ring⟩
  · have habs : |n| = 2 ^ 24 := by omega
    rcases abs_eq (by norm_num : (0 : Int) ≤ 2 ^ 24) |>.1 habs with h1 | h1
    · exact ⟨1, 23, by norm_num, by norm_num, by norm_num, by rw [h1]; norm_num⟩
    · exact ⟨-1, 23, by norm_num, by norm_num, by norm_num, by rw [h1]; norm_num⟩

theorem intToFloat_eq (n : Int) (hn : |n| ≤ 2 ^ 24) : intToFloat n = (n : ℚ) :=
  round32_of_isFloat32 _ (isFloat32_intCast n hn)

theorem fmul_half_intToFloat (n : Int) (hn : |n| ≤ 2 ^ 24) :
    fmul (1 / 2) (intToFloat n) = (1 / 2) * (n : ℚ) := by
  rw [intToFloat_eq n hn]
  exact round32_of_isFloat32 _ (isFloat32_half_intCast n hn)

theorem fmul_one_left (x : ℚ) (h : IsFloat32 x) : fmul (intToFloat 1) x = x := by
  rw [intToFloat_eq 1 (by norm_num)]
  unfold fmul
  rw [Int.cast_one, one_mul]
  exact round32_of_isFloat32 x h

theorem fmul_negOne_left (x : ℚ) (h : IsFloat32 x) : fmul (intToFloat (-1)) x = -x := by
  rw [intToFloat_eq (-1) (by norm_num)]
  unfold fmul
  have hx : ((-1 : Int) : ℚ) * x = -x := by push_cast; ring
  rw [hx]
  exact round32_of_isFloat32 _ (isFloat32_neg x h)

theorem floor_le_roundHalfEven (q : ℚ) : ⌊q⌋ ≤ roundHalfEven q := by
  unfold roundHalfEven
  dsimp only
  split_ifs <;> omega

theorem le_roundHalfEven (q : ℚ) (n : Int) (h : (n : ℚ) ≤ q) : n ≤ roundHalfEven q :=
  le_trans (Int.le_floor.2 h) (floor_le_roundHalfEven q)

theorem roundHalfEven_le (q : ℚ) (n : Int) (h : q ≤ (n : ℚ)) : roundHalfEven q ≤ n := by
  have hf : ⌊q⌋ ≤ n := by
    have : ((⌊q⌋ : Int) : ℚ) ≤ (n : ℚ) := le_trans (Int.floor_le q) h
    exact_mod_cast this
  by_cases hlt : q - (⌊q⌋ : ℚ) < 1 / 2
  · unfold roundHalfEven
    dsimp only
    rw [if_pos hlt]
    exact hf
  · have hne : ((⌊q⌋ : Int) : ℚ) < (n : ℚ) := by
      have := not_lt.mp hlt
      linarith
    have hlt2 : ⌊q⌋ < n := by exact_mod_cast hne
    unfold roundHalfEven
    dsimp only
    split_ifs <;> omega

theorem abs_roundHalfEven_sub_le (q : ℚ) : |(roundHalfEven q : ℚ) - q| ≤ 1 / 2 := by
  have h1 := Int.floor_le q
  have h2 := Int.lt_floor_add_one q
  unfold roundHalfEven
  dsimp only
  rw [abs_le]
  split_ifs with a b c
  · constructor <;> linarith
  · push_cast; constructor <;> linarith
  · have := not_lt.mp a
    have := not_lt.mp b
    constructor <;> linarith
  · have := not_lt.mp a
    have := not_lt.mp b
    push_cast
    constructor <;> linarith

theorem ulpExponent_ge (x : ℚ) : -149 ≤ ulpExponent x := by
  unfold ulpExponent
  have := le_max_right (Int.log 2 |x|) (-126)
  omega

theorem abs_lt_zpow_ulpExponent (x : ℚ) : |x| < (2 : ℚ) ^ (ulpExponent x + 24) := by
  have h1 : |x| < (2 : ℚ) ^ (Int.log 2 |x| + 1) := by
    have := Int.lt_zpow_succ_log_self (by norm_num : 1 < 2) |x|
    exact_mod_cast this
  have h2 : Int.log 2 |x| + 1 ≤ ulpExponent x + 24 := by
    unfold ulpExponent
    have := le_max_left (Int.log 2 |x|) (-126)
    omega
  exact lt_of_lt_of_le h1 (zpow_le_zpow_right₀ (by norm_num) h2)

theorem zpow_ulpExponent_le (x : ℚ) (hlo : (2 : ℚ) ^ (-126 : Int) ≤ |x|) :
    (2 : ℚ) ^ (ulpExponent x + 23) ≤ |x| := by
  have hpos : 0 < |x| := lt_of_lt_of_le (by positivity) hlo
  have h1 : -126 ≤ Int.log 2 |x| :=
    (Int.zpow_le_iff_le_log (by norm_num) hpos).1 (by exact_mod_cast hlo)
  have h2 : ulpExponent x + 23 = Int.log 2 |x| := by
    unfold ulpExponent
    rw [max_eq_left h1]
    omega
  rw [h2]
  have := Int.zpow_log_le_self (by norm_num : 1 < 2) hpos
  exact_mod_cast this

/-- The rounding error is at most half a unit in the last place. -/
theorem abs_round32_sub_le (x : ℚ) :
    |round32 x - x| ≤ (2 : ℚ) ^ ulpExponent x / 2 := by
  have hu : (0 : ℚ) < (2 : ℚ) ^ ulpExponent x := by positivity
  have h := abs_roundHalfEven_sub_le (x / (2 : ℚ) ^ ulpExponent x)
  have heq : round32 x - x
      = ((roundHalfEven (x / (2 : ℚ) ^ ulpExponent x) : ℚ) - x / (2 : ℚ) ^ ulpExponent x)
          * (2 : ℚ) ^ ulpExponent x := by
    unfold round32
    field_simp
  rw [heq, abs_mul, abs_of_pos hu]
  calc |(roundHalfEven (x / (2 : ℚ) ^ ulpExponent x) : ℚ) - x / (2 : ℚ) ^ ulpExponent x|
        * (2 : ℚ) ^ ulpExponent x
      ≤ 1 / 2 * (2 : ℚ) ^ ulpExponent x := mul_le_mul_of_nonneg_right h (le_of_lt hu)
    _ = (2 : ℚ) ^ ulpExponent x / 2 := by ring

/-- In the normal range the rounding error is at most `2 ^ (-24)` of the magnitude. -/
theorem abs_round32_sub_le_mul (x : ℚ) (hlo : (2 : ℚ) ^ (-126 : Int) ≤ |x|) :
    |round32 x - x| ≤ |x| / 2 ^ 24 := by
  have h1 := abs_round32_sub_le x
  have h2 := zpow_ulpExponent_le x hlo
  have h3 : (2 : ℚ) ^ (ulpExponent x + 23) = (2 : ℚ) ^ ulpExponent x * 2 ^ 23 := by
    rw [zpow_add₀ (by norm_num)]
    norm_num
  rw [h3] at h2
  have hu : (0 : ℚ) < (2 : ℚ) ^ ulpExponent x := by positivity
  calc |round32 x - x| ≤ (2 : ℚ) ^ ulpExponent x / 2 := h1
    _ = (2 : ℚ) ^ ulpExponent x * 2 ^ 23 / 2 ^ 24 := by ring
    _ ≤ |x| / 2 ^ 24 := by
      apply div_le_div_of_nonneg_right h2 (by positivity)

/-- The rounding of a result of magnitude at most `2 ^ 127` is a finite binary32 value. -/
theorem isFloat32_round32 (x : ℚ) (h : |x| ≤ (2 : ℚ) ^ (127 : Int)) : IsFloat32 (round32 x) := by
  have hu : (0 : ℚ) < (2 : ℚ) ^ ulpExponent x := by positivity
  have hk := ulpExponent_ge x
  have hlt := abs_lt_zpow_ulpExponent x
  have hk2 : ulpExponent x ≤ 104 := by
    by_contra hc
    have h105 : (127 : Int) ≤ ulpExponent x + 22 := by omega
    by_cases h0 : x = 0
    · subst h0
      unfold ulpExponent at hc
      simp at hc
    · have hpos : 0 < |x| := abs_pos.mpr h0
      have hlog : Int.log 2 |x| ≤ 127 := by
        by_contra hc2
        have : (128 : Int) ≤ Int.log 2 |x| := by omega
        have h3 := (Int.zpow_le_iff_le_log (by norm_num : 1 < 2) hpos).2 this
        have h4 : (2 : ℚ) ^ (128 : Int) ≤ |x| := by exact_mod_cast h3
        have h5 : (2 : ℚ) ^ (127 : Int) < (2 : ℚ) ^ (128 : Int) := by norm_num
        linarith
      unfold ulpExponent at hc
      have := max_le hlog (by norm_num : (-126 : Int) ≤ 127)
      omega
  have hq : |x / (2 : ℚ) ^ ulpExponent x| < 2 ^ 24 := by
    rw [abs_div, abs_of_pos hu, div_lt_iff₀ hu]
    calc |x| < (2 : ℚ) ^ (ulpExponent x + 24) := hlt
      _ = 2 ^ 24 * (2 : ℚ) ^ ulpExponent x := by
        rw [zpow_add₀ (by norm_num)]
        norm_num
        ring
  have hq1 := (abs_lt.1 hq).1
  have hq2 := (abs_lt.1 hq).2
  have hm1 : (-(2 ^ 24) : Int) ≤ roundHalfEven (x / (2 : ℚ) ^ ulpExponent x) :=
    le_roundHalfEven _ _ (by push_cast; linarith)
  have hm2 : roundHalfEven (x / (2 : ℚ) ^ ulpExponent x) ≤ (2 ^ 24 : Int) :=
    roundHalfEven_le _ _ (by push_cast; linarith)
  by_cases hm : |roundHalfEven (x / (2 : ℚ) ^ ulpExponent x)| < 2 ^ 24
  · exact ⟨_, _, hm, hk, hk2, rfl⟩
  · have hk3 : ulpExponent x ≤ 103 := by
      by_contra hc
      have hk4 : ulpExponent x = 104 := by omega
      have hx127 : |x / (2 : ℚ) ^ ulpExponent x| ≤ 2 ^ 23 := by
        rw [abs_div, abs_of_pos hu, div_le_iff₀ hu, hk4]
        calc |x| ≤ (2 : ℚ) ^ (127 : Int) := h
          _ = 2 ^ 23 * (2 : ℚ) ^ (104 : Int) := by norm_num
      have ha := (abs_le.1 hx127).1
      have hb := (abs_le.1 hx127).2
      have hn1 : (-(2 ^ 23) : Int) ≤ roundHalfEven (x / (2 : ℚ) ^ ulpExponent x) :=
        le_roundHalfEven _ _ (by push_cast; linarith)
      have hn2 : roundHalfEven (x / (2 : ℚ) ^ ulpExponent x) ≤ (2 ^ 23 : Int) :=
        roundHalfEven_le _ _ (by push_cast; linarith)
      apply hm
      rw [abs_lt]
      constructor <;> omega
    have habs : roundHalfEven (x / (2 : ℚ) ^ ulpExponent x) = 2 ^ 24
        ∨ roundHalfEven (x / (2 : ℚ) ^ ulpExponent x) = -(2 ^ 24) := by
      rw [abs_lt, not_and_or] at hm
      rcases hm with hm | hm
      · right; omega
      · left; omega
    unfold round32
    rcases habs with hv | hv
    · refine ⟨2 ^ 23, ulpExponent x + 1, by norm_num, by omega, by omega, ?_⟩
      rw [hv, zpow_add₀ (by norm_num)]
      push_cast
      ring
    · refine ⟨-(2 ^ 23), ulpExponent x + 1, by norm_num, by omega, by omega, ?_⟩
      rw [hv, zpow_add₀ (by norm_num)]
      push_cast
      ring

/-- In the normal range a positive result and its rounding are within the factor
`1 + 2 ^ (-23)` of each other; the rounding is positive. -/
theorem round32_within (y : ℚ) (hy : (2 : ℚ) ^ (-126 : Int) ≤ y) :
    0 < round32 y ∧ y ≤ round32 y * (1 + 1 / 2 ^ 23) ∧ round32 y ≤ y * (1 + 1 / 2 ^ 23) := by
  have hpos : 0 < y := lt_of_lt_of_le (by positivity) hy
  have h := abs_round32_sub_le_mul y (by rwa [abs_of_pos hpos])
  rw [abs_of_pos hpos, abs_le] at h
  obtain ⟨h1, h2⟩ := h
  refine ⟨?_, ?_, ?_⟩
  · have : y / 2 ^ 24 < y := by
      rw [div_lt_iff₀ (by positivity)]
      linarith
    linarith
  · norm_num at h1 ⊢
    linarith
  · norm_num at h2 ⊢
    linarith

/-- One rounding adds one factor `1 + 2 ^ (-23)` to a two-sided relative bound. -/
theorem round32_approx (y t : ℚ) (k : Nat) (hy : (2 : ℚ) ^ (-126 : Int) ≤ y)
    (h1 : t ≤ y * (1 + 1 / 2 ^ 23) ^ k) (h2 : y ≤ t * (1 + 1 / 2 ^ 23) ^ k) :
    t ≤ round32 y * (1 + 1 / 2 ^ 23) ^ (k + 1) ∧ round32 y ≤ t * (1 + 1 / 2 ^ 23) ^ (k + 1) := by
  obtain ⟨_, h3, h4⟩ := round32_within y hy
  have hu : (0 : ℚ) ≤ (1 + 1 / 2 ^ 23) ^ k := by positivity
  have hu1 : (0 : ℚ) ≤ (1 + 1 / 2 ^ 23) := by positivity
  constructor
  · calc t ≤ y * (1 + 1 / 2 ^ 23) ^ k := h1
      _ ≤ (round32 y * (1 + 1 / 2 ^ 23)) * (1 + 1 / 2 ^ 23) ^ k :=
        mul_le_mul_of_nonneg_right h3 hu
      _ = round32 y * (1 + 1 / 2 ^ 23) ^ (k + 1) := by ring
  · calc round32 y ≤ y * (1 + 1 / 2 ^ 23) := h4
      _ ≤ (t * (1 + 1 / 2 ^ 23) ^ k) * (1 + 1 / 2 ^ 23) :=
        mul_le_mul_of_nonneg_right h2 hu1
      _ = t * (1 + 1 / 2 ^ 23) ^ (k + 1) := by ring

/-- Relative bounds multiply. -/
theorem mul_approx (v1 t1 v2 t2 : ℚ) (k1 k2 : Nat) (hv1 : 0 ≤ v1) (ht1 : 0 ≤ t1)
    (hv2 : 0 ≤ v2) (ht2 : 0 ≤ t2)
    (a1 : t1 ≤ v1 * (1 + 1 / 2 ^ 23) ^ k1) (b1 : v1 ≤ t1 * (1 + 1 / 2 ^ 23) ^ k1)
    (a2 : t2 ≤ v2 * (1 + 1 / 2 ^ 23) ^ k2) (b2 : v2 ≤ t2 * (1 + 1 / 2 ^ 23) ^ k2) :
    t1 * t2 ≤ v1 * v2 * (1 + 1 / 2 ^ 23) ^ (k1 + k2)
    ∧ v1 * v2 ≤ t1 * t2 * (1 + 1 / 2 ^ 23) ^ (k1 + k2) := by
  have hu1 : (0 : ℚ) ≤ (1 + 1 / 2 ^ 23) ^ k1 := by positivity
  have hu2 : (0 : ℚ) ≤ (1 + 1 / 2 ^ 23) ^ k2 := by positivity
  constructor
  · calc t1 * t2 ≤ (v1 * (1 + 1 / 2 ^ 23) ^ k1) * (v2 * (1 + 1 / 2 ^ 23) ^ k2) :=
        mul_le_mul a1 a2 ht2 (mul_nonneg hv1 hu1)
      _ = v1 * v2 * (1 + 1 / 2 ^ 23) ^ (k1 + k2) := by ring
  · calc v1 * v2 ≤ (t1 * (1 + 1 / 2 ^ 23) ^ k1) * (t2 * (1 + 1 / 2 ^ 23) ^ k2) :=
        mul_le_mul b1 b2 hv2 (mul_nonneg ht1 hu1)
      _ = t1 * t2 * (1 + 1 / 2 ^ 23) ^ (k1 + k2) := by ring

/-- Relative bounds divide. -/
theorem div_approx (v1 t1 v2 t2 : ℚ) (k1 k2 : Nat) (hv1 : 0 ≤ v1) (ht1 : 0 ≤ t1)
    (hv2 : 0 < v2) (ht2 : 0 < t2)
    (a1 : t1 ≤ v1 * (1 + 1 / 2 ^ 23) ^ k1) (b1 : v1 ≤ t1 * (1 + 1 / 2 ^ 23) ^ k1)
    (a2 : t2 ≤ v2 * (1 + 1 / 2 ^ 23) ^ k2) (b2 : v2 ≤ t2 * (1 + 1 / 2 ^ 23) ^ k2) :
    t1 / t2 ≤ v1 / v2 * (1 + 1 / 2 ^ 23) ^ (k1 + k2)
    ∧ v1 / v2 ≤ t1 / t2 * (1 + 1 / 2 ^ 23) ^ (k1 + k2) := by
  have hu1 : (0 : ℚ) < (1 + 1 / 2 ^ 23) ^ k1 := by positivity
  have hu2 : (0 : ℚ) < (1 + 1 / 2 ^ 23) ^ k2 := by positivity
  constructor
  · rw [div_le_iff₀ ht2]
    calc t1 ≤ v1 * (1 + 1 / 2 ^ 23) ^ k1 := a1
      _ = v1 / v2 * (1 + 1 / 2 ^ 23) ^ k1 * v2 := by
        field_simp
        ring
      _ ≤ v1 / v2 * (1 + 1 / 2 ^ 23) ^ k1 * (t2 * (1 + 1 / 2 ^ 23) ^ k2) :=
        mul_le_mul_of_nonneg_left b2
          (mul_nonneg (div_nonneg hv1 (le_of_lt hv2)) (le_of_lt hu1))
      _ = v1 / v2 * (1 + 1 / 2 ^ 23) ^ (k1 + k2) * t2 := by ring
  · rw [div_le_iff₀ hv2]
    calc v1 ≤ t1 * (1 + 1 / 2 ^ 23) ^ k1 := b1
      _ = t1 / t2 * (1 + 1 / 2 ^ 23) ^ k1 * t2 := by
        field_simp
        ring
      _ ≤ t1 / t2 * (1 + 1 / 2 ^ 23) ^ k1 * (v2 * (1 + 1 / 2 ^ 23) ^ k2) :=
        mul_le_mul_of_nonneg_left a2
          (mul_nonneg (div_nonneg ht1 (le_of_lt ht2)) (le_of_lt hu1))
      _ = t1 / t2 * (1 + 1 / 2 ^ 23) ^ (k1 + k2) * v2 := by ring

/-- Rounding does not cross a power of two from above: a result of at least `2 ^ e` rounds to
at least `2 ^ e`. -/
theorem zpow_le_round32 (y : ℚ) (e : Int) (he : -126 ≤ e) (hy : (2 : ℚ) ^ e ≤ y) :
    (2 : ℚ) ^ e ≤ round32 y := by
  have hpos : 0 < y := lt_of_lt_of_le (by positivity) hy
  have habs : |y| = y := abs_of_pos hpos
  have hlog : e ≤ Int.log 2 |y| :=
    (Int.zpow_le_iff_le_log (by norm_num) (by rw [habs]; exact hpos)).1
      (by rw [habs]; exact_mod_cast hy)
  have hE : ulpExponent y = Int.log 2 |y| - 23 := by
    unfold ulpExponent
    rw [max_eq_left (by omega)]
  have hself : (2 : ℚ) ^ (Int.log 2 |y|) ≤ y := by
    have := Int.zpow_log_le_self (by norm_num : 1 < 2) (by rw [habs]; exact hpos : 0 < |y|)
    rw [habs] at this ⊢
    exact_mod_cast this
  have hu : (0 : ℚ) < (2 : ℚ) ^ (Int.log 2 |y| - 23) := by positivity
  have hq : ((2 ^ 23 : Int) : ℚ) ≤ y / (2 : ℚ) ^ (Int.log 2 |y| - 23) := by
    rw [le_div_iff₀ hu]
    calc ((2 ^ 23 : Int) : ℚ) * (2 : ℚ) ^ (Int.log 2 |y| - 23)
        = (2 : ℚ) ^ (Int.log 2 |y|) := by
          rw [zpow_sub₀ (by norm_num)]
          norm_num
          ring
      _ ≤ y := hself
  have hm := le_roundHalfEven _ _ hq
  unfold round32
  rw [hE]
  calc (2 : ℚ) ^ e ≤ (2 : ℚ) ^ (Int.log 2 |y|) := zpow_le_zpow_right₀ (by norm_num) hlog
    _ = ((2 ^ 23 : Int) : ℚ) * (2 : ℚ) ^ (Int.log 2 |y| - 23) := by
      rw [zpow_sub₀ (by norm_num)]
      norm_num
      ring
    _ ≤ (roundHalfEven (y / (2 : ℚ) ^ (Int.log 2 |y| - 23)) : ℚ)
          * (2 : ℚ) ^ (Int.log 2 |y| - 23) :=
      mul_le_mul_of_nonneg_right (by exact_mod_cast hm) (le_of_lt hu)

theorem one_le_round32 (y : ℚ) (hy : 1 ≤ y) : 1 ≤ round32 y := by
  have := zpow_le_round32 y 0 (by norm_num) (by simpa using hy)
  simpa using this

theorem zpow_neg126_le : (2 : ℚ) ^ (-126 : Int) ≤ 1 / 2 ^ 20 := by
  rw [zpow_neg, ← one_div]
  apply one_div_le_one_div_of_le (by positivity)
  norm_cast

theorem round32_within_of_ge (y : ℚ) (hy : (1 : ℚ) / 2 ^ 20 ≤ y) :
    0 < round32 y ∧ y ≤ round32 y * (1 + 1 / 2 ^ 23) ∧ round32 y ≤ y * (1 + 1 / 2 ^ 23) :=
  round32_within y (le_trans zpow_neg126_le hy)

theorem round32_approx_of_ge (y t : ℚ) (k : Nat) (hy : (1 : ℚ) / 2 ^ 20 ≤ y)
    (h1 : t ≤ y * (1 + 1 / 2 ^ 23) ^ k) (h2 : y ≤ t * (1 + 1 / 2 ^ 23) ^ k) :
    t ≤ round32 y * (1 + 1 / 2 ^ 23) ^ (k + 1) ∧ round32 y ≤ t * (1 + 1 / 2 ^ 23) ^ (k + 1) :=
  round32_approx y t k (le_trans zpow_neg126_le hy) h1 h2

theorem approx_bounds (v t : ℚ) (k : Nat) (hk : k ≤ 8) (hv : 0 ≤ v) (ht : 0 ≤ t)
    (a : t ≤ v * (1 + 1 / 2 ^ 23) ^ k) (b : v ≤ t * (1 + 1 / 2 ^ 23) ^ k) :
    t ≤ v * (1 + 1 / 2 ^ 20 + 1 / 2 ^ 40) ∧ v ≤ t * (1 + 1 / 2 ^ 20 + 1 / 2 ^ 40) := by
  have h8 : ((1 : ℚ) + 1 / 2 ^ 23) ^ 8 ≤ 1 + 1 / 2 ^ 20 + 1 / 2 ^ 40 := by norm_num
  have hmono : ((1 : ℚ) + 1 / 2 ^ 23) ^ k ≤ (1 + 1 / 2 ^ 23) ^ 8 :=
    pow_le_pow_right₀ (by norm_num) hk
  have hc := le_trans hmono h8
  exact ⟨le_trans a (mul_le_mul_of_nonneg_left hc hv),
    le_trans b (mul_le_mul_of_nonneg_left hc ht)⟩

theorem panoramaRatio (p total overlap cur : ℚ) (hp : 0 < p) (hoverlap : overlap < 100)
    (hcur : 0 < cur) :
    (p * total / 180) / ((p * cur / 180) * ((100 - overlap) / 100))
      = total / (cur * (1 - overlap / 100)) := by
  have h1 : (100 - overlap) ≠ 0 := by linarith
  have h2 : (1 - overlap / 100) ≠ 0 := by
    intro h; apply h1; linarith
  field_simp
  ring

/-- A quotient `round32 (round32 y / d)` by a constant `d` with `1 <= d <= 256`, for `y`
between 1 and 2048: it is positive and within two roundings of `y / d`. -/
theorem scaled_approx (y d : ℚ) (hy : 1 ≤ y) (hd : 1 ≤ d) (hd2 : d ≤ 256) :
    0 < round32 (round32 y / d)
    ∧ y / d ≤ round32 (round32 y / d) * (1 + 1 / 2 ^ 23) ^ 2
    ∧ round32 (round32 y / d) ≤ y / d * (1 + 1 / 2 ^ 23) ^ 2
    ∧ y / d ≤ round32 (round32 y / d) * (1 + 1 / 2 ^ 20 + 1 / 2 ^ 40)
    ∧ round32 (round32 y / d) ≤ y / d * (1 + 1 / 2 ^ 20 + 1 / 2 ^ 40) := by
  have hd0 : (0 : ℚ) < d := by linarith only [hd]
  have hy20 : (1 : ℚ) / 2 ^ 20 ≤ y := by
    have : (1 : ℚ) / 2 ^ 20 ≤ 1 := by norm_num
    linarith only [this, hy]
  obtain ⟨p1pos, _, _⟩ := round32_within_of_ge y hy20
  obtain ⟨p1a, p1b⟩ := round32_approx_of_ge y y 0 hy20 (by simp) (by simp)
  obtain ⟨p1lo, _⟩ := approx_bounds _ _ 1 (by norm_num) (le_of_lt p1pos)
    (by linarith only [hy]) p1a p1b
  have hr : (1 : ℚ) / 2 ≤ round32 y := by
    norm_num at p1lo
    linarith only [p1lo, hy]
  have ylo : (1 : ℚ) / 2 ^ 20 ≤ round32 y / d := by
    rw [le_div_iff₀ hd0]
    have : (1 : ℚ) / 2 ^ 20 * d ≤ 1 / 2 ^ 20 * 256 :=
      mul_le_mul_of_nonneg_left hd2 (by norm_num)
    norm_num at this ⊢
    linarith only [this, hr]
  obtain ⟨Tpos, _, _⟩ := round32_within_of_ge _ ylo
  obtain ⟨Ta, Tb⟩ := round32_approx_of_ge (round32 y / d) (y / d) 1 ylo
    (by rw [div_mul_eq_mul_div]; exact div_le_div_of_nonneg_right p1a (le_of_lt hd0))
    (by rw [div_mul_eq_mul_div]; exact div_le_div_of_nonneg_right p1b (le_of_lt hd0))
  have t0 : (0 : ℚ) ≤ y / d := div_nonneg (by linarith only [hy]) (le_of_lt hd0)
  obtain ⟨Tlo, Thi⟩ := approx_bounds _ _ 2 (by norm_num) (le_of_lt Tpos) t0 Ta Tb
  exact ⟨Tpos, Ta, Tb, Tlo, Thi⟩

/-- Error analysis of the shot count computation of `startHorizontalPanoramaShot` on inputs in
range: the angle per step is a positive finite binary32 value, and the `float` value converted
to the shot count lies within `1 / 16` of the exact `totalFoV / anglePerStep + 1`. -/
theorem panorama_analysis (p total ov cur : ℚ) (hp : 3 ≤ p) (hp2 : p ≤ 4) (ht : 1 ≤ total)
    (ht2 : total ≤ 360) (ho : 0 ≤ ov) (ho2 : ov ≤ 99) (hc : 1 ≤ cur) (hc2 : cur ≤ 360) :
    0 < fmul (fdiv (fmul p cur) 180) (fdiv (fsub 100 ov) 100)
    ∧ 1 / 2 ^ 14 ≤ fmul (fdiv (fmul p cur) 180) (fdiv (fsub 100 ov) 100)
    ∧ fmul (fdiv (fmul p cur) 180) (fdiv (fsub 100 ov) 100) ≤ 16
    ∧ IsFloat32 (fmul (fdiv (fmul p cur) 180) (fdiv (fsub 100 ov) 100))
    ∧ |fadd (fdiv (fdiv (fmul p total) 180)
          (fmul (fdiv (fmul p cur) 180) (fdiv (fsub 100 ov) 100))) 1
        - (total / (cur * (1 - ov / 100)) + 1)| ≤ 1 / 16
    ∧ 1 ≤ fadd (fdiv (fdiv (fmul p total) 180)
          (fmul (fdiv (fmul p cur) 180) (fdiv (fsub 100 ov) 100))) 1
    ∧ 0 < total / (cur * (1 - ov / 100))
    ∧ total / (cur * (1 - ov / 100)) ≤ 36000 := by
  simp only [fmul, fdiv, fsub, fadd]
  have x1 : 1 ≤ p * total := by nlinarith
  have x1b : p * total ≤ 1440 := by nlinarith
  have x2 : 1 ≤ p * cur := by nlinarith
  have x2b : p * cur ≤ 1440 := by nlinarith
  have x3 : 3 ≤ p * total := by nlinarith
  have x4 : 3 ≤ p * cur := by nlinarith
  obtain ⟨Tpos, Ta, Tb, Tlo, Thi⟩ := scaled_approx (p * total) 180 x1 (by norm_num) (by norm_num)
  obtain ⟨Cpos, Ca, Cb, Clo, Chi⟩ := scaled_approx (p * cur) 180 x2 (by norm_num) (by norm_num)
  obtain ⟨Fpos, Fa, Fb, Flo, Fhi⟩ := scaled_approx (100 - ov) 100 (by linarith only [ho2])
    (by norm_num) (by norm_num)
  generalize round32 (round32 (p * total) / 180) = T at *
  generalize round32 (round32 (p * cur) / 180) = C at *
  generalize round32 (round32 (100 - ov) / 100) = F at *
  have tT0 : (0 : ℚ) ≤ p * total / 180 := by positivity
  have tC0 : (0 : ℚ) ≤ p * cur / 180 := by positivity
  have tF0 : (0 : ℚ) ≤ (100 - ov) / 100 :=
    div_nonneg (by linarith only [ho2]) (by norm_num)
  have tT1 : (1 : ℚ) / 60 ≤ p * total / 180 := by
    rw [le_div_iff₀ (by norm_num)]; linarith only [x3]
  have tC1 : (1 : ℚ) / 60 ≤ p * cur / 180 := by
    rw [le_div_iff₀ (by norm_num)]; linarith only [x4]
  have tC2 : p * cur / 180 ≤ 8 := by
    rw [div_le_iff₀ (by norm_num)]; linarith only [x2b]
  have tF1 : (1 : ℚ) / 100 ≤ (100 - ov) / 100 := by
    rw [le_div_iff₀ (by norm_num)]; linarith only [ho2]
  have tF2 : (100 - ov) / 100 ≤ 1 := by
    rw [div_le_iff₀ (by norm_num)]; linarith only [ho]
  have T1 : (1 : ℚ) / 64 ≤ T := by
    norm_num at Tlo
    linarith only [Tlo, tT1]
  have C1 : (1 : ℚ) / 64 ≤ C := by
    norm_num at Clo
    linarith only [Clo, tC1]
  have C2 : C ≤ 9 := by
    norm_num at Chi
    linarith only [Chi, tC2]
  have F1 : (1 : ℚ) / 128 ≤ F := by
    norm_num at Flo
    linarith only [Flo, tF1]
  have F2 : F ≤ 5 / 4 := by
    norm_num at Fhi
    linarith only [Fhi, tF2]
  -- the angle per step
  have cf1 : (1 : ℚ) / 64 * (1 / 128) ≤ C * F :=
    mul_le_mul C1 F1 (by norm_num) (le_of_lt Cpos)
  have cf2 : C * F ≤ 9 * (5 / 4) :=
    mul_le_mul C2 F2 (le_of_lt Fpos) (by norm_num)
  have y4lo : (1 : ℚ) / 2 ^ 20 ≤ C * F := by
    have : (1 : ℚ) / 2 ^ 20 ≤ 1 / 64 * (1 / 128) := by norm_num
    linarith only [this, cf1]
  obtain ⟨Apos, A3, A4⟩ := round32_within_of_ge _ y4lo
  obtain ⟨ma, mb⟩ := mul_approx _ _ _ _ 2 2 (le_of_lt Cpos) tC0 (le_of_lt Fpos) tF0 Ca Cb Fa Fb
  obtain ⟨Aa, Ab⟩ := round32_approx_of_ge _ _ 4 y4lo ma mb
  have Ahi : round32 (C * F) ≤ 16 := by
    norm_num at A4
    linarith only [A4, cf2]
  have Alo : (1 : ℚ) / 2 ^ 14 ≤ round32 (C * F) := by
    norm_num at A3 cf1 ⊢
    linarith only [A3, cf1]
  have Afloat : IsFloat32 (round32 (C * F)) := by
    apply isFloat32_round32
    rw [abs_of_pos (by linarith only [y4lo])]
    have : (9 : ℚ) * (5 / 4) ≤ (2 : ℚ) ^ (127 : Int) := by norm_num
    linarith only [this, cf2]
  generalize round32 (C * F) = A at *
  -- the quotient
  have tA0 : (0 : ℚ) < p * cur / 180 * ((100 - ov) / 100) :=
    mul_pos (by linarith only [tC1]) (by linarith only [tF1])
  obtain ⟨da, db⟩ := div_approx _ _ _ _ 2 5 (le_of_lt Tpos) tT0 Apos tA0 Ta Tb Aa Ab
  rw [panoramaRatio p total ov cur (by linarith only [hp]) (by linarith only [ho2])
    (by linarith only [hc])] at da db
  have hden : (1 : ℚ) / 100 ≤ cur * (1 - ov / 100) := by
    have h1 : (1 : ℚ) / 100 ≤ 1 - ov / 100 := by linarith only [ho2]
    calc (1 : ℚ) / 100 = 1 * (1 / 100) := by norm_num
      _ ≤ cur * (1 - ov / 100) := mul_le_mul hc h1 (by norm_num) (by linarith only [hc])
  have hx0 : 0 < total / (cur * (1 - ov / 100)) :=
    div_pos (by linarith only [ht]) (by linarith only [hden])
  have hx1 : total / (cur * (1 - ov / 100)) ≤ 36000 := by
    rw [div_le_iff₀ (by linarith only [hden])]
    linarith only [hden, ht2]
  have y5lo : (1 : ℚ) / 2 ^ 20 ≤ T / A := by
    rw [le_div_iff₀ Apos]
    have : (1 : ℚ) / 2 ^ 20 * A ≤ 1 / 2 ^ 20 * 16 :=
      mul_le_mul_of_nonneg_left Ahi (by norm_num)
    norm_num at this ⊢
    linarith only [this, T1]
  obtain ⟨Qpos, _, _⟩ := round32_within_of_ge _ y5lo
  obtain ⟨Qa, Qb⟩ := round32_approx_of_ge _ _ 7 y5lo da db
  obtain ⟨Qlo, Qhi⟩ := approx_bounds _ _ 8 (by norm_num) (le_of_lt Qpos) (le_of_lt hx0) Qa Qb
  generalize round32 (T / A) = Q at *
  generalize total / (cur * (1 - ov / 100)) = x at *
  -- the final sum
  have hq1 : (0 : ℚ) < Q + 1 := by linarith only [Qpos]
  have hR := abs_round32_sub_le_mul (Q + 1)
    (le_trans zpow_neg126_le (by
      rw [abs_of_pos hq1]
      have : (1 : ℚ) / 2 ^ 20 ≤ 1 := by norm_num
      linarith only [this, Qpos]))
  rw [abs_of_pos hq1, abs_le] at hR
  obtain ⟨R1, R2⟩ := hR
  have hone : 1 ≤ round32 (Q + 1) := one_le_round32 _ (by linarith only [Qpos])
  refine ⟨Apos, Alo, Ahi, Afloat, ?_, hone, hx0, hx1⟩
  rw [abs_le]
  norm_num at Qlo Qhi R1 R2 ⊢
  constructor
  · linarith only [Qlo, Qhi, R1, R2, hx1, hx0]
  · linarith only [Qlo, Qhi, R1, R2, hx1, hx0]

/-- Truncation of a value within `1 / 16` of `x + 1`, for positive `x`: the result lies between
`floor x` and `ceil x + 1`, and it is `floor x + 1` when the fractional part of `x` is at least
`1 / 16` and below `15 / 16`. -/
theorem floatToInt_near (r x : ℚ) (hx : 0 < x) (hr1 : 1 ≤ r) (h : |r - (x + 1)| ≤ 1 / 16) :
    ⌊x⌋ ≤ floatToInt r ∧ floatToInt r ≤ ⌈x⌉ + 1 ∧ 1 ≤ floatToInt r
    ∧ (floatToInt r : ℚ) ≤ x + 17 / 16
    ∧ (1 / 16 ≤ x - ⌊x⌋ → x - ⌊x⌋ < 15 / 16 → floatToInt r = ⌊x⌋ + 1) := by
  rw [abs_le] at h
  obtain ⟨h1, h2⟩ := h
  have hr : 0 ≤ r := by linarith
  unfold floatToInt
  rw [if_pos hr]
  have hfx := Int.floor_le x
  have hfx2 := Int.lt_floor_add_one x
  have hcx := Int.le_ceil x
  refine ⟨?_, ?_, ?_, ?_, ?_⟩
  · apply Int.le_floor.2
    linarith
  · have : ⌊r⌋ < ⌈x⌉ + 2 := by
      apply Int.floor_lt.2
      push_cast
      linarith
    omega
  · apply Int.le_floor.2
    push_cast
    exact hr1
  · have := Int.floor_le r
    linarith
  · intro f1 f2
    rw [Int.floor_eq_iff]
    push_cast
    constructor <;> linarith

/-! ## Lemmas on the packing loop -/

theorem length_packPixel (buf : List UInt8) (i : Nat) :
    (packPixel buf i).length = buf.length := by
  simp [packPixel]

theorem getElem?_packPixel_of_ne (buf : List UInt8) (i p : Nat) (h0 : p ≠ 3 * i)
    (h1 : p ≠ 3 * i + 1) (h2 : p ≠ 3 * i + 2) (h3 : p ≠ 3 * i + 3) :
    (packPixel buf i)[p]? = buf[p]? := by
  unfold packPixel
  rw [List.getElem?_set_ne (Ne.symm h3), List.getElem?_set_ne (Ne.symm h2),
    List.getElem?_set_ne (Ne.symm h1), List.getElem?_set_ne (Ne.symm h0)]

theorem getElem?_packPixel_rgb (buf : List UInt8) (i c : Nat) (hc : c < 3)
    (hlen : 3 * i + c < buf.length) :
    (packPixel buf i)[3 * i + c]? = some (buf.getD (4 * i + c) 0) := by
  unfold packPixel
  have hc3 : c = 0 ∨ c = 1 ∨ c = 2 := by omega
  rcases hc3 with rfl | rfl | rfl
  · rw [List.getElem?_set_ne (by omega), List.getElem?_set_ne (by omega),
      List.getElem?_set_ne (by omega), List.getElem?_set]
    simp only [Nat.add_zero] at hlen ⊢
    simp [hlen]
  · rw [List.getElem?_set_ne (by omega), List.getElem?_set_ne (by omega), List.getElem?_set]
    simp [hlen]
  · rw [List.getElem?_set_ne (by omega), List.getElem?_set]
    simp [hlen]

theorem packRGBA_succ (buf : List UInt8) (k : Nat) :
    packRGBA buf (k + 1) = packPixel (packRGBA buf k) k := by
  simp [packRGBA, List.range_succ, List.foldl_append]

/-- Loop invariant of the packing loop after `k` iterations on a buffer of at least `4 * k`
bytes: the length is kept, every byte from offset `4 * k` on is still the captured one, and
the three colour bytes of every pixel `j < k` sit at offset `3 * j`. -/
theorem packRGBA_invariant (buf : List UInt8) (k : Nat) (hk : 4 * k ≤ buf.length) :
    (packRGBA buf k).length = buf.length
    ∧ (∀ p, 4 * k ≤ p → (packRGBA buf k)[p]? = buf[p]?)
    ∧ (∀ j c, j < k → c < 3 → (packRGBA buf k)[3 * j + c]? = buf[4 * j + c]?) := by
  induction k with
  | zero =>
    refine ⟨rfl, fun p _ => rfl, ?_⟩
    intro j c hj
    exact absurd hj (Nat.not_lt_zero j)
  | succ k ih =>
    obtain ⟨ihlen, ihtail, ihrgb⟩ := ih (by omega)
    rw [packRGBA_succ]
    refine ⟨?_, ?_, ?_⟩
    · rw [length_packPixel, ihlen]
    · intro p hp
      rw [getElem?_packPixel_of_ne _ _ _ (by omega) (by omega) (by omega) (by omega)]
      exact ihtail p (by omega)
    · intro j c hj hc
      by_cases hjk : j = k
      · subst hjk
        rw [getElem?_packPixel_rgb _ _ _ hc (by rw [ihlen]; omega)]
        rw [List.getD_eq_getElem?_getD, ihtail (4 * j + c) (by omega)]
        have hin : 4 * j + c < buf.length := by omega
        rw [List.getElem?_eq_getElem hin]
        rfl
      · rw [getElem?_packPixel_of_ne _ _ _ (by omega) (by omega) (by omega) (by omega)]
        exact ihrgb j c (by omega) hc

theorem length_capturedShotData (runtime : Runtime)
    (hfit : 4 * (runtime.width * runtime.height) < 2 ^ 31) :
    (capturedShotData runtime).length = 4 * (runtime.width * runtime.height) := by
  unfold capturedShotData mulU32
  rw [List.length_map, List.length_range,
    Nat.mod_eq_of_lt (a := runtime.width * runtime.height) (by omega), Nat.mod_eq_of_lt (by omega)]
  omega

theorem getElem?_capturedShotData (runtime : Runtime) (p : Nat)
    (hfit : 4 * (runtime.width * runtime.height) < 2 ^ 31)
    (hp : p < 4 * (runtime.width * runtime.height)) :
    (capturedShotData runtime)[p]? = some (runtime.capture_screenshot p) := by
  have hlen := length_capturedShotData runtime hfit
  have hp2 : p < (capturedShotData runtime).length := by omega
  rw [List.getElem?_eq_getElem hp2]
  simp [capturedShotData]

/-! ## Lemmas on the member functions -/

theorem shouldTakeShot_iff (c : ScreenshotController) :
    shouldTakeShot c = true
      ↔ (c._convolutionFrameCounter ≤ 0 ∧ c._state = ScreenshotControllerState.InSession) := by
  unfold shouldTakeShot
  by_cases h : c._convolutionFrameCounter > 0
  · simp only [if_pos h]
    constructor
    · intro hf; exact absurd hf (by decide)
    · intro hc; omega
  · simp only [if_neg h, decide_eq_true_eq]
    constructor
    · intro hs; exact ⟨by omega, hs⟩
    · intro hc; exact hc.2

theorem storeGrabbedShot_frames (env : Env) (c : ScreenshotController) (g : List UInt8)
    (hne : g ≠ []) :
    (storeGrabbedShot env c g).1._grabbedFrames = c._grabbedFrames ++ [g] := by
  have hlen : ¬ g.length ≤ 0 := by
    cases g with
    | nil => exact absurd rfl hne
    | cons b bs => simp
  unfold storeGrabbedShot
  rw [if_neg hlen]
  dsimp only
  split <;> rfl

theorem startSession_refused (env : Env) (c : ScreenshotController)
    (hrefuse : ∀ t, env.startScreenshotSession t ≠ ScreenshotSessionStartReturnCode.AllOk) :
    (startSession env c).1 = false
    ∧ (startSession env c).2.filter Event.isMotion = []
    ∧ ((startSession env c).2.filter Event.isNotification).length = 1 := by
  unfold startSession
  simp only [if_pos (hrefuse _)]
  refine ⟨trivial, ?_, ?_⟩ <;>
    simp [displayScreenshotSessionStartError, List.filter, Event.isMotion, Event.isNotification]

theorem start_not_connected (env : Env) (c : ScreenshotController) (request : StartRequest)
    (hconn : env.cameraToolsConnected = false) : request.call env c = (c, []) := by
  cases request <;>
    simp [StartRequest.call, startHorizontalPanoramaShot, startLightfieldShot,
      startDebugGridShot, startMultiViewShot, hconn]

theorem modifyCamera_panorama (env : Env) (c : ScreenshotController)
    (h : c._typeOfShot = ScreenshotType.HorizontalPanorama)
    (hf : IsFloat32 c._pano_anglePerStep) :
    modifyCamera env c = [Event.moveCameraPanorama c._pano_anglePerStep] := by
  simp only [modifyCamera, h, moveCameraForPanorama, Bool.false_eq_true, if_false]
  rw [fmul_one_left _ hf]

theorem modifyCamera_lightfield (env : Env) (c : ScreenshotController)
    (h : c._typeOfShot = ScreenshotType.MultiShot)
    (hf : IsFloat32 c._lightField_distancePerStep) :
    modifyCamera env c = [Event.moveCameraMultishot c._lightField_distancePerStep 0 0 false] := by
  simp only [modifyCamera, h, moveCameraForLightfield, Bool.false_eq_true, if_false]
  rw [fmul_one_left _ hf]

theorem fields_startHorizontalPanoramaShot (env : Env) (c : ScreenshotController)
    (total overlap cur : ℚ) (isTestRun : Bool) (hconn : env.cameraToolsConnected = true) :
    (startHorizontalPanoramaShot env c total overlap cur isTestRun).1._pano_totalFoVRadians
      = degreesToRadians env total
    ∧ (startHorizontalPanoramaShot env c total overlap cur isTestRun).1._pano_anglePerStep
      = fmul (degreesToRadians env cur) (fdiv (fsub 100 overlap) 100)
    ∧ (startHorizontalPanoramaShot env c total overlap cur isTestRun).1._numberOfShotsToTake
      = floatToInt (fadd (fdiv (degreesToRadians env total)
          (fmul (degreesToRadians env cur) (fdiv (fsub 100 overlap) 100))) 1) := by
  unfold startHorizontalPanoramaShot
  simp only [hconn, Bool.not_true, Bool.false_eq_true, if_false]
  split <;> exact ⟨rfl, rfl, rfl⟩

/-! ## The session invariant -/

theorem invariant_of_fresh (c : ScreenshotController) (h1 : c._grabbedFrames = [])
    (h2 : c._shotCounter = 0) : SessionInvariant c := by
  refine ⟨?_, ?_, ?_⟩
  · rw [h1, h2]; rfl
  · intro _; left; rw [h1]; rfl
  · rw [h1]; simp

theorem invariant_storeGrabbedShot (env : Env) (c : ScreenshotController) (g : List UInt8)
    (hinv : SessionInvariant c) (hs : c._state = ScreenshotControllerState.InSession) :
    SessionInvariant (storeGrabbedShot env c g).1 := by
  obtain ⟨hcount, hsess, hmax⟩ := hinv
  have hsess := hsess hs
  unfold storeGrabbedShot
  by_cases hlen : g.length ≤ 0
  · rw [if_pos hlen]
    exact ⟨hcount, fun _ => hsess, hmax⟩
  · rw [if_neg hlen]
    dsimp only
    by_cases hge : c._shotCounter + 1 ≥ c._numberOfShotsToTake
    · rw [if_pos hge]
      refine ⟨?_, ?_, ?_⟩
      · simp only [List.length_append, List.length_singleton]; push_cast; omega
      · intro h; simp at h
      · simp only [List.length_append, List.length_singleton]; push_cast
        rcases hsess with h0 | hlt
        · rw [h0]; simp
        · have : (c._grabbedFrames.length : Int) + 1 ≤ c._numberOfShotsToTake := by omega
          exact le_trans this (le_max_left _ _)
    · rw [if_neg hge]
      refine ⟨?_, ?_, ?_⟩
      · simp only [List.length_append, List.length_singleton]; push_cast; omega
      · intro _; right
        simp only [List.length_append, List.length_singleton]; push_cast; omega
      · simp only [List.length_append, List.length_singleton]; push_cast
        have : (c._grabbedFrames.length : Int) + 1 ≤ c._numberOfShotsToTake := by omega
        exact le_trans this (le_max_left _ _)

theorem invariant_start (env : Env) (c : ScreenshotController) (request : StartRequest)
    (hinv : SessionInvariant c) : SessionInvariant (request.call env c).1 := by
  by_cases hconn : env.cameraToolsConnected = true
  · apply invariant_of_fresh <;>
      cases request <;>
        simp only [StartRequest.call, startHorizontalPanoramaShot, startLightfieldShot,
          startDebugGridShot, startMultiViewShot, hconn, Bool.not_true, Bool.false_eq_true,
          if_false] <;>
        split <;> rfl
  · have hf : env.cameraToolsConnected = false := by
      cases h : env.cameraToolsConnected
      · rfl
      · exact absurd h hconn
    rw [start_not_connected env c request hf]
    exact hinv

theorem invariant_apply (c : ScreenshotController) (op : Operation)
    (hinv : SessionInvariant c) : SessionInvariant (op.apply c).1 := by
  cases op with
  | configure rootFolder wait filetype =>
    simp only [Operation.apply, configure]
    split
    · exact hinv
    · exact invariant_of_fresh _ rfl rfl
  | start env request => exact invariant_start env c request hinv
  | presentCalled =>
    simp only [Operation.apply, presentCalled]
    split
    · exact hinv
    · exact hinv
  | reshadeEffectsRendered env runtime =>
    simp only [Operation.apply, reshadeEffectsRendered]
    split
    · exact hinv
    · rename_i hs
      have hs : c._state = ScreenshotControllerState.InSession := by
        by_contra hn; exact hs hn
      split
      · exact invariant_storeGrabbedShot env _ _ hinv hs
      · exact hinv
  | cancelSession =>
    obtain ⟨hcount, hsess, hmax⟩ := hinv
    simp only [Operation.apply, cancelSession]
    split
    · exact ⟨hcount, hsess, hmax⟩
    · exact ⟨hcount, fun h => by simp at h, hmax⟩
    · exact ⟨hcount, fun h => by simp at h, hmax⟩
    · exact ⟨hcount, hsess, hmax⟩
  | completeShotSession env =>
    simp only [Operation.apply, completeShotSession, waitForShots]
    split
    · exact hinv
    · exact invariant_of_fresh _ rfl rfl

theorem invariant_runOperations (ops : List Operation) (c : ScreenshotController)
    (hinv : SessionInvariant c) : SessionInvariant (runOperations c ops) := by
  induction ops generalizing c with
  | nil => exact hinv
  | cons op rest ih =>
    simp only [runOperations, List.foldl_cons]
    exact ih _ (invariant_apply c op hinv)

theorem invariant_of_reachable (c : ScreenshotController) (h : Reachable c) :
    SessionInvariant c := by
  obtain ⟨rootFolder, wait, filetype, ops, rfl⟩ := h
  exact invariant_runOperations ops _ (invariant_of_fresh _ rfl rfl)

/-! ## Idle controllers hold no frame -/

theorem state_storeGrabbedShot (env : Env) (c : ScreenshotController) (g : List UInt8)
    (hs : c._state = ScreenshotControllerState.InSession) :
    (storeGrabbedShot env c g).1._state ≠ ScreenshotControllerState.Off := by
  unfold storeGrabbedShot
  split
  · rw [hs]; decide
  · dsimp only
    split
    · show ScreenshotControllerState.SavingShots ≠ ScreenshotControllerState.Off
      decide
    · show c._state ≠ ScreenshotControllerState.Off
      rw [hs]; decide

theorem frames_start (env : Env) (c : ScreenshotController) (request : StartRequest)
    (hconn : env.cameraToolsConnected = true) : (request.call env c).1._grabbedFrames = [] := by
  cases request <;>
    simp only [StartRequest.call, startHorizontalPanoramaShot, startLightfieldShot,
      startDebugGridShot, startMultiViewShot, hconn, Bool.not_true, Bool.false_eq_true,
      if_false] <;>
    split <;> rfl

theorem idle_apply (c : ScreenshotController) (op : Operation)
    (h : c._state = ScreenshotControllerState.Off → c._grabbedFrames = []) :
    (op.apply c).1._state = ScreenshotControllerState.Off → (op.apply c).1._grabbedFrames = [] := by
  cases op with
  | configure rootFolder wait filetype =>
    simp only [Operation.apply, configure]
    split
    · exact h
    · intro _; rfl
  | start env request =>
    by_cases hconn : env.cameraToolsConnected = true
    · intro _
      exact frames_start env c request hconn
    · have hf : env.cameraToolsConnected = false := by
        cases hc : env.cameraToolsConnected
        · rfl
        · exact absurd hc hconn
      simp only [Operation.apply]
      rw [start_not_connected env c request hf]
      exact h
  | presentCalled =>
    simp only [Operation.apply, presentCalled]
    split
    · exact h
    · exact h
  | reshadeEffectsRendered env runtime =>
    simp only [Operation.apply, reshadeEffectsRendered]
    split
    · exact h
    · rename_i hs
      have hs : c._state = ScreenshotControllerState.InSession := by
        by_contra hn; exact hs hn
      split
      · intro hoff
        exact absurd hoff (state_storeGrabbedShot env _ _ hs)
      · exact h
  | cancelSession =>
    simp only [Operation.apply, cancelSession]
    split
    · exact h
    · intro hoff; simp at hoff
    · intro hoff; simp at hoff
    · exact h
  | completeShotSession env =>
    simp only [Operation.apply, completeShotSession, waitForShots]
    split
    · exact h
    · intro _; rfl

theorem idle_runOperations (ops : List Operation) (c : ScreenshotController)
    (h : c._state = ScreenshotControllerState.Off → c._grabbedFrames = []) :
    (runOperations c ops)._state = ScreenshotControllerState.Off →
      (runOperations c ops)._grabbedFrames = [] := by
  induction ops generalizing c with
  | nil => exact h
  | cons op rest ih =>
    simp only [runOperations, List.foldl_cons]
    exact ih _ (idle_apply c op h)

/-- A reachable controller in state `Off` holds no buffered frame. -/
theorem idle_of_reachable (c : ScreenshotController) (h : Reachable c)
    (hoff : c._state = ScreenshotControllerState.Off) : c._grabbedFrames = [] := by
  obtain ⟨rootFolder, wait, filetype, ops, rfl⟩ := h
  exact idle_runOperations ops _ (fun _ => rfl) hoff

/-! ## Evaluations in binary32 -/

/-- Evaluation in binary32 of the angle per step and the shot count for a total field of view
of 110 degrees, an overlap of 80 percent and a current field of view of 40 degrees, with the
binary32 value nearest to pi. -/
theorem panoramaValues_110_80_40 :
    fmul (fdiv (fmul (13176795 / 2 ^ 22 : ℚ) 40) 180) (fdiv (fsub 100 80) 100)
      = (4685083 / 2 ^ 25 : ℚ)
    ∧ floatToInt (fadd (fdiv (fdiv (fmul (13176795 / 2 ^ 22 : ℚ) 110) 180)
        (fmul (fdiv (fmul (13176795 / 2 ^ 22 : ℚ) 40) 180)
          (fdiv (fsub 100 80) 100))) 1) = 14 := by
  have h1 : fmul (13176795 / 2 ^ 22 : ℚ) (40 : ℚ)
      = (8235497 / 2 ^ 16 : ℚ) := by
    unfold fmul
    exact round32_eq_of_near _ _ (6) (16470994) (by norm_num) (by norm_num [abs_of_pos])
      (by norm_num [abs_of_pos]) (by norm_num) (by norm_num) (by norm_num)
  have h2 : fdiv (8235497 / 2 ^ 16 : ℚ) (180 : ℚ)
      = (11712707 / 2 ^ 24 : ℚ) := by
    unfold fdiv
    exact round32_eq_of_near _ _ (-1) (11712707) (by norm_num) (by norm_num [abs_of_pos])
      (by norm_num [abs_of_pos]) (by norm_num) (by norm_num) (by norm_num)
  have h3 : fsub (100 : ℚ) (80 : ℚ)
      = (20 : ℚ) := by
    unfold fsub
    exact round32_eq_of_near _ _ (4) (10485760) (by norm_num) (by norm_num [abs_of_pos])
      (by norm_num [abs_of_pos]) (by norm_num) (by norm_num) (by norm_num)
  have h4 : fdiv (20 : ℚ) (100 : ℚ)
      = (13421773 / 2 ^ 26 : ℚ) := by
    unfold fdiv
    exact round32_eq_of_near _ _ (-3) (13421773) (by norm_num) (by norm_num [abs_of_pos])
      (by norm_num [abs_of_pos]) (by norm_num) (by norm_num) (by norm_num)
  have h5 : fmul (11712707 / 2 ^ 24 : ℚ) (13421773 / 2 ^ 26 : ℚ)
      = (4685083 / 2 ^ 25 : ℚ) := by
    unfold fmul
    exact round32_eq_of_near _ _ (-3) (9370166) (by norm_num) (by norm_num [abs_of_pos])
      (by norm_num [abs_of_pos]) (by norm_num) (by norm_num) (by norm_num)
  have h6 : fmul (13176795 / 2 ^ 22 : ℚ) (110 : ℚ)
      = (353869 / 2 ^ 10 : ℚ) := by
    unfold fmul
    exact round32_eq_of_near _ _ (8) (11323808) (by norm_num) (by norm_num [abs_of_pos])
      (by norm_num [abs_of_pos]) (by norm_num) (by norm_num) (by norm_num)
  have h7 : fdiv (353869 / 2 ^ 10 : ℚ) (180 : ℚ)
      = (16104971 / 2 ^ 23 : ℚ) := by
    unfold fdiv
    exact round32_eq_of_near _ _ (0) (16104971) (by norm_num) (by norm_num [abs_of_pos])
      (by norm_num [abs_of_pos]) (by norm_num) (by norm_num) (by norm_num)
  have h8 : fdiv (16104971 / 2 ^ 23 : ℚ) (4685083 / 2 ^ 25 : ℚ)
      = (7208959 / 2 ^ 19 : ℚ) := by
    unfold fdiv
    exact round32_eq_of_near _ _ (3) (14417918) (by norm_num) (by norm_num [abs_of_pos])
      (by norm_num [abs_of_pos]) (by norm_num) (by norm_num) (by norm_num)
  have h9 : fadd (7208959 / 2 ^ 19 : ℚ) (1 : ℚ)
      = (7733247 / 2 ^ 19 : ℚ) := by
    unfold fadd
    exact round32_eq_of_near _ _ (3) (15466494) (by norm_num) (by norm_num [abs_of_pos])
      (by norm_num [abs_of_pos]) (by norm_num) (by norm_num) (by norm_num)
  have hA : fmul (fdiv (fmul (13176795 / 2 ^ 22 : ℚ) 40) 180) (fdiv (fsub 100 80) 100)
      = (4685083 / 2 ^ 25 : ℚ) := by
    rw [h1, h2, h3, h4, h5]
  refine ⟨hA, ?_⟩
  rw [hA, h6, h7, h8, h9]
  unfold floatToInt
  rw [if_pos (by norm_num), Int.floor_eq_iff]
  norm_num

/-- Evaluation in binary32 of the angle per step and the shot count for a total field of view
of 100 degrees, an overlap of 90 percent and a current field of view of 50 degrees, with the
binary32 value nearest to pi. -/
theorem panoramaValues_100_90_50 :
    fmul (fdiv (fmul (13176795 / 2 ^ 22 : ℚ) 50) 180) (fdiv (fsub 100 90) 100)
      = (11712707 / 2 ^ 27 : ℚ)
    ∧ floatToInt (fadd (fdiv (fdiv (fmul (13176795 / 2 ^ 22 : ℚ) 100) 180)
        (fmul (fdiv (fmul (13176795 / 2 ^ 22 : ℚ) 50) 180)
          (fdiv (fsub 100 90) 100))) 1) = 20 := by
  have h1 : fmul (13176795 / 2 ^ 22 : ℚ) (50 : ℚ)
      = (10294371 / 2 ^ 16 : ℚ) := by
    unfold fmul
    exact round32_eq_of_near _ _ (7) (10294371) (by norm_num) (by norm_num [abs_of_pos])
      (by norm_num [abs_of_pos]) (by norm_num) (by norm_num) (by norm_num)
  have h2 : fdiv (10294371 / 2 ^ 16 : ℚ) (180 : ℚ)
      = (14640883 / 2 ^ 24 : ℚ) := by
    unfold fdiv
    exact round32_eq_of_near _ _ (-1) (14640883) (by norm_num) (by norm_num [abs_of_pos])
      (by norm_num [abs_of_pos]) (by norm_num) (by norm_num) (by norm_num)
  have h3 : fsub (100 : ℚ) (90 : ℚ)
      = (10 : ℚ) := by
    unfold fsub
    exact round32_eq_of_near _ _ (3) (10485760) (by norm_num) (by norm_num [abs_of_pos])
      (by norm_num [abs_of_pos]) (by norm_num) (by norm_num) (by norm_num)
  have h4 : fdiv (10 : ℚ) (100 : ℚ)
      = (13421773 / 2 ^ 27 : ℚ) := by
    unfold fdiv
    exact round32_eq_of_near _ _ (-4) (13421773) (by norm_num) (by norm_num [abs_of_pos])
      (by norm_num [abs_of_pos]) (by norm_num) (by norm_num) (by norm_num)
  have h5 : fmul (14640883 / 2 ^ 24 : ℚ) (13421773 / 2 ^ 27 : ℚ)
      = (11712707 / 2 ^ 27 : ℚ) := by
    unfold fmul
    exact round32_eq_of_near _ _ (-4) (11712707) (by norm_num) (by norm_num [abs_of_pos])
      (by norm_num [abs_of_pos]) (by norm_num) (by norm_num) (by norm_num)
  have h6 : fmul (13176795 / 2 ^ 22 : ℚ) (100 : ℚ)
      = (10294371 / 2 ^ 15 : ℚ) := by
    unfold fmul
    exact round32_eq_of_near _ _ (8) (10294371) (by norm_num) (by norm_num [abs_of_pos])
      (by norm_num [abs_of_pos]) (by norm_num) (by norm_num) (by norm_num)
  have h7 : fdiv (10294371 / 2 ^ 15 : ℚ) (180 : ℚ)
      = (14640883 / 2 ^ 23 : ℚ) := by
    unfold fdiv
    exact round32_eq_of_near _ _ (0) (14640883) (by norm_num) (by norm_num [abs_of_pos])
      (by norm_num [abs_of_pos]) (by norm_num) (by norm_num) (by norm_num)
  have h8 : fdiv (14640883 / 2 ^ 23 : ℚ) (11712707 / 2 ^ 27 : ℚ)
      = (10485759 / 2 ^ 19 : ℚ) := by
    unfold fdiv
    exact round32_eq_of_near _ _ (4) (10485759) (by norm_num) (by norm_num [abs_of_pos])
      (by norm_num [abs_of_pos]) (by norm_num) (by norm_num) (by norm_num)
  have h9 : fadd (10485759 / 2 ^ 19 : ℚ) (1 : ℚ)
      = (11010047 / 2 ^ 19 : ℚ) := by
    unfold fadd
    exact round32_eq_of_near _ _ (4) (11010047) (by norm_num) (by norm_num [abs_of_pos])
      (by norm_num [abs_of_pos]) (by norm_num) (by norm_num) (by norm_num)
  have hA : fmul (fdiv (fmul (13176795 / 2 ^ 22 : ℚ) 50) 180) (fdiv (fsub 100 90) 100)
      = (11712707 / 2 ^ 27 : ℚ) := by
    rw [h1, h2, h3, h4, h5]
  refine ⟨hA, ?_⟩
  rw [hA, h6, h7, h8, h9]
  unfold floatToInt
  rw [if_pos (by norm_num), Int.floor_eq_iff]
  norm_num

/-- Evaluation in binary32 of the angle per step and the shot count for a total field of view
of 110 degrees, an overlap of 80 percent and a current field of view of 50 degrees, with the
binary32 value nearest to pi. -/
theorem panoramaValues_110_80_50 :
    fmul (fdiv (fmul (13176795 / 2 ^ 22 : ℚ) 50) 180) (fdiv (fsub 100 80) 100)
      = (11712707 / 2 ^ 26 : ℚ)
    ∧ floatToInt (fadd (fdiv (fdiv (fmul (13176795 / 2 ^ 22 : ℚ) 110) 180)
        (fmul (fdiv (fmul (13176795 / 2 ^ 22 : ℚ) 50) 180)
          (fdiv (fsub 100 80) 100))) 1) = 11 := by
  have h1 : fmul (13176795 / 2 ^ 22 : ℚ) (50 : ℚ)
      = (10294371 / 2 ^ 16 : ℚ) := by
    unfold fmul
    exact round32_eq_of_near _ _ (7) (10294371) (by norm_num) (by norm_num [abs_of_pos])
      (by norm_num [abs_of_pos]) (by norm_num) (by norm_num) (by norm_num)
  have h2 : fdiv (10294371 / 2 ^ 16 : ℚ) (180 : ℚ)
      = (14640883 / 2 ^ 24 : ℚ) := by
    unfold fdiv
    exact round32_eq_of_near _ _ (-1) (14640883) (by norm_num) (by norm_num [abs_of_pos])
      (by norm_num [abs_of_pos]) (by norm_num) (by norm_num) (by norm_num)
  have h3 : fsub (100 : ℚ) (80 : ℚ)
      = (20 : ℚ) := by
    unfold fsub
    exact round32_eq_of_near _ _ (4) (10485760) (by norm_num) (by norm_num [abs_of_pos])
      (by norm_num [abs_of_pos]) (by norm_num) (by norm_num) (by norm_num)
  have h4 : fdiv (20 : ℚ) (100 : ℚ)
      = (13421773 / 2 ^ 26 : ℚ) := by
    unfold fdiv
    exact round32_eq_of_near _ _ (-3) (13421773) (by norm_num) (by norm_num [abs_of_pos])
      (by norm_num [abs_of_pos]) (by norm_num) (by norm_num) (by norm_num)
  have h5 : fmul (14640883 / 2 ^ 24 : ℚ) (13421773 / 2 ^ 26 : ℚ)
      = (11712707 / 2 ^ 26 : ℚ) := by
    unfold fmul
    exact round32_eq_of_near _ _ (-3) (11712707) (by norm_num) (by norm_num [abs_of_pos])
      (by norm_num [abs_of_pos]) (by norm_num) (by norm_num) (by norm_num)
  have h6 : fmul (13176795 / 2 ^ 22 : ℚ) (110 : ℚ)
      = (353869 / 2 ^ 10 : ℚ) := by
    unfold fmul
    exact round32_eq_of_near _ _ (8) (11323808) (by norm_num) (by norm_num [abs_of_pos])
      (by norm_num [abs_of_pos]) (by norm_num) (by norm_num) (by norm_num)
  have h7 : fdiv (353869 / 2 ^ 10 : ℚ) (180 : ℚ)
      = (16104971 / 2 ^ 23 : ℚ) := by
    unfold fdiv
    exact round32_eq_of_near _ _ (0) (16104971) (by norm_num) (by norm_num [abs_of_pos])
      (by norm_num [abs_of_pos]) (by norm_num) (by norm_num) (by norm_num)
  have h8 : fdiv (16104971 / 2 ^ 23 : ℚ) (11712707 / 2 ^ 26 : ℚ)
      = (11534335 / 2 ^ 20 : ℚ) := by
    unfold fdiv
    exact round32_eq_of_near _ _ (3) (11534335) (by norm_num) (by norm_num [abs_of_pos])
      (by norm_num [abs_of_pos]) (by norm_num) (by norm_num) (by norm_num)
  have h9 : fadd (11534335 / 2 ^ 20 : ℚ) (1 : ℚ)
      = (12582911 / 2 ^ 20 : ℚ) := by
    unfold fadd
    exact round32_eq_of_near _ _ (3) (12582911) (by norm_num) (by norm_num [abs_of_pos])
      (by norm_num [abs_of_pos]) (by norm_num) (by norm_num) (by norm_num)
  have hA : fmul (fdiv (fmul (13176795 / 2 ^ 22 : ℚ) 50) 180) (fdiv (fsub 100 80) 100)
      = (11712707 / 2 ^ 26 : ℚ) := by
    rw [h1, h2, h3, h4, h5]
  refine ⟨hA, ?_⟩
  rw [hA, h6, h7, h8, h9]
  unfold floatToInt
  rw [if_pos (by norm_num), Int.floor_eq_iff]
  norm_num

/-! ## Lemmas on the parameters of a panorama -/

/-- The session parameters `startHorizontalPanoramaShot` computes for a request in range: the
angle per step is a finite binary32 value between `2 ^ (-14)` and 16, and the shot count lies
between 1 and 36002, between `floor x` and `ceil x + 1` for the exact ratio
`x = totalFoV / (currentFoV * (1 - overlap / 100))`, and is `floor x + 1` when the fractional
part of `x` is at least `1 / 16` and below `15 / 16`. -/
theorem panorama_parameters (env : Env) (c s : ScreenshotController)
    (totalFoV overlap currentFoV : ℚ) (isTestRun : Bool)
    (hconn : env.cameraToolsConnected = true)
    (hin : PanoramaInputs env totalFoV overlap currentFoV)
    (hs : (startHorizontalPanoramaShot env c totalFoV overlap currentFoV isTestRun).1 = s) :
    (1 / 2 ^ 14 ≤ s._pano_anglePerStep ∧ s._pano_anglePerStep ≤ 16
      ∧ IsFloat32 s._pano_anglePerStep)
    ∧ (1 ≤ s._numberOfShotsToTake ∧ s._numberOfShotsToTake ≤ 36002)
    ∧ (⌊totalFoV / (currentFoV * (1 - overlap / 100))⌋ ≤ s._numberOfShotsToTake
      ∧ s._numberOfShotsToTake ≤ ⌈totalFoV / (currentFoV * (1 - overlap / 100))⌉ + 1)
    ∧ (1 / 16 ≤ totalFoV / (currentFoV * (1 - overlap / 100))
          - ⌊totalFoV / (currentFoV * (1 - overlap / 100))⌋ →
        totalFoV / (currentFoV * (1 - overlap / 100))
          - ⌊totalFoV / (currentFoV * (1 - overlap / 100))⌋ < 15 / 16 →
        s._numberOfShotsToTake = ⌊totalFoV / (currentFoV * (1 - overlap / 100))⌋ + 1) := by
  obtain ⟨⟨_, hp1, hp2⟩, ⟨_, ht1, ht2⟩, ⟨_, ho1, ho2⟩, ⟨_, hc1, hc2⟩⟩ := hin
  obtain ⟨_, fa, fn⟩ :=
    fields_startHorizontalPanoramaShot env c totalFoV overlap currentFoV isTestRun hconn
  rw [hs] at fa fn
  obtain ⟨_, a1, a2, a3, hr, hone, hx0, hx1⟩ :=
    panorama_analysis env.pi totalFoV overlap currentFoV hp1 hp2 ht1 ht2 ho1 ho2 hc1 hc2
  obtain ⟨n1, n2, n3, n4, n5⟩ := floatToInt_near _ _ hx0 hone hr
  rw [fa, fn]
  unfold degreesToRadians
  refine ⟨⟨a1, a2, a3⟩, ⟨n3, ?_⟩, ⟨n1, n2⟩, n5⟩
  have h6 : ((floatToInt (fadd (fdiv (fdiv (fmul env.pi totalFoV) 180)
      (fmul (fdiv (fmul env.pi currentFoV) 180) (fdiv (fsub 100 overlap) 100))) 1) : Int) : ℚ)
      ≤ ((36002 : Int) : ℚ) := by
    push_cast
    linarith only [n4, hx1]
  exact_mod_cast h6

/-! ## C1: number of shots of a horizontal panorama -/

/-- C1 (as amended): with the connector connected, for every request in range (binary32
arguments, both fields of view between 1 and 360 degrees, overlap between 0 and 99 percent),
`startHorizontalPanoramaShot` sets the number of shots to take to the truncation of the
binary32 value `totalFoVRadians / anglePerStep + 1` computed from the stored members. With
`x = totalFoV / (currentFoV * (1 - overlap / 100))` the exact ratio, that number lies between
`floor x` and `ceil x + 1`, and it is `floor x + 1` whenever the fractional part of `x` is at
least `1 / 16` and below `15 / 16`: the conversion to `int` truncates, it does not round up. -/
theorem startHorizontalPanoramaShot_numberOfShots (env : Env) (c : ScreenshotController)
    (totalFoV overlap currentFoV : ℚ) (isTestRun : Bool)
    (hconn : env.cameraToolsConnected = true)
    (hin : PanoramaInputs env totalFoV overlap currentFoV) :
    (startHorizontalPanoramaShot env c totalFoV overlap currentFoV isTestRun).1._numberOfShotsToTake
      = floatToInt (fadd (fdiv
          (startHorizontalPanoramaShot env c totalFoV overlap currentFoV
            isTestRun).1._pano_totalFoVRadians
          (startHorizontalPanoramaShot env c totalFoV overlap currentFoV
            isTestRun).1._pano_anglePerStep) 1)
    ∧ ⌊totalFoV / (currentFoV * (1 - overlap / 100))⌋
        ≤ (startHorizontalPanoramaShot env c totalFoV overlap currentFoV
            isTestRun).1._numberOfShotsToTake
    ∧ (startHorizontalPanoramaShot env c totalFoV overlap currentFoV
          isTestRun).1._numberOfShotsToTake
        ≤ ⌈totalFoV / (currentFoV * (1 - overlap / 100))⌉ + 1
    ∧ (1 / 16 ≤ totalFoV / (currentFoV * (1 - overlap / 100))
          - ⌊totalFoV / (currentFoV * (1 - overlap / 100))⌋ →
        totalFoV / (currentFoV * (1 - overlap / 100))
          - ⌊totalFoV / (currentFoV * (1 - overlap / 100))⌋ < 15 / 16 →
        (startHorizontalPanoramaShot env c totalFoV overlap currentFoV
            isTestRun).1._numberOfShotsToTake
          = ⌊totalFoV / (currentFoV * (1 - overlap / 100))⌋ + 1) := by
  obtain ⟨ft, fa, fn⟩ :=
    fields_startHorizontalPanoramaShot env c totalFoV overlap currentFoV isTestRun hconn
  obtain ⟨_, _, ⟨b1, b2⟩, b3⟩ :=
    panorama_parameters env c _ totalFoV overlap currentFoV isTestRun hconn hin rfl
  refine ⟨?_, b1, b2, b3⟩
  rw [fn, ft, fa]

/-- C1 (witness): the request of 110 degrees in total with 80 percent overlap at 40 degrees
is in range; its exact ratio is `13.75`, and the number of shots to take is 14. -/
theorem startHorizontalPanoramaShot_numberOfShots_witness :
    (acceptingEnv.cameraToolsConnected = true ∧ PanoramaInputs acceptingEnv 110 80 40)
    ∧ (110 : ℚ) / (40 * (1 - 80 / 100)) = 55 / 4
    ∧ (startHorizontalPanoramaShot acceptingEnv idleSample 110 80 40 false).1._numberOfShotsToTake
        = 14 := by
  have hin : PanoramaInputs acceptingEnv 110 80 40 :=
    ⟨⟨⟨13176795, -22, by norm_num, by norm_num, by norm_num, by norm_num [acceptingEnv]⟩,
        by norm_num [acceptingEnv], by norm_num [acceptingEnv]⟩,
      ⟨⟨110, 0, by norm_num, by norm_num, by norm_num, by norm_num⟩, by norm_num, by norm_num⟩,
      ⟨⟨80, 0, by norm_num, by norm_num, by norm_num, by norm_num⟩, by norm_num, by norm_num⟩,
      ⟨⟨40, 0, by norm_num, by norm_num, by norm_num, by norm_num⟩, by norm_num, by norm_num⟩⟩
  have hfloor : ⌊(110 : ℚ) / (40 * (1 - 80 / 100))⌋ = 13 := by
    rw [Int.floor_eq_iff]
    norm_num
  have h := (startHorizontalPanoramaShot_numberOfShots acceptingEnv idleSample 110 80 40 false
    rfl hin).2.2.2
  rw [hfloor] at h
  exact ⟨⟨rfl, hin⟩, by norm_num, h (by norm_num) (by norm_num)⟩

/-- C1 (counterexample): for totalFoV = 110, overlap = 80 and currentFoV = 40 the code sets
the number of shots to take to 14, whereas `ceil (110 / 8) + 1` is 15; and for totalFoV = 100,
overlap = 90 and currentFoV = 50, where the exact ratio is 20, the binary32 quotient falls
just below 20 and the code sets 20, whereas `ceil 20 + 1` is 21. -/
theorem startHorizontalPanoramaShot_shots_ne_ceil :
    ((startHorizontalPanoramaShot acceptingEnv idleSample 110 80 40 false).1._numberOfShotsToTake
        = 14
      ∧ ⌈(110 : ℚ) / (40 * (1 - 80 / 100))⌉ + 1 = 15
      ∧ (startHorizontalPanoramaShot acceptingEnv idleSample 110 80 40
            false).1._numberOfShotsToTake
          ≠ ⌈(110 : ℚ) / (40 * (1 - 80 / 100))⌉ + 1)
    ∧ ((startHorizontalPanoramaShot acceptingEnv idleSample 100 90 50
            false).1._numberOfShotsToTake = 20
      ∧ ⌈(100 : ℚ) / (50 * (1 - 90 / 100))⌉ + 1 = 21) := by
  have hcode :
      (startHorizontalPanoramaShot acceptingEnv idleSample 110 80 40
        false).1._numberOfShotsToTake = 14 :=
    (fields_startHorizontalPanoramaShot acceptingEnv idleSample 110 80 40 false rfl).2.2.trans
      panoramaValues_110_80_40.2
  have hcode2 :
      (startHorizontalPanoramaShot acceptingEnv idleSample 100 90 50
        false).1._numberOfShotsToTake = 20 :=
    (fields_startHorizontalPanoramaShot acceptingEnv idleSample 100 90 50 false rfl).2.2.trans
      panoramaValues_100_90_50.2
  have hceil : ⌈(110 : ℚ) / (40 * (1 - 80 / 100))⌉ = 14 := by
    rw [Int.ceil_eq_iff]
    norm_num
  have hceil2 : ⌈(100 : ℚ) / (50 * (1 - 90 / 100))⌉ = 20 := by
    rw [Int.ceil_eq_iff]
    norm_num
  refine ⟨⟨hcode, ?_, ?_⟩, hcode2, ?_⟩
  · rw [hceil]; rfl
  · rw [hcode, hceil]; decide
  · rw [hceil2]; rfl

/-! ## C2: ingesting a frame during a session -/

/-- C2: in state `InSession` with a non-empty buffer, when the shot counter is below
`N - 1` the call of `storeGrabbedShot` keeps the state `InSession`, performs exactly the
effects of one `modifyCamera` call (on the controller holding the new frame) and sets the
skip counter to the configured wait value; when the shot counter is `N - 1` the state
becomes `SavingShots` and nothing is sent to the connector. -/
theorem storeGrabbedShot_inSession (env : Env) (c : ScreenshotController)
    (grabbedShot : List UInt8)
    (hstate : c._state = ScreenshotControllerState.InSession) (hne : grabbedShot ≠ []) :
    (c._shotCounter < c._numberOfShotsToTake - 1 →
      (storeGrabbedShot env c grabbedShot).1._state = ScreenshotControllerState.InSession
      ∧ (storeGrabbedShot env c grabbedShot).2
          = modifyCamera env
              { c with
                _grabbedFrames := c._grabbedFrames ++ [grabbedShot]
                _shotCounter := c._shotCounter + 1 }
      ∧ (storeGrabbedShot env c grabbedShot).1._convolutionFrameCounter
          = c._numberOfFramesToWaitBetweenSteps)
    ∧ (c._shotCounter = c._numberOfShotsToTake - 1 →
      (storeGrabbedShot env c grabbedShot).1._state = ScreenshotControllerState.SavingShots
      ∧ (storeGrabbedShot env c grabbedShot).2.filter Event.isConnectorCommand = []) := by
  have hlen : ¬ grabbedShot.length ≤ 0 := by
    cases grabbedShot with
    | nil => exact absurd rfl hne
    | cons b bs => simp
  constructor
  · intro hlt
    have hnot : ¬ c._shotCounter + 1 ≥ c._numberOfShotsToTake := by omega
    have h : storeGrabbedShot env c grabbedShot
        = ({ c with
              _grabbedFrames := c._grabbedFrames ++ [grabbedShot]
              _shotCounter := c._shotCounter + 1
              _convolutionFrameCounter := c._numberOfFramesToWaitBetweenSteps },
            modifyCamera env
              { c with
                _grabbedFrames := c._grabbedFrames ++ [grabbedShot]
                _shotCounter := c._shotCounter + 1 }) := by
      simp only [storeGrabbedShot, if_neg hlen, if_neg hnot]
    rw [h]
    exact ⟨hstate, rfl, rfl⟩
  · intro heq
    have hge : c._shotCounter + 1 ≥ c._numberOfShotsToTake := by omega
    have h : storeGrabbedShot env c grabbedShot
        = ({ c with
              _grabbedFrames := c._grabbedFrames ++ [grabbedShot]
              _shotCounter := c._shotCounter + 1
              _state := ScreenshotControllerState.SavingShots },
            [Event.notify_all]) := by
      simp only [storeGrabbedShot, if_neg hlen, if_pos hge]
    rw [h]
    exact ⟨rfl, rfl⟩

/-- C2 (witness): the first frame of a three-shot light-field session keeps the session
going and sends the single step `moveCameraMultishot 1 0 0 false`; the only frame of a
one-shot session ends it in `SavingShots` without any connector command. -/
theorem storeGrabbedShot_inSession_witness :
    ((lightfieldSession 3)._state = ScreenshotControllerState.InSession
      ∧ (lightfieldSession 3)._shotCounter < (lightfieldSession 3)._numberOfShotsToTake - 1
      ∧ (storeGrabbedShot acceptingEnv (lightfieldSession 3) [200, 100, 50, 255]).1._state
          = ScreenshotControllerState.InSession
      ∧ (storeGrabbedShot acceptingEnv (lightfieldSession 3) [200, 100, 50, 255]).2
          = [Event.moveCameraMultishot 1 0 0 false])
    ∧ ((lightfieldSession 1)._state = ScreenshotControllerState.InSession
      ∧ (lightfieldSession 1)._shotCounter = (lightfieldSession 1)._numberOfShotsToTake - 1
      ∧ (storeGrabbedShot acceptingEnv (lightfieldSession 1) [200, 100, 50, 255]).1._state
          = ScreenshotControllerState.SavingShots
      ∧ (storeGrabbedShot acceptingEnv (lightfieldSession 1)
          [200, 100, 50, 255]).2.filter Event.isConnectorCommand = []) := by
  have h3 := (storeGrabbedShot_inSession acceptingEnv (lightfieldSession 3) [200, 100, 50, 255]
    (by decide) (by decide)).1 (by decide)
  have h1 := (storeGrabbedShot_inSession acceptingEnv (lightfieldSession 1) [200, 100, 50, 255]
    (by decide) (by decide)).2 (by decide)
  refine ⟨⟨by decide, by decide, h3.1, ?_⟩, ⟨by decide, by decide, h1.1, h1.2⟩⟩
  rw [h3.2.1, modifyCamera_lightfield _ _ rfl
    ⟨1, 0, by norm_num, by norm_num, by norm_num, by
      show (1 : ℚ) = ((1 : Int) : ℚ) * (2 : ℚ) ^ (0 : Int)
      norm_num⟩]
  rfl

/-! ## C3: the frame stored by `reshadeEffectsRendered` -/

/-- C3 (as amended): when a shot is due, for every width `w` and height `h` with
`0 < w * h` and `4 * w * h < 2 ^ 31`, `reshadeEffectsRendered` appends one frame; that frame
keeps the `4 * w * h` bytes of the capture buffer, and its first `3 * w * h` bytes are the
R, G, B bytes of the pixels in order (bytes `3 * i`, `3 * i + 1`, `3 * i + 2` are the captured
bytes `4 * i`, `4 * i + 1`, `4 * i + 2`). -/
theorem reshadeEffectsRendered_frame (env : Env) (c : ScreenshotController)
    (runtime : Runtime) (hshot : shouldTakeShot c = true)
    (hpos : 0 < runtime.width * runtime.height)
    (hfit : 4 * (runtime.width * runtime.height) < 2 ^ 31) :
    ∃ frame : List UInt8,
      (reshadeEffectsRendered env c runtime).1._grabbedFrames = c._grabbedFrames ++ [frame]
      ∧ frame.length = 4 * (runtime.width * runtime.height)
      ∧ ∀ i, i < runtime.width * runtime.height →
          frame[3 * i]? = some (runtime.capture_screenshot (4 * i))
          ∧ frame[3 * i + 1]? = some (runtime.capture_screenshot (4 * i + 1))
          ∧ frame[3 * i + 2]? = some (runtime.capture_screenshot (4 * i + 2)) := by
  have hs : c._state = ScreenshotControllerState.InSession := ((shouldTakeShot_iff c).1 hshot).2
  have hpix : mulU32 runtime.width runtime.height = runtime.width * runtime.height := by
    unfold mulU32
    exact Nat.mod_eq_of_lt (by omega)
  have hlen := length_capturedShotData runtime hfit
  obtain ⟨plen, _, prgb⟩ := packRGBA_invariant (capturedShotData runtime)
    (runtime.width * runtime.height) (by omega)
  refine ⟨packRGBA (capturedShotData runtime) (runtime.width * runtime.height), ?_, ?_, ?_⟩
  · have hne : packRGBA (capturedShotData runtime) (runtime.width * runtime.height) ≠ [] := by
      intro h
      rw [h] at plen
      simp only [List.length_nil] at plen
      omega
    unfold reshadeEffectsRendered
    rw [if_neg (by simp [hs]), if_pos hshot]
    dsimp only
    rw [hpix]
    exact storeGrabbedShot_frames env _ _ hne
  · rw [plen, hlen]
  · intro i hi
    have h0 := prgb i 0 hi (by omega)
    have h1 := prgb i 1 hi (by omega)
    have h2 := prgb i 2 hi (by omega)
    rw [getElem?_capturedShotData runtime _ hfit (by omega)] at h0 h1 h2
    exact ⟨h0, h1, h2⟩

/-- C3 (witness): the theorem applies to a fresh three-shot session and the 1x1 runtime. -/
theorem reshadeEffectsRendered_frame_witness :
    (shouldTakeShot (lightfieldSession 3) = true ∧ 0 < onePixel.width * onePixel.height
      ∧ 4 * (onePixel.width * onePixel.height) < 2 ^ 31)
    ∧ ∃ frame : List UInt8,
      (reshadeEffectsRendered acceptingEnv (lightfieldSession 3) onePixel).1._grabbedFrames
        = (lightfieldSession 3)._grabbedFrames ++ [frame]
      ∧ frame.length = 4 * (onePixel.width * onePixel.height)
      ∧ ∀ i, i < onePixel.width * onePixel.height →
          frame[3 * i]? = some (onePixel.capture_screenshot (4 * i))
          ∧ frame[3 * i + 1]? = some (onePixel.capture_screenshot (4 * i + 1))
          ∧ frame[3 * i + 2]? = some (onePixel.capture_screenshot (4 * i + 2)) :=
  ⟨⟨by decide, by decide, by decide⟩,
    reshadeEffectsRendered_frame acceptingEnv (lightfieldSession 3) onePixel (by decide)
      (by decide) (by decide)⟩

/-- C3 (counterexample): the 1x1 capture `[200, 100, 50, 255]` is stored as the four bytes
`[200, 100, 50, 255]`, alpha byte included, not as the three bytes `[200, 100, 50]`. -/
theorem reshadeEffectsRendered_keeps_alpha_byte :
    (reshadeEffectsRendered acceptingEnv (lightfieldSession 3) onePixel).1._grabbedFrames
      = [[200, 100, 50, 255]]
    ∧ (reshadeEffectsRendered acceptingEnv (lightfieldSession 3) onePixel).1._grabbedFrames
      ≠ [[200, 100, 50]]
    ∧ ∀ frame ∈ (reshadeEffectsRendered acceptingEnv (lightfieldSession 3)
        onePixel).1._grabbedFrames, frame.length ≠ 3 * (onePixel.width * onePixel.height) := by
  decide

/-! ## C4: a start refused by the connector -/

/-- C4 (as amended): for each start operation called on a reachable controller in state `Off`,
when the connector is connected but refuses the session, the session state and the buffered
frames after the call are the same as before the call (state `Off`, no frame), no move or
rotate command is sent and exactly one notification is reported. -/
theorem start_refused (env : Env) (c : ScreenshotController) (request : StartRequest)
    (hreach : Reachable c) (hoff : c._state = ScreenshotControllerState.Off)
    (hconn : env.cameraToolsConnected = true)
    (hrefuse : ∀ t, env.startScreenshotSession t ≠ ScreenshotSessionStartReturnCode.AllOk) :
    (request.call env c).1._state = c._state
    ∧ (request.call env c).1._grabbedFrames = c._grabbedFrames
    ∧ (request.call env c).2.filter Event.isMotion = []
    ∧ ((request.call env c).2.filter Event.isNotification).length = 1 := by
  have key : (request.call env c).1._state = ScreenshotControllerState.Off
      ∧ (request.call env c).1._grabbedFrames = []
      ∧ (request.call env c).2.filter Event.isMotion = []
      ∧ ((request.call env c).2.filter Event.isNotification).length = 1 := by
    cases request with
    | horizontalPanorama total overlap cur isTestRun =>
      simp only [StartRequest.call, startHorizontalPanoramaShot, hconn, Bool.not_true,
        Bool.false_eq_true, if_false]
      obtain ⟨h1, h2, h3⟩ := startSession_refused env
        { reset c with
          _pano_totalFoVRadians := degreesToRadians env total
          _overlapPercentagePerPanoShot := overlap
          _pano_currentFoVRadians := degreesToRadians env cur
          _typeOfShot := ScreenshotType.HorizontalPanorama
          _isTestRun := isTestRun
          _pano_anglePerStep := fmul (degreesToRadians env cur) (fdiv (fsub 100 overlap) 100)
          _numberOfShotsToTake := floatToInt (fadd (fdiv (degreesToRadians env total)
            (fmul (degreesToRadians env cur) (fdiv (fsub 100 overlap) 100))) 1) } hrefuse
      simp only [reset] at h1 h2 h3 ⊢
      rw [h1]
      exact ⟨rfl, rfl, h2, h3⟩
    | lightfield d n isTestRun =>
      simp only [StartRequest.call, startLightfieldShot, hconn, Bool.not_true,
        Bool.false_eq_true, if_false]
      obtain ⟨h1, h2, h3⟩ := startSession_refused env
        { reset c with
          _isTestRun := isTestRun
          _lightField_distancePerStep := d
          _numberOfShotsToTake := n
          _typeOfShot := ScreenshotType.MultiShot } hrefuse
      simp only [reset] at h1 h2 h3 ⊢
      rw [h1]
      exact ⟨rfl, rfl, h2, h3⟩
    | debugGrid =>
      simp only [StartRequest.call, startDebugGridShot, hconn, Bool.not_true,
        Bool.false_eq_true, if_false]
      obtain ⟨h1, h2, h3⟩ := startSession_refused env
        { reset c with
          _isTestRun := true
          _lightField_distancePerStep := 10
          _numberOfShotsToTake := 15
          _typeOfShot := ScreenshotType.DebugGrid } hrefuse
      simp only [reset] at h1 h2 h3 ⊢
      rw [h1]
      exact ⟨rfl, rfl, h2, h3⟩
    | multiView n isTestRun =>
      simp only [StartRequest.call, startMultiViewShot, hconn, Bool.not_true,
        Bool.false_eq_true, if_false]
      obtain ⟨h1, h2, h3⟩ := startSession_refused env
        { reset c with
          _isTestRun := isTestRun
          _numberOfShotsToTake := n
          _typeOfShot := ScreenshotType.MultiView } hrefuse
      simp only [reset] at h1 h2 h3 ⊢
      rw [h1]
      exact ⟨rfl, rfl, h2, h3⟩
  obtain ⟨k1, k2, k3, k4⟩ := key
  have hframes : c._grabbedFrames = [] := idle_of_reachable c hreach hoff
  refine ⟨?_, ?_, k3, k4⟩
  · rw [k1, hoff]
  · rw [k2, hframes]

/-- C4 (witness): a light-field start on the idle controller, refused as already active: the
controller stays in state `Off` without frames, one notification and no motion. -/
theorem start_refused_witness :
    (Reachable idleSample ∧ idleSample._state = ScreenshotControllerState.Off
      ∧ refusingEnv.cameraToolsConnected = true
      ∧ ∀ t, refusingEnv.startScreenshotSession t ≠ ScreenshotSessionStartReturnCode.AllOk)
    ∧ ((StartRequest.lightfield 1 3 false).call refusingEnv idleSample).1._state
        = ScreenshotControllerState.Off
    ∧ ((StartRequest.lightfield 1 3 false).call refusingEnv idleSample).1._grabbedFrames = []
    ∧ ((StartRequest.lightfield 1 3 false).call refusingEnv idleSample).2.filter Event.isMotion
        = []
    ∧ (((StartRequest.lightfield 1 3 false).call refusingEnv idleSample).2.filter
        Event.isNotification).length = 1 := by
  have hrefuse : ∀ t,
      refusingEnv.startScreenshotSession t ≠ ScreenshotSessionStartReturnCode.AllOk := by
    intro t
    show ScreenshotSessionStartReturnCode.Error_AlreadySessionActive
      ≠ ScreenshotSessionStartReturnCode.AllOk
    decide
  have hreach : Reachable idleSample := ⟨"", 0, ScreenshotFiletype.Jpeg, [], rfl⟩
  have h := start_refused refusingEnv idleSample (StartRequest.lightfield 1 3 false) hreach rfl
    rfl hrefuse
  exact ⟨⟨hreach, rfl, rfl, hrefuse⟩, h.1, h.2.1, h.2.2.1, h.2.2.2⟩

/-- C4 (counterexample): a light-field start refused while a session is in progress with one
buffered frame leaves the controller in state `Off` with no frame: neither the state nor the
buffered frames are the same as before the call. The call sends neither
`endScreenshotSession` nor `notify_all`. -/
theorem start_refused_during_session_resets :
    sessionWithFrame._state = ScreenshotControllerState.InSession
    ∧ sessionWithFrame._grabbedFrames = [[200, 100, 50, 255]]
    ∧ refusingEnv.cameraToolsConnected = true
    ∧ refusingEnv.startScreenshotSession ScreenshotType.MultiShot
        = ScreenshotSessionStartReturnCode.Error_AlreadySessionActive
    ∧ ((StartRequest.lightfield 1 3 false).call refusingEnv sessionWithFrame).1._state
        ≠ sessionWithFrame._state
    ∧ ((StartRequest.lightfield 1 3 false).call refusingEnv sessionWithFrame).1._grabbedFrames
        ≠ sessionWithFrame._grabbedFrames
    ∧ ((StartRequest.lightfield 1 3 false).call refusingEnv sessionWithFrame).2
        = [Event.startScreenshotSession ScreenshotType.MultiShot,
           Event.addNotification
            "Screenshot session couldn't be started: there's already a session active."] := by
  refine ⟨by decide, by decide, by decide, by decide, by decide, by decide, ?_⟩
  rfl

/-! ## C5: a start while the connector is not connected -/

/-- C5: for each start operation and all its arguments, when the controller is in state
`Off` and the connector is not connected, the call returns the controller unchanged (so the
state stays `Off`) and performs no effect at all. -/
theorem start_disconnected (env : Env) (c : ScreenshotController) (request : StartRequest)
    (hstate : c._state = ScreenshotControllerState.Off)
    (hconn : env.cameraToolsConnected = false) :
    request.call env c = (c, [])
    ∧ (request.call env c).1._state = ScreenshotControllerState.Off
    ∧ (request.call env c).2.filter Event.isConnectorCommand = [] := by
  rw [start_not_connected env c request hconn]
  exact ⟨rfl, hstate, rfl⟩

/-- C5 (witness): a panorama start on the idle controller with the connector disconnected. -/
theorem start_disconnected_witness :
    (idleSample._state = ScreenshotControllerState.Off
      ∧ disconnectedEnv.cameraToolsConnected = false)
    ∧ (StartRequest.horizontalPanorama 110 80 40 false).call disconnectedEnv idleSample
        = (idleSample, [])
    ∧ ((StartRequest.horizontalPanorama 110 80 40 false).call disconnectedEnv idleSample).1._state
        = ScreenshotControllerState.Off
    ∧ ((StartRequest.horizontalPanorama 110 80 40 false).call disconnectedEnv
        idleSample).2.filter Event.isConnectorCommand = [] :=
  ⟨⟨rfl, rfl⟩,
    start_disconnected disconnectedEnv idleSample (StartRequest.horizontalPanorama 110 80 40 false)
      rfl rfl⟩

/-! ## C6: when a shot is due -/

/-- C6 (as amended): for every controller, `shouldTakeShot` returns true if and only if the
skip counter is not positive (zero or negative) and the state is `InSession`. -/
theorem shouldTakeShot_true_iff (c : ScreenshotController) :
    shouldTakeShot c = true
      ↔ (c._convolutionFrameCounter ≤ 0 ∧ c._state = ScreenshotControllerState.InSession) :=
  shouldTakeShot_iff c

/-- C6 (counterexample): after `configure` stored the wait count `-1`, a started session has
skip counter `-1`; `shouldTakeShot` returns true although the skip counter is not 0. -/
theorem shouldTakeShot_negative_counter :
    negativeWaitSession._convolutionFrameCounter = -1
    ∧ shouldTakeShot negativeWaitSession = true
    ∧ ¬ (shouldTakeShot negativeWaitSession = true
          ↔ (negativeWaitSession._convolutionFrameCounter = 0
              ∧ negativeWaitSession._state = ScreenshotControllerState.InSession)) := by
  decide

/-! ## C7: buffered frames and the shot target -/

/-- C7 (as amended): in every controller reachable from an idle controller by public
operations, the number of buffered frames does not exceed the number of shots to take when
that target is at least 1, and does not exceed 1 when the target is below 1. -/
theorem reachable_frames_le_target (c : ScreenshotController) (h : Reachable c) :
    (1 ≤ c._numberOfShotsToTake → (c._grabbedFrames.length : Int) ≤ c._numberOfShotsToTake)
    ∧ (c._numberOfShotsToTake < 1 → c._grabbedFrames.length ≤ 1) := by
  obtain ⟨_, _, hmax⟩ := invariant_of_reachable c h
  constructor
  · intro h1
    rwa [max_eq_left h1] at hmax
  · intro h1
    rw [max_eq_right (by omega)] at hmax
    omega

/-- C7 (witness): the bound on a three-shot session after its first capture, and on the
zero-shot run. -/
theorem reachable_frames_le_target_witness :
    (Reachable sessionWithFrame ∧ 1 ≤ sessionWithFrame._numberOfShotsToTake
      ∧ (sessionWithFrame._grabbedFrames.length : Int) ≤ sessionWithFrame._numberOfShotsToTake)
    ∧ (Reachable zeroShotRun ∧ zeroShotRun._numberOfShotsToTake < 1
      ∧ zeroShotRun._grabbedFrames.length ≤ 1) := by
  have r1 : Reachable sessionWithFrame :=
    ⟨"", 0, ScreenshotFiletype.Jpeg,
      [Operation.start acceptingEnv (StartRequest.lightfield 1 3 false),
       Operation.reshadeEffectsRendered acceptingEnv onePixel], rfl⟩
  have r2 : Reachable zeroShotRun :=
    ⟨"", 0, ScreenshotFiletype.Jpeg,
      [Operation.start acceptingEnv (StartRequest.lightfield 1 0 false),
       Operation.reshadeEffectsRendered acceptingEnv onePixel], rfl⟩
  exact ⟨⟨r1, by decide, (reachable_frames_le_target sessionWithFrame r1).1 (by decide)⟩,
    ⟨r2, by decide, (reachable_frames_le_target zeroShotRun r2).2 (by decide)⟩⟩

/-- C7 (counterexample): a light-field session started with a shot count of 0 buffers its
first capture, so a reachable controller holds 1 frame with a target of 0 shots. -/
theorem reachable_frames_exceed_zero_target :
    Reachable zeroShotRun
    ∧ zeroShotRun._numberOfShotsToTake = 0
    ∧ zeroShotRun._grabbedFrames.length = 1
    ∧ ¬ ((zeroShotRun._grabbedFrames.length : Int) ≤ zeroShotRun._numberOfShotsToTake) :=
  ⟨⟨"", 0, ScreenshotFiletype.Jpeg,
      [Operation.start acceptingEnv (StartRequest.lightfield 1 0 false),
       Operation.reshadeEffectsRendered acceptingEnv onePixel], rfl⟩,
    by decide, by decide, by decide⟩

/-! ## C8: configure -/

/-- C8: for every root folder, wait count and file type, `configure` called while the state
is not `Off` returns the controller unchanged; called while the state is `Off` it stores
exactly the three given values as the output configuration. -/
theorem configure_guarded (c : ScreenshotController) (rootFolder : String) (wait : Int)
    (filetype : ScreenshotFiletype) :
    (c._state ≠ ScreenshotControllerState.Off → configure c rootFolder wait filetype = c)
    ∧ (c._state = ScreenshotControllerState.Off →
        (configure c rootFolder wait filetype)._rootFolder = rootFolder
        ∧ (configure c rootFolder wait filetype)._numberOfFramesToWaitBetweenSteps = wait
        ∧ (configure c rootFolder wait filetype)._filetype = filetype) := by
  constructor
  · intro h
    simp only [configure, if_pos h]
  · intro h
    have h2 : ¬ c._state ≠ ScreenshotControllerState.Off := fun hn => hn h
    have h3 : configure c rootFolder wait filetype
        = { reset c with
            _rootFolder := rootFolder
            _numberOfFramesToWaitBetweenSteps := wait
            _filetype := filetype } := by
      simp only [configure, if_neg h2]
    rw [h3]
    exact ⟨rfl, rfl, rfl⟩

/-- C8 (witness): `configure` is ignored during a session with one buffered frame, and on
the idle controller it stores the folder, the wait count 2 and the file type `Png`. -/
theorem configure_guarded_witness :
    (sessionWithFrame._state ≠ ScreenshotControllerState.Off
      ∧ configure sessionWithFrame "shots" 2 ScreenshotFiletype.Png = sessionWithFrame)
    ∧ (idleSample._state = ScreenshotControllerState.Off
      ∧ (configure idleSample "shots" 2 ScreenshotFiletype.Png)._rootFolder = "shots"
      ∧ (configure idleSample "shots" 2
          ScreenshotFiletype.Png)._numberOfFramesToWaitBetweenSteps = 2
      ∧ (configure idleSample "shots" 2 ScreenshotFiletype.Png)._filetype
          = ScreenshotFiletype.Png) :=
  ⟨⟨by decide,
      (configure_guarded sessionWithFrame "shots" 2 ScreenshotFiletype.Png).1 (by decide)⟩,
    ⟨rfl, (configure_guarded idleSample "shots" 2 ScreenshotFiletype.Png).2 rfl⟩⟩

/-! ## C9: cancelSession -/

/-- C9: `cancelSession` from `InSession` sets the state to `Canceling` and tells the
connector once that the session ended (and wakes the waiter); from `SavingShots` it sets the
state to `Canceling` and performs no effect; from `Off` (and from `Canceling`) it changes
nothing and performs no effect. In every case all members other than the state are
unchanged. -/
theorem cancelSession_transitions (c : ScreenshotController) :
    (c._state = ScreenshotControllerState.InSession →
      cancelSession c = ({ c with _state := ScreenshotControllerState.Canceling },
        [Event.endScreenshotSession, Event.notify_all])
      ∧ (cancelSession c).2.filter Event.isConnectorCommand = [Event.endScreenshotSession])
    ∧ (c._state = ScreenshotControllerState.SavingShots →
      cancelSession c = ({ c with _state := ScreenshotControllerState.Canceling }, []))
    ∧ (c._state = ScreenshotControllerState.Off → cancelSession c = (c, []))
    ∧ (c._state = ScreenshotControllerState.Canceling → cancelSession c = (c, []))
    ∧ (cancelSession c).1 = { c with _state := (cancelSession c).1._state } := by
  refine ⟨?_, ?_, ?_, ?_, ?_⟩
  · intro h
    have h2 : cancelSession c = ({ c with _state := ScreenshotControllerState.Canceling },
        [Event.endScreenshotSession, Event.notify_all]) := by
      simp only [cancelSession, h]
    rw [h2]
    exact ⟨rfl, rfl⟩
  · intro h
    simp only [cancelSession, h]
  · intro h
    simp only [cancelSession, h]
  · intro h
    simp only [cancelSession, h]
  · unfold cancelSession
    split <;> rfl

/-- C9 (witness): the transitions on a session with one frame, on a finished one-shot
session in `SavingShots`, on the idle controller, and on an already cancelled session. -/
theorem cancelSession_transitions_witness :
    (sessionWithFrame._state = ScreenshotControllerState.InSession
      ∧ (cancelSession sessionWithFrame).1._state = ScreenshotControllerState.Canceling
      ∧ (cancelSession sessionWithFrame).2.filter Event.isConnectorCommand
          = [Event.endScreenshotSession])
    ∧ ((reshadeEffectsRendered acceptingEnv (lightfieldSession 1) onePixel).1._state
          = ScreenshotControllerState.SavingShots
      ∧ (cancelSession (reshadeEffectsRendered acceptingEnv (lightfieldSession 1)
          onePixel).1).1._state = ScreenshotControllerState.Canceling
      ∧ (cancelSession (reshadeEffectsRendered acceptingEnv (lightfieldSession 1)
          onePixel).1).2 = [])
    ∧ (idleSample._state = ScreenshotControllerState.Off
      ∧ cancelSession idleSample = (idleSample, []))
    ∧ ((cancelSession sessionWithFrame).1._state = ScreenshotControllerState.Canceling
      ∧ cancelSession (cancelSession sessionWithFrame).1
          = ((cancelSession sessionWithFrame).1, [])) := by
  have h1 := (cancelSession_transitions sessionWithFrame).1 (by decide)
  have h2 := (cancelSession_transitions
    (reshadeEffectsRendered acceptingEnv (lightfieldSession 1) onePixel).1).2.1 (by decide)
  have h3 := (cancelSession_transitions idleSample).2.2.1 rfl
  have h4 := (cancelSession_transitions (cancelSession sessionWithFrame).1).2.2.2.1 (by decide)
  refine ⟨⟨by decide, ?_, h1.2⟩, ⟨by decide, ?_, ?_⟩, ⟨rfl, h3⟩, ⟨by decide, h4⟩⟩
  · rw [h1.1]
  · rw [h2]
  · rw [h2]

/-! ## C10: cancellation followed by the completion watcher -/

/-- C10: for every controller in state `InSession` (any buffered frames, any test-run flag),
the completion watcher is blocked before the cancel; after `cancelSession` the state is
`Canceling`, and the watcher then runs to its end, creates no folder and writes no file, and
leaves the controller in state `Off` with no buffered frame. -/
theorem cancel_then_complete (env : Env) (c : ScreenshotController)
    (hstate : c._state = ScreenshotControllerState.InSession) :
    completeShotSession env c = none
    ∧ (cancelSession c).1._state = ScreenshotControllerState.Canceling
    ∧ ∃ out : Outcome, completeShotSession env (cancelSession c).1 = some out
        ∧ out.2.filter Event.isPersistence = []
        ∧ out.1._state = ScreenshotControllerState.Off
        ∧ out.1._grabbedFrames = [] := by
  have hc : cancelSession c = ({ c with _state := ScreenshotControllerState.Canceling },
        [Event.endScreenshotSession, Event.notify_all]) := by
    simp only [cancelSession, hstate]
  rw [hc]
  refine ⟨?_, rfl, ?_⟩
  · simp [completeShotSession, waitForShots, hstate]
  · refine ⟨(reset { c with _state := ScreenshotControllerState.Canceling },
      [Event.endScreenshotSession]), ?_, rfl, rfl, rfl⟩
    simp [completeShotSession, waitForShots]

/-- C10 (witness): cancelling a non-test-run session that holds one frame; the watcher then
only tells the connector that the session ended. -/
theorem cancel_then_complete_witness :
    sessionWithFrame._state = ScreenshotControllerState.InSession
    ∧ sessionWithFrame._grabbedFrames.length = 1
    ∧ (cancelSession sessionWithFrame).1._state = ScreenshotControllerState.Canceling
    ∧ ∃ out : Outcome,
        completeShotSession acceptingEnv (cancelSession sessionWithFrame).1 = some out
        ∧ out.2.filter Event.isPersistence = []
        ∧ out.1._state = ScreenshotControllerState.Off
        ∧ out.1._grabbedFrames = [] :=
  ⟨by decide, by decide,
    (cancel_then_complete acceptingEnv sessionWithFrame (by decide)).2⟩

/-! ## Lemmas on sequences of captures -/

theorem storeGrabbedShot_nonfinal (env : Env) (c : ScreenshotController) (g : List UInt8)
    (hne : g ≠ []) (hlt : c._shotCounter + 1 < c._numberOfShotsToTake) :
    storeGrabbedShot env c g
      = ({ c with
            _grabbedFrames := c._grabbedFrames ++ [g]
            _shotCounter := c._shotCounter + 1
            _convolutionFrameCounter := c._numberOfFramesToWaitBetweenSteps },
          modifyCamera env
            { c with
              _grabbedFrames := c._grabbedFrames ++ [g]
              _shotCounter := c._shotCounter + 1 }) := by
  have hlen : ¬ g.length ≤ 0 := by
    cases g with
    | nil => exact absurd rfl hne
    | cons b bs => simp
  have hnot : ¬ c._shotCounter + 1 ≥ c._numberOfShotsToTake := by omega
  simp only [storeGrabbedShot, if_neg hlen, if_neg hnot]

theorem storeGrabbedShot_final (env : Env) (c : ScreenshotController) (g : List UInt8)
    (hne : g ≠ []) (hge : c._numberOfShotsToTake ≤ c._shotCounter + 1) :
    storeGrabbedShot env c g
      = ({ c with
            _grabbedFrames := c._grabbedFrames ++ [g]
            _shotCounter := c._shotCounter + 1
            _state := ScreenshotControllerState.SavingShots },
          [Event.notify_all]) := by
  have hlen : ¬ g.length ≤ 0 := by
    cases g with
    | nil => exact absurd rfl hne
    | cons b bs => simp
  have hge2 : c._shotCounter + 1 ≥ c._numberOfShotsToTake := hge
  simp only [storeGrabbedShot, if_neg hlen, if_pos hge2]

theorem storeGrabbedShot_nil (env : Env) (c : ScreenshotController) :
    storeGrabbedShot env c [] = (c, []) := by
  simp [storeGrabbedShot]

/-- Captures that all stay below the target: the controller gains the frames in order, keeps
its state and session parameters, and each capture performs the effects `[e]` whenever every
`modifyCamera` call of the session does. -/
theorem storeGrabbedShots_nonfinal (env : Env) (e : Event) (shots : List (List UInt8))
    (c : ScreenshotController)
    (hmod : ∀ c1 : ScreenshotController, c1._typeOfShot = c._typeOfShot →
      c1._pano_anglePerStep = c._pano_anglePerStep →
      c1._lightField_distancePerStep = c._lightField_distancePerStep →
      modifyCamera env c1 = [e])
    (hne : ∀ g ∈ shots, g ≠ [])
    (hlt : c._shotCounter + (shots.length : Int) < c._numberOfShotsToTake) :
    (storeGrabbedShots env c shots).2 = List.replicate shots.length e
    ∧ (storeGrabbedShots env c shots).1._state = c._state
    ∧ (storeGrabbedShots env c shots).1._grabbedFrames = c._grabbedFrames ++ shots
    ∧ (storeGrabbedShots env c shots).1._shotCounter = c._shotCounter + (shots.length : Int)
    ∧ (storeGrabbedShots env c shots).1._numberOfShotsToTake = c._numberOfShotsToTake
    ∧ (storeGrabbedShots env c shots).1._isTestRun = c._isTestRun
    ∧ (storeGrabbedShots env c shots).1._typeOfShot = c._typeOfShot
    ∧ (storeGrabbedShots env c shots).1._pano_anglePerStep = c._pano_anglePerStep
    ∧ (storeGrabbedShots env c shots).1._lightField_distancePerStep
        = c._lightField_distancePerStep := by
  induction shots generalizing c with
  | nil =>
    simp [storeGrabbedShots]
  | cons g rest ih =>
    have hg : g ≠ [] := hne g (List.mem_cons_self g rest)
    have hrest : ∀ g2 ∈ rest, g2 ≠ [] := fun g2 h2 => hne g2 (List.mem_cons_of_mem g h2)
    have hlen : ((g :: rest).length : Int) = (rest.length : Int) + 1 := by
      simp
    rw [hlen] at hlt
    have hstep := storeGrabbedShot_nonfinal env c g hg (by omega)
    have hev := hmod
      { c with
        _grabbedFrames := c._grabbedFrames ++ [g]
        _shotCounter := c._shotCounter + 1 } rfl rfl rfl
    simp only [storeGrabbedShots, hstep, hev]
    obtain ⟨i1, i2, i3, i4, i5, i6, i7, i8, i9⟩ := ih
      { c with
        _grabbedFrames := c._grabbedFrames ++ [g]
        _shotCounter := c._shotCounter + 1
        _convolutionFrameCounter := c._numberOfFramesToWaitBetweenSteps }
      (fun c1 h1 h2 h3 => hmod c1 h1 h2 h3) hrest (by simp only; omega)
    refine ⟨?_, i2, ?_, ?_, i5, i6, i7, i8, i9⟩
    · rw [i1]; rfl
    · rw [i3]; simp
    · rw [i4, hlen]; simp only; omega

/-- Any sequence of buffers: when every `modifyCamera` call of the session performs `[e]`,
each effect of the captures is `e` or the wake-up of the waiter. -/
theorem storeGrabbedShots_effects (env : Env) (e : Event) (shots : List (List UInt8))
    (c : ScreenshotController)
    (hmod : ∀ c1 : ScreenshotController, c1._typeOfShot = c._typeOfShot →
      c1._pano_anglePerStep = c._pano_anglePerStep →
      c1._lightField_distancePerStep = c._lightField_distancePerStep →
      modifyCamera env c1 = [e]) :
    ∀ x ∈ (storeGrabbedShots env c shots).2, x = e ∨ x = Event.notify_all := by
  induction shots generalizing c with
  | nil =>
    intro x hx
    simp [storeGrabbedShots] at hx
  | cons g rest ih =>
    intro x hx
    simp only [storeGrabbedShots, List.mem_append] at hx
    by_cases hg : g = []
    · subst hg
      rw [storeGrabbedShot_nil] at hx
      rcases hx with hx | hx
      · simp at hx
      · exact ih c hmod x hx
    · by_cases hlt : c._shotCounter + 1 < c._numberOfShotsToTake
      · have hev := hmod
          { c with
            _grabbedFrames := c._grabbedFrames ++ [g]
            _shotCounter := c._shotCounter + 1 } rfl rfl rfl
        rw [storeGrabbedShot_nonfinal env c g hg hlt] at hx
        dsimp only at hx
        rcases hx with hx | hx
        · rw [hev] at hx
          left
          simpa using hx
        · exact (fun h => ih _ h x hx) hmod
      · rw [storeGrabbedShot_final env c g hg (by omega)] at hx
        dsimp only at hx
        rcases hx with hx | hx
        · right
          simpa using hx
        · exact (fun h => ih _ h x hx) hmod

/-- Captures that all stay below the target, whatever the shot pattern: the controller gains
the frames in order and keeps its state and session parameters. -/
theorem storeGrabbedShots_below (env : Env) (shots : List (List UInt8))
    (c : ScreenshotController) (hne : ∀ g ∈ shots, g ≠ [])
    (hlt : c._shotCounter + (shots.length : Int) < c._numberOfShotsToTake) :
    (storeGrabbedShots env c shots).1._state = c._state
    ∧ (storeGrabbedShots env c shots).1._grabbedFrames = c._grabbedFrames ++ shots
    ∧ (storeGrabbedShots env c shots).1._shotCounter = c._shotCounter + (shots.length : Int)
    ∧ (storeGrabbedShots env c shots).1._numberOfShotsToTake = c._numberOfShotsToTake
    ∧ (storeGrabbedShots env c shots).1._isTestRun = c._isTestRun := by
  induction shots generalizing c with
  | nil =>
    simp [storeGrabbedShots]
  | cons g rest ih =>
    have hg : g ≠ [] := hne g (List.mem_cons_self g rest)
    have hrest : ∀ g2 ∈ rest, g2 ≠ [] := fun g2 h2 => hne g2 (List.mem_cons_of_mem g h2)
    have hlen : ((g :: rest).length : Int) = (rest.length : Int) + 1 := by
      simp
    rw [hlen] at hlt
    have hstep := storeGrabbedShot_nonfinal env c g hg (by omega)
    simp only [storeGrabbedShots, hstep]
    obtain ⟨i2, i3, i4, i5, i6⟩ := ih
      { c with
        _grabbedFrames := c._grabbedFrames ++ [g]
        _shotCounter := c._shotCounter + 1
        _convolutionFrameCounter := c._numberOfFramesToWaitBetweenSteps }
      hrest (by simp only; omega)
    refine ⟨i2, ?_, ?_, i5, i6⟩
    · rw [i3]; simp
    · rw [i4, hlen]; simp only; omega

/-- Captures that end exactly on the target: the last one moves the state to `SavingShots`
with all frames buffered in order and the shot counter equal to the target. -/
theorem storeGrabbedShots_complete (env : Env) (shots : List (List UInt8))
    (c : ScreenshotController) (hne : ∀ g ∈ shots, g ≠ []) (hsome : shots ≠ [])
    (heq : c._shotCounter + (shots.length : Int) = c._numberOfShotsToTake) :
    (storeGrabbedShots env c shots).1._state = ScreenshotControllerState.SavingShots
    ∧ (storeGrabbedShots env c shots).1._grabbedFrames = c._grabbedFrames ++ shots
    ∧ (storeGrabbedShots env c shots).1._shotCounter = c._numberOfShotsToTake
    ∧ (storeGrabbedShots env c shots).1._numberOfShotsToTake = c._numberOfShotsToTake
    ∧ (storeGrabbedShots env c shots).1._isTestRun = c._isTestRun := by
  induction shots generalizing c with
  | nil => exact absurd rfl hsome
  | cons g rest ih =>
    have hg : g ≠ [] := hne g (List.mem_cons_self g rest)
    have hrest : ∀ g2 ∈ rest, g2 ≠ [] := fun g2 h2 => hne g2 (List.mem_cons_of_mem g h2)
    have hlen : ((g :: rest).length : Int) = (rest.length : Int) + 1 := by
      simp
    rw [hlen] at heq
    cases rest with
    | nil =>
      simp only [List.length_nil, Nat.cast_zero, zero_add] at heq
      have hstep := storeGrabbedShot_final env c g hg (by omega)
      simp only [storeGrabbedShots, hstep]
      exact ⟨trivial, trivial, by omega, trivial, trivial⟩
    | cons g2 rest2 =>
      have hpos : (0 : Int) < ((g2 :: rest2).length : Int) := by
        simp only [List.length_cons]; push_cast; omega
      have hstep := storeGrabbedShot_nonfinal env c g hg (by omega)
      obtain ⟨i1, i2, i3, i4, i5⟩ := ih
        { c with
          _grabbedFrames := c._grabbedFrames ++ [g]
          _shotCounter := c._shotCounter + 1
          _convolutionFrameCounter := c._numberOfFramesToWaitBetweenSteps }
        hrest (by simp) (by simp only; omega)
      rw [storeGrabbedShots, hstep]
      refine ⟨i1, ?_, i3, i4, i5⟩
      rw [i2]; simp

theorem completeShotSession_testRun (env : Env) (c : ScreenshotController)
    (hstate : c._state = ScreenshotControllerState.SavingShots) (htest : c._isTestRun = true) :
    completeShotSession env c
      = some (reset c,
          [Event.endScreenshotSession, Event.addNotification "Test run completed."]) := by
  simp [completeShotSession, waitForShots, hstate, htest]

/-! ## C11: a test-run session -/

/-- C11: a test-run session with target `N >= 1` whose captures are all non-empty stays
`InSession` with `k` frames after `k < N` captures, becomes `SavingShots` at the `N`-th
capture with exactly the `N` captured frames buffered and shot counter `N`; the completion
watcher then runs to its end, creates no folder, writes no file, and leaves state `Off`. -/
theorem testRun_session (env envW : Env) (c : ScreenshotController)
    (shots : List (List UInt8))
    (hstate : c._state = ScreenshotControllerState.InSession) (htest : c._isTestRun = true)
    (hcount : c._shotCounter = 0) (hframes : c._grabbedFrames = [])
    (hpos : 1 ≤ c._numberOfShotsToTake)
    (hN : (shots.length : Int) = c._numberOfShotsToTake) (hne : ∀ g ∈ shots, g ≠ []) :
    (∀ k, k < shots.length →
      (storeGrabbedShots env c (shots.take k)).1._state = ScreenshotControllerState.InSession
      ∧ (storeGrabbedShots env c (shots.take k)).1._grabbedFrames.length = k)
    ∧ (storeGrabbedShots env c shots).1._state = ScreenshotControllerState.SavingShots
    ∧ (storeGrabbedShots env c shots).1._grabbedFrames = shots
    ∧ ((storeGrabbedShots env c shots).1._grabbedFrames.length : Int) = c._numberOfShotsToTake
    ∧ (storeGrabbedShots env c shots).1._shotCounter = c._numberOfShotsToTake
    ∧ ∃ out : Outcome,
        completeShotSession envW (storeGrabbedShots env c shots).1 = some out
        ∧ out.2.filter Event.isPersistence = []
        ∧ out.1._state = ScreenshotControllerState.Off := by
  have hsome : shots ≠ [] := by
    intro h
    rw [h] at hN
    simp only [List.length_nil, Nat.cast_zero] at hN
    omega
  obtain ⟨f1, f2, f3, _, f5⟩ := storeGrabbedShots_complete env shots c hne hsome
    (by rw [hcount]; omega)
  rw [hframes, List.nil_append] at f2
  refine ⟨?_, f1, f2, ?_, f3, ?_⟩
  · intro k hk
    have hlen : (shots.take k).length = k := by
      rw [List.length_take]; omega
    obtain ⟨b1, b2, _, _, _⟩ := storeGrabbedShots_below env (shots.take k) c
      (fun g hg => hne g (List.mem_of_mem_take hg)) (by rw [hcount, hlen]; omega)
    rw [b1, b2, hframes, List.nil_append, hlen]
    exact ⟨hstate, rfl⟩
  · rw [f2]; exact hN
  · rw [completeShotSession_testRun envW _ f1 (by rw [f5]; exact htest)]
    exact ⟨_, rfl, rfl, rfl⟩

/-- C11 (witness): a two-shot light-field test run: after both captures the state is
`SavingShots` with two frames, and the watcher only ends the session and notifies. -/
theorem testRun_session_witness :
    (testRunSession._state = ScreenshotControllerState.InSession
      ∧ testRunSession._isTestRun = true ∧ testRunSession._shotCounter = 0
      ∧ testRunSession._grabbedFrames = [] ∧ 1 ≤ testRunSession._numberOfShotsToTake
      ∧ (twoShots.length : Int) = testRunSession._numberOfShotsToTake
      ∧ ∀ g ∈ twoShots, g ≠ [])
    ∧ (storeGrabbedShots acceptingEnv testRunSession twoShots).1._state
        = ScreenshotControllerState.SavingShots
    ∧ (storeGrabbedShots acceptingEnv testRunSession twoShots).1._grabbedFrames = twoShots
    ∧ (storeGrabbedShots acceptingEnv testRunSession twoShots).1._shotCounter = 2
    ∧ ∃ out : Outcome,
        completeShotSession acceptingEnv
            (storeGrabbedShots acceptingEnv testRunSession twoShots).1 = some out
        ∧ out.2.filter Event.isPersistence = []
        ∧ out.1._state = ScreenshotControllerState.Off := by
  have h := testRun_session acceptingEnv acceptingEnv testRunSession twoShots (by decide)
    (by decide) (by decide) (by decide) (by decide) (by decide) (by decide)
  exact ⟨⟨by decide, by decide, by decide, by decide, by decide, by decide, by decide⟩,
    h.2.1, h.2.2.1, h.2.2.2.2.1, h.2.2.2.2.2⟩

/-! ## Lemmas on persistence -/

theorem saveShotToFile_bmp (env : Env) (c : ScreenshotController) (folder : String)
    (data : List UInt8) (frameNumber : Int) (h : c._filetype = ScreenshotFiletype.Bmp) :
    saveShotToFile env c folder data frameNumber
      = [Event.stbi_write_bmp (shotFileName folder ScreenshotFiletype.Bmp frameNumber)
          c._framebufferWidth c._framebufferHeight 3 data] := by
  unfold saveShotToFile
  rw [h]
  rfl

theorem saveShotToFile_jpg (env : Env) (c : ScreenshotController) (folder : String)
    (data : List UInt8) (frameNumber : Int) (h : c._filetype = ScreenshotFiletype.Jpeg) :
    saveShotToFile env c folder data frameNumber
      = [Event.stbi_write_jpg (shotFileName folder ScreenshotFiletype.Jpeg frameNumber)
          c._framebufferWidth c._framebufferHeight 3 data 98] := by
  unfold saveShotToFile
  rw [h]
  rfl

theorem saveShotToFile_png (env : Env) (c : ScreenshotController) (folder : String)
    (data : List UInt8) (frameNumber : Int) (h : c._filetype = ScreenshotFiletype.Png) :
    saveShotToFile env c folder data frameNumber
      = if env.fopenSucceeds (shotFileName folder ScreenshotFiletype.Png frameNumber) then
          [Event.fopen_s (shotFileName folder ScreenshotFiletype.Png frameNumber),
           Event.fwrite (shotFileName folder ScreenshotFiletype.Png frameNumber)
            (env.fpng_encode data c._framebufferWidth c._framebufferHeight 3),
           Event.fclose (shotFileName folder ScreenshotFiletype.Png frameNumber)]
        else [Event.fopen_s (shotFileName folder ScreenshotFiletype.Png frameNumber)] := by
  unfold saveShotToFile
  rw [h]
  rfl

theorem isPersistence_saveShotToFile (env : Env) (c : ScreenshotController) (folder : String)
    (data : List UInt8) (frameNumber : Int) :
    (saveShotToFile env c folder data frameNumber).filter Event.isPersistence
      = saveShotToFile env c folder data frameNumber := by
  unfold saveShotToFile
  cases hft : c._filetype
  · simp [Event.isPersistence]
  · simp [Event.isPersistence]
  · by_cases hopen : env.fopenSucceeds
        (folder ++ String.singleton backslash ++ toString frameNumber ++ ".png") = true
    · simp [Event.isPersistence, hopen]
    · simp [Event.isPersistence, hopen]

theorem saveFrames_eq_flatMap (env : Env) (c : ScreenshotController) (folder : String)
    (frames : List (List UInt8)) (first : Nat) :
    saveFrames env c folder frames first
      = (frames.enumFrom first).flatMap
          (fun p => saveShotToFile env c folder p.2 ((p.1 : Nat) : Int)) := by
  induction frames generalizing first with
  | nil => simp [saveFrames]
  | cons frame rest ih =>
    have hnext : ((first : Nat) : Int) + 1 = ((first + 1 : Nat) : Int) := by push_cast; rfl
    rw [saveFrames, hnext, ih (first + 1), List.enumFrom_cons, List.flatMap_cons]

theorem isPersistence_saveFrames (env : Env) (c : ScreenshotController) (folder : String)
    (frames : List (List UInt8)) (first : Int) :
    (saveFrames env c folder frames first).filter Event.isPersistence
      = saveFrames env c folder frames first := by
  induction frames generalizing first with
  | nil => simp [saveFrames]
  | cons frame rest ih =>
    rw [saveFrames, List.filter_append, isPersistence_saveShotToFile, ih]

theorem saveGrabbedShots_eq (env : Env) (c : ScreenshotController)
    (htest : c._isTestRun = false) (hframes : c._grabbedFrames ≠ []) :
    saveGrabbedShots env c
      = ({ c with _state := ScreenshotControllerState.SavingShots },
          Event.mkdir (createScreenshotFolder env c).1
            :: saveFrames env c (createScreenshotFolder env c).1 c._grabbedFrames 0) := by
  have hlen : ¬ c._grabbedFrames.length ≤ 0 := by
    cases hf : c._grabbedFrames with
    | nil => exact absurd hf hframes
    | cons b bs => simp
  have hsame : ∀ (folder : String) (frames : List (List UInt8)) (k : Int),
      saveFrames env { c with _state := ScreenshotControllerState.SavingShots } folder frames k
        = saveFrames env c folder frames k := by
    intro folder frames
    induction frames with
    | nil => intro k; rfl
    | cons frame rest ih => intro k; rw [saveFrames, saveFrames, ih]; rfl
  have ht : (!c._isTestRun) = true := by rw [htest]; rfl
  unfold saveGrabbedShots
  rw [if_neg hlen, if_pos ht]
  dsimp only
  rw [hsame]
  rfl

/-- The effects of `saveGrabbedShots`: the folder creation, then the effects of one
`saveShotToFile` call per frame in capture order, numbered from 0. -/
theorem saveGrabbedShots_effects (env : Env) (c : ScreenshotController)
    (htest : c._isTestRun = false) (hframes : c._grabbedFrames ≠ []) :
    (saveGrabbedShots env c).2
      = Event.mkdir (createScreenshotFolder env c).1
          :: c._grabbedFrames.enum.flatMap
              (fun p => saveShotToFile env c (createScreenshotFolder env c).1 p.2
                ((p.1 : Nat) : Int)) := by
  rw [saveGrabbedShots_eq env c htest hframes]
  have h0 := saveFrames_eq_flatMap env c (createScreenshotFolder env c).1 c._grabbedFrames 0
  simp only [Nat.cast_zero] at h0
  rw [h0]
  rfl

theorem filterMap_some_eq_map (f : Nat × List UInt8 → String × List UInt8)
    (xs : List (Nat × List UInt8)) :
    xs.filterMap (fun x => some (f x)) = xs.map f := by
  induction xs with
  | nil => rfl
  | cons x rest ih => rw [List.filterMap_cons, ih]; rfl

theorem flatMap_singleton_eq_map (xs : List (Nat × List UInt8))
    (f : Nat × List UInt8 → Event) :
    xs.flatMap (fun p => [f p]) = xs.map f := by
  induction xs with
  | nil => rfl
  | cons x rest ih => rw [List.flatMap_cons, ih]; rfl

/-! ## C12: the files written by `saveGrabbedShots` -/

/-- C12 (as amended): for a session that is not a test run, has reached `SavingShots`
(completed, not cancelled) and holds `n >= 1` frames, the completion watcher runs
`saveGrabbedShots`, and its disk effects are exactly: one `_mkdir` of the destination folder,
then per frame in capture order, the `k`-th frame (from 0) under the name `<folder>\<k>.<ext>`:
for BMP one `stbi_write_bmp` of that frame, for JPEG one `stbi_write_jpg` of that frame at
quality 98, and for PNG one `fopen_s` for writing, followed by the `fwrite` of the encoded frame
and the `fclose` only when the open succeeded. Hence exactly `n` writes are issued, each of the
frame's own data, for BMP and JPEG, and for PNG when every open succeeds. -/
theorem saveGrabbedShots_files (env : Env) (c : ScreenshotController)
    (hstate : c._state = ScreenshotControllerState.SavingShots)
    (htest : c._isTestRun = false) (hframes : c._grabbedFrames ≠ []) :
    (∃ out : Outcome, completeShotSession env c = some out
        ∧ out.2.filter Event.isPersistence = (saveGrabbedShots env c).2
        ∧ out.1._state = ScreenshotControllerState.Off)
    ∧ (c._filetype = ScreenshotFiletype.Bmp →
        (saveGrabbedShots env c).2
          = Event.mkdir (createScreenshotFolder env c).1
              :: c._grabbedFrames.enum.map (fun p =>
                  Event.stbi_write_bmp
                    (shotFileName (createScreenshotFolder env c).1 ScreenshotFiletype.Bmp
                      ((p.1 : Nat) : Int))
                    c._framebufferWidth c._framebufferHeight 3 p.2))
    ∧ (c._filetype = ScreenshotFiletype.Jpeg →
        (saveGrabbedShots env c).2
          = Event.mkdir (createScreenshotFolder env c).1
              :: c._grabbedFrames.enum.map (fun p =>
                  Event.stbi_write_jpg
                    (shotFileName (createScreenshotFolder env c).1 ScreenshotFiletype.Jpeg
                      ((p.1 : Nat) : Int))
                    c._framebufferWidth c._framebufferHeight 3 p.2 98))
    ∧ (c._filetype = ScreenshotFiletype.Png →
        (saveGrabbedShots env c).2
          = Event.mkdir (createScreenshotFolder env c).1
              :: c._grabbedFrames.enum.flatMap (fun p =>
                  if env.fopenSucceeds
                      (shotFileName (createScreenshotFolder env c).1 ScreenshotFiletype.Png
                        ((p.1 : Nat) : Int)) then
                    [Event.fopen_s
                      (shotFileName (createScreenshotFolder env c).1 ScreenshotFiletype.Png
                        ((p.1 : Nat) : Int)),
                     Event.fwrite
                      (shotFileName (createScreenshotFolder env c).1 ScreenshotFiletype.Png
                        ((p.1 : Nat) : Int))
                      (env.fpng_encode p.2 c._framebufferWidth c._framebufferHeight 3),
                     Event.fclose
                      (shotFileName (createScreenshotFolder env c).1 ScreenshotFiletype.Png
                        ((p.1 : Nat) : Int))]
                  else
                    [Event.fopen_s
                      (shotFileName (createScreenshotFolder env c).1 ScreenshotFiletype.Png
                        ((p.1 : Nat) : Int))]))
    ∧ ((c._filetype = ScreenshotFiletype.Png → ∀ filename, env.fopenSucceeds filename = true) →
        (saveGrabbedShots env c).2.filterMap Event.fileWrite
          = c._grabbedFrames.enum.map (fun p =>
              (shotFileName (createScreenshotFolder env c).1 c._filetype ((p.1 : Nat) : Int),
                match c._filetype with
                | .Png => env.fpng_encode p.2 c._framebufferWidth c._framebufferHeight 3
                | _ => p.2))
        ∧ ((saveGrabbedShots env c).2.filterMap Event.fileWrite).length
            = c._grabbedFrames.length) := by
  have heff := saveGrabbedShots_effects env c htest hframes
  have hbmp : c._filetype = ScreenshotFiletype.Bmp →
      (saveGrabbedShots env c).2
        = Event.mkdir (createScreenshotFolder env c).1
            :: c._grabbedFrames.enum.map (fun p =>
                Event.stbi_write_bmp
                  (shotFileName (createScreenshotFolder env c).1 ScreenshotFiletype.Bmp
                    ((p.1 : Nat) : Int))
                  c._framebufferWidth c._framebufferHeight 3 p.2) := by
    intro h
    rw [heff, ← flatMap_singleton_eq_map]
    simp only [saveShotToFile_bmp env c _ _ _ h]
  have hjpg : c._filetype = ScreenshotFiletype.Jpeg →
      (saveGrabbedShots env c).2
        = Event.mkdir (createScreenshotFolder env c).1
            :: c._grabbedFrames.enum.map (fun p =>
                Event.stbi_write_jpg
                  (shotFileName (createScreenshotFolder env c).1 ScreenshotFiletype.Jpeg
                    ((p.1 : Nat) : Int))
                  c._framebufferWidth c._framebufferHeight 3 p.2 98) := by
    intro h
    rw [heff, ← flatMap_singleton_eq_map]
    simp only [saveShotToFile_jpg env c _ _ _ h]
  have hpng : c._filetype = ScreenshotFiletype.Png →
      (saveGrabbedShots env c).2
        = Event.mkdir (createScreenshotFolder env c).1
            :: c._grabbedFrames.enum.flatMap (fun p =>
                if env.fopenSucceeds
                    (shotFileName (createScreenshotFolder env c).1 ScreenshotFiletype.Png
                      ((p.1 : Nat) : Int)) then
                  [Event.fopen_s
                    (shotFileName (createScreenshotFolder env c).1 ScreenshotFiletype.Png
                      ((p.1 : Nat) : Int)),
                   Event.fwrite
                    (shotFileName (createScreenshotFolder env c).1 ScreenshotFiletype.Png
                      ((p.1 : Nat) : Int))
                    (env.fpng_encode p.2 c._framebufferWidth c._framebufferHeight 3),
                   Event.fclose
                    (shotFileName (createScreenshotFolder env c).1 ScreenshotFiletype.Png
                      ((p.1 : Nat) : Int))]
                else
                  [Event.fopen_s
                    (shotFileName (createScreenshotFolder env c).1 ScreenshotFiletype.Png
                      ((p.1 : Nat) : Int))]) := by
    intro h
    rw [heff]
    simp only [saveShotToFile_png env c _ _ _ h]
  refine ⟨?_, hbmp, hjpg, hpng, ?_⟩
  · have hcomplete : completeShotSession env c
        = some (reset (saveGrabbedShots env c).1,
            [Event.endScreenshotSession]
              ++ ([Event.addNotification
                    ("All " ++ typeOfShotAsString env c
                      ++ " shots have been taken. Writing shots to disk...")]
                  ++ (saveGrabbedShots env c).2
                  ++ [Event.addNotification (typeOfShotAsString env c ++ " done.")])) := by
      simp [completeShotSession, waitForShots, hstate, htest]
    refine ⟨_, hcomplete, ?_, rfl⟩
    rw [saveGrabbedShots_eq env c htest hframes]
    simp only [List.filter_append, List.filter_cons, List.filter_nil, Event.isPersistence,
      isPersistence_saveFrames]
    simp
  · intro hopen
    have hwrites : (saveGrabbedShots env c).2.filterMap Event.fileWrite
        = c._grabbedFrames.enum.map (fun p =>
            (shotFileName (createScreenshotFolder env c).1 c._filetype ((p.1 : Nat) : Int),
              match c._filetype with
              | .Png => env.fpng_encode p.2 c._framebufferWidth c._framebufferHeight 3
              | _ => p.2)) := by
      cases hft : c._filetype with
      | Bmp =>
        rw [hbmp hft]
        simp only [List.filterMap_cons, Event.fileWrite, List.filterMap_map, Function.comp_def]
        exact filterMap_some_eq_map _ _
      | Jpeg =>
        rw [hjpg hft]
        simp only [List.filterMap_cons, Event.fileWrite, List.filterMap_map, Function.comp_def]
        exact filterMap_some_eq_map _ _
      | Png =>
        rw [hpng hft]
        simp only [hopen hft, if_true, List.filterMap_cons, Event.fileWrite]
        generalize c._grabbedFrames.enum = xs
        induction xs with
        | nil => rfl
        | cons x rest ih =>
          rw [List.flatMap_cons, List.filterMap_append, ih]
          rfl
    refine ⟨hwrites, ?_⟩
    rw [hwrites, List.length_map, List.enum_length]

/-- C12 (witness): a completed two-shot light-field session configured for JPEG creates one
folder and writes the first frame to `0.jpg` and then the second frame to `1.jpg`. -/
theorem saveGrabbedShots_files_witness :
    (completedSession._state = ScreenshotControllerState.SavingShots
      ∧ completedSession._isTestRun = false ∧ completedSession._grabbedFrames ≠ []
      ∧ completedSession._filetype = ScreenshotFiletype.Jpeg)
    ∧ shotFileName "shots" ScreenshotFiletype.Jpeg 1
        = "shots" ++ String.singleton backslash ++ "1.jpg"
    ∧ (saveGrabbedShots acceptingEnv completedSession).2
        = [Event.mkdir (createScreenshotFolder acceptingEnv completedSession).1,
           Event.stbi_write_jpg
              (shotFileName (createScreenshotFolder acceptingEnv completedSession).1
                ScreenshotFiletype.Jpeg 0) 0 0 3 [200, 100, 50, 255] 98,
           Event.stbi_write_jpg
              (shotFileName (createScreenshotFolder acceptingEnv completedSession).1
                ScreenshotFiletype.Jpeg 1) 0 0 3 [10, 20, 30, 255] 98]
    ∧ ((saveGrabbedShots acceptingEnv completedSession).2.filterMap Event.fileWrite).length
        = 2 := by
  have h := saveGrabbedShots_files acceptingEnv completedSession (by decide) (by decide)
    (by decide)
  refine ⟨⟨by decide, by decide, by decide, by decide⟩, by decide, ?_, ?_⟩
  · rw [h.2.2.1 (by decide)]
    rfl
  · rw [(h.2.2.2.2 (fun _ _ => rfl)).2]
    rfl

/-- C12 (counterexample): a completed two-shot session configured for PNG, not a test run and
not cancelled, on a disk where `fopen_s` fails: the completion watcher creates the folder and
tries to open `0.png` and `1.png`, but issues no write at all, although two frames are
buffered. -/
theorem saveGrabbedShots_png_unopened :
    (pngCompletedSession._state = ScreenshotControllerState.SavingShots
      ∧ pngCompletedSession._isTestRun = false
      ∧ pngCompletedSession._grabbedFrames.length = 2
      ∧ pngCompletedSession._filetype = ScreenshotFiletype.Png)
    ∧ (saveGrabbedShots closedDiskEnv pngCompletedSession).2
        = [Event.mkdir (createScreenshotFolder closedDiskEnv pngCompletedSession).1,
           Event.fopen_s
              (shotFileName (createScreenshotFolder closedDiskEnv pngCompletedSession).1
                ScreenshotFiletype.Png 0),
           Event.fopen_s
              (shotFileName (createScreenshotFolder closedDiskEnv pngCompletedSession).1
                ScreenshotFiletype.Png 1)]
    ∧ (saveGrabbedShots closedDiskEnv pngCompletedSession).2.filterMap Event.fileWrite = []
    ∧ ((saveGrabbedShots closedDiskEnv pngCompletedSession).2.filterMap Event.fileWrite).length
        ≠ pngCompletedSession._grabbedFrames.length := by
  have heff : (saveGrabbedShots closedDiskEnv pngCompletedSession).2
      = [Event.mkdir (createScreenshotFolder closedDiskEnv pngCompletedSession).1,
         Event.fopen_s
            (shotFileName (createScreenshotFolder closedDiskEnv pngCompletedSession).1
              ScreenshotFiletype.Png 0),
         Event.fopen_s
            (shotFileName (createScreenshotFolder closedDiskEnv pngCompletedSession).1
              ScreenshotFiletype.Png 1)] := by
    rw [saveGrabbedShots_effects closedDiskEnv pngCompletedSession (by decide) (by decide)]
    rfl
  refine ⟨⟨by decide, by decide, by decide, by decide⟩, heff, ?_, ?_⟩
  · rw [heff]
    rfl
  · rw [heff]
    decide

/-! ## Lemmas on accepted starts -/

theorem startSession_accepted (env : Env) (c : ScreenshotController) (T : ScreenshotType)
    (hT : c._typeOfShot = T) (hgrid : T ≠ ScreenshotType.DebugGrid)
    (hok : env.startScreenshotSession T = ScreenshotSessionStartReturnCode.AllOk) :
    startSession env c = (true, [Event.startScreenshotSession T]) := by
  subst hT
  unfold startSession
  simp [hgrid, hok]

/-- The `float` value `direction * step * (0.5f * numberOfShots)` of the setup motion, for
direction `-1`, a finite step and a shot count of magnitude at most `2 ^ 24`: the two inner
products are exact, so it is the rounding of the exact product. -/
theorem setupDistance_eq (step : ℚ) (numberOfShots : Int) (hstep : IsFloat32 step)
    (hshots : |numberOfShots| ≤ 2 ^ 24) :
    fmul (fmul (intToFloat (-1)) step) (fmul (1 / 2) (intToFloat numberOfShots))
      = round32 (-(1 / 2) * step * numberOfShots) := by
  rw [fmul_negOne_left step hstep, fmul_half_intToFloat numberOfShots hshots]
  unfold fmul
  congr 1
  ring

theorem startHorizontalPanoramaShot_accepted (env : Env) (c : ScreenshotController)
    (total overlap cur : ℚ) (isTestRun : Bool) (hconn : env.cameraToolsConnected = true)
    (hok : env.startScreenshotSession ScreenshotType.HorizontalPanorama
      = ScreenshotSessionStartReturnCode.AllOk) :
    (startHorizontalPanoramaShot env c total overlap cur isTestRun).1._state
      = ScreenshotControllerState.InSession
    ∧ (startHorizontalPanoramaShot env c total overlap cur isTestRun).1._typeOfShot
      = ScreenshotType.HorizontalPanorama
    ∧ (startHorizontalPanoramaShot env c total overlap cur isTestRun).1._shotCounter = 0
    ∧ (startHorizontalPanoramaShot env c total overlap cur isTestRun).2
      = [Event.startScreenshotSession ScreenshotType.HorizontalPanorama,
         Event.moveCameraPanorama
           (fmul
             (fmul (intToFloat (-1))
               (startHorizontalPanoramaShot env c total overlap cur
                 isTestRun).1._pano_anglePerStep)
             (fmul (1 / 2)
               (intToFloat
                 (startHorizontalPanoramaShot env c total overlap cur
                   isTestRun).1._numberOfShotsToTake))),
         Event.detachCompletionThread] := by
  unfold startHorizontalPanoramaShot
  simp only [hconn, Bool.not_true, Bool.false_eq_true, if_false]
  rw [startSession_accepted env _ ScreenshotType.HorizontalPanorama rfl (by decide) hok]
  simp only [Bool.not_true, Bool.false_eq_true, if_false]
  refine ⟨by trivial, by trivial, by trivial, ?_⟩
  rfl

theorem startLightfieldShot_accepted (env : Env) (c : ScreenshotController)
    (distancePerStep : ℚ) (numberOfShots : Int) (isTestRun : Bool)
    (hconn : env.cameraToolsConnected = true)
    (hok : env.startScreenshotSession ScreenshotType.MultiShot
      = ScreenshotSessionStartReturnCode.AllOk) :
    (startLightfieldShot env c distancePerStep numberOfShots isTestRun).1._state
      = ScreenshotControllerState.InSession
    ∧ (startLightfieldShot env c distancePerStep numberOfShots isTestRun).1._typeOfShot
      = ScreenshotType.MultiShot
    ∧ (startLightfieldShot env c distancePerStep numberOfShots isTestRun).1._shotCounter = 0
    ∧ (startLightfieldShot env c distancePerStep numberOfShots
        isTestRun).1._lightField_distancePerStep = distancePerStep
    ∧ (startLightfieldShot env c distancePerStep numberOfShots
        isTestRun).1._numberOfShotsToTake = numberOfShots
    ∧ (startLightfieldShot env c distancePerStep numberOfShots isTestRun).2
      = [Event.startScreenshotSession ScreenshotType.MultiShot,
         Event.moveCameraMultishot
           (fmul (fmul (intToFloat (-1)) distancePerStep)
             (fmul (1 / 2) (intToFloat numberOfShots))) 0 0 false,
         Event.detachCompletionThread] := by
  unfold startLightfieldShot
  simp only [hconn, Bool.not_true, Bool.false_eq_true, if_false]
  rw [startSession_accepted env _ ScreenshotType.MultiShot rfl (by decide) hok]
  simp only [Bool.not_true, Bool.false_eq_true, if_false]
  refine ⟨by trivial, by trivial, by trivial, by trivial, by trivial, ?_⟩
  rfl

/-- The default panorama (110 degrees in total, 80 percent overlap, 40 degrees current field
of view): the angle per step is `4685083 / 2 ^ 25`, 14 shots are taken, and the setup rotation
`-0.5 * anglePerStep * 14` falls halfway between two binary32 values and rounds to
`-8198895 / 2 ^ 23`. -/
theorem defaultPanorama_values :
    (startHorizontalPanoramaShot acceptingEnv idleSample 110 80 40 false).1._pano_anglePerStep
      = 4685083 / 2 ^ 25
    ∧ (startHorizontalPanoramaShot acceptingEnv idleSample 110 80 40
        false).1._numberOfShotsToTake = 14
    ∧ round32 (-(1 / 2) * (4685083 / 2 ^ 25 : ℚ) * ((14 : Int) : ℚ)) = -8198895 / 2 ^ 23
    ∧ -(1 / 2) * (4685083 / 2 ^ 25 : ℚ) * ((14 : Int) : ℚ) = -32795581 / 2 ^ 25 := by
  obtain ⟨_, fa, fn⟩ :=
    fields_startHorizontalPanoramaShot acceptingEnv idleSample 110 80 40 false rfl
  refine ⟨fa.trans panoramaValues_110_80_40.1, fn.trans panoramaValues_110_80_40.2, ?_, ?_⟩
  · exact round32_eq_of_tie _ _ (-1) (-16397791) (by norm_num) (by norm_num [abs_of_neg])
      (by norm_num [abs_of_neg]) (by norm_num) (by norm_num)
  · norm_num

theorem panoramaInputs_default : PanoramaInputs acceptingEnv 110 80 40 :=
  ⟨⟨⟨13176795, -22, by norm_num, by norm_num, by norm_num, by norm_num [acceptingEnv]⟩,
      by norm_num [acceptingEnv], by norm_num [acceptingEnv]⟩,
    ⟨⟨110, 0, by norm_num, by norm_num, by norm_num, by norm_num⟩, by norm_num, by norm_num⟩,
    ⟨⟨80, 0, by norm_num, by norm_num, by norm_num, by norm_num⟩, by norm_num, by norm_num⟩,
    ⟨⟨40, 0, by norm_num, by norm_num, by norm_num, by norm_num⟩, by norm_num, by norm_num⟩⟩

/-- The setup rotation of a panorama whose request is in range: the `float` product the code
computes is the rounding of the exact `-0.5 * anglePerStep * numberOfShots`, within the
relative error `2 ^ (-24)` of it. -/
theorem panorama_setup (env : Env) (c s : ScreenshotController)
    (totalFoV overlap currentFoV : ℚ) (isTestRun : Bool)
    (hconn : env.cameraToolsConnected = true)
    (hin : PanoramaInputs env totalFoV overlap currentFoV)
    (hs : (startHorizontalPanoramaShot env c totalFoV overlap currentFoV isTestRun).1 = s) :
    fmul (fmul (intToFloat (-1)) s._pano_anglePerStep)
        (fmul (1 / 2) (intToFloat s._numberOfShotsToTake))
      = round32 (-(1 / 2) * s._pano_anglePerStep * s._numberOfShotsToTake)
    ∧ |round32 (-(1 / 2) * s._pano_anglePerStep * s._numberOfShotsToTake)
          - -(1 / 2) * s._pano_anglePerStep * s._numberOfShotsToTake|
        ≤ 1 / 2 * s._pano_anglePerStep * s._numberOfShotsToTake / 2 ^ 24 := by
  obtain ⟨⟨a1, a2, a3⟩, ⟨n1, n2⟩, _, _⟩ :=
    panorama_parameters env c s totalFoV overlap currentFoV isTestRun hconn hin hs
  have hN : |s._numberOfShotsToTake| ≤ 2 ^ 24 := by
    rw [abs_le]
    constructor <;> omega
  refine ⟨setupDistance_eq _ _ a3 hN, ?_⟩
  have hn : (1 : ℚ) ≤ (s._numberOfShotsToTake : ℚ) := by exact_mod_cast n1
  have hprod : (1 : ℚ) / 2 ^ 14 * 1 ≤ s._pano_anglePerStep * (s._numberOfShotsToTake : ℚ) :=
    mul_le_mul a1 hn (by norm_num) (by linarith only [a1])
  have hneg : -(1 / 2) * s._pano_anglePerStep * (s._numberOfShotsToTake : ℚ) < 0 := by
    norm_num at hprod
    linarith only [hprod]
  have habs : |-(1 / 2) * s._pano_anglePerStep * (s._numberOfShotsToTake : ℚ)|
      = 1 / 2 * s._pano_anglePerStep * (s._numberOfShotsToTake : ℚ) := by
    rw [abs_of_neg hneg]
    ring
  have h := abs_round32_sub_le_mul
    (-(1 / 2) * s._pano_anglePerStep * (s._numberOfShotsToTake : ℚ))
    (le_trans zpow_neg126_le (by
      rw [habs]
      norm_num at hprod ⊢
      linarith only [hprod]))
  rw [habs] at h
  exact h

/-! ## C13: camera commands of a horizontal panorama -/

/-- C13 (as amended): when `startHorizontalPanoramaShot` succeeds on a request in range,
leaving the controller `s` with angle per step `a` and shot target `N`, the only camera motion
command of the setup is one rotation by the binary32 rounding of `-0.5 * a * N`, which is
within the relative error `2 ^ (-24)` of that product; any run of non-empty captures that stays
below the target sends exactly one rotation `moveCameraPanorama a` per capture; and whatever
is captured afterwards, no effect other than such a rotation or the wake-up of the waiter
occurs, so no translation is ever sent. -/
theorem panorama_commands (env env2 : Env) (c s : ScreenshotController) (setup : List Event)
    (totalFoV overlap currentFoV : ℚ) (isTestRun : Bool)
    (hconn : env.cameraToolsConnected = true)
    (hok : env.startScreenshotSession ScreenshotType.HorizontalPanorama
      = ScreenshotSessionStartReturnCode.AllOk)
    (hin : PanoramaInputs env totalFoV overlap currentFoV)
    (hstart : startHorizontalPanoramaShot env c totalFoV overlap currentFoV isTestRun
      = (s, setup)) :
    setup.filter Event.isMotion
      = [Event.moveCameraPanorama
          (round32 (-(1 / 2) * s._pano_anglePerStep * s._numberOfShotsToTake))]
    ∧ |round32 (-(1 / 2) * s._pano_anglePerStep * s._numberOfShotsToTake)
          - -(1 / 2) * s._pano_anglePerStep * s._numberOfShotsToTake|
        ≤ 1 / 2 * s._pano_anglePerStep * s._numberOfShotsToTake / 2 ^ 24
    ∧ (∀ shots : List (List UInt8), (∀ g ∈ shots, g ≠ []) →
        (shots.length : Int) < s._numberOfShotsToTake →
        (storeGrabbedShots env2 s shots).2
          = List.replicate shots.length (Event.moveCameraPanorama s._pano_anglePerStep))
    ∧ (∀ shots : List (List UInt8), ∀ x ∈ (storeGrabbedShots env2 s shots).2,
        x = Event.moveCameraPanorama s._pano_anglePerStep ∨ x = Event.notify_all) := by
  have hs : (startHorizontalPanoramaShot env c totalFoV overlap currentFoV isTestRun).1 = s := by
    rw [hstart]
  obtain ⟨_, htype, hcount, hsetup⟩ :=
    startHorizontalPanoramaShot_accepted env c totalFoV overlap currentFoV isTestRun hconn hok
  rw [hstart] at htype hcount hsetup
  simp only at htype hcount hsetup
  obtain ⟨⟨_, _, afloat⟩, _, _, _⟩ :=
    panorama_parameters env c s totalFoV overlap currentFoV isTestRun hconn hin hs
  obtain ⟨hvalue, herror⟩ :=
    panorama_setup env c s totalFoV overlap currentFoV isTestRun hconn hin hs
  have hmod : ∀ c1 : ScreenshotController, c1._typeOfShot = s._typeOfShot →
      c1._pano_anglePerStep = s._pano_anglePerStep →
      c1._lightField_distancePerStep = s._lightField_distancePerStep →
      modifyCamera env2 c1 = [Event.moveCameraPanorama s._pano_anglePerStep] := by
    intro c1 h1 h2 _
    rw [modifyCamera_panorama env2 c1 (by rw [h1, htype]) (by rw [h2]; exact afloat), h2]
  refine ⟨?_, herror, ?_, ?_⟩
  · rw [hsetup, hvalue]
    rfl
  · intro shots hne hlt
    exact (storeGrabbedShots_nonfinal env2 _ shots s hmod hne (by rw [hcount]; omega)).1
  · intro shots
    exact storeGrabbedShots_effects env2 _ shots s hmod

/-- C13 (witness): the panorama of 110 degrees with 80 percent overlap at 40 degrees: one
rotation by `-8198895 / 2 ^ 23` at setup, then one rotation by the angle per step
`4685083 / 2 ^ 25` for each of two captures. -/
theorem panorama_commands_witness :
    (acceptingEnv.cameraToolsConnected = true
      ∧ acceptingEnv.startScreenshotSession ScreenshotType.HorizontalPanorama
          = ScreenshotSessionStartReturnCode.AllOk
      ∧ PanoramaInputs acceptingEnv 110 80 40)
    ∧ (startHorizontalPanoramaShot acceptingEnv idleSample 110 80 40 false).2.filter
          Event.isMotion
        = [Event.moveCameraPanorama (-8198895 / 2 ^ 23)]
    ∧ (storeGrabbedShots acceptingEnv
          (startHorizontalPanoramaShot acceptingEnv idleSample 110 80 40 false).1 twoShots).2
        = [Event.moveCameraPanorama (4685083 / 2 ^ 25),
           Event.moveCameraPanorama (4685083 / 2 ^ 25)] := by
  have h := panorama_commands acceptingEnv acceptingEnv idleSample
    (startHorizontalPanoramaShot acceptingEnv idleSample 110 80 40 false).1
    (startHorizontalPanoramaShot acceptingEnv idleSample 110 80 40 false).2
    110 80 40 false rfl rfl panoramaInputs_default rfl
  obtain ⟨ha, hN, hround, _⟩ := defaultPanorama_values
  refine ⟨⟨rfl, rfl, panoramaInputs_default⟩, ?_, ?_⟩
  · rw [h.1, ha, hN, hround]
  · rw [h.2.2.1 twoShots (by decide) (by rw [hN]; decide), ha]
    rfl

/-- C13 (counterexample): for the panorama of 110 degrees with 80 percent overlap at 40
degrees the angle per step is `a = 4685083 / 2 ^ 25` and the shot target is 14; the setup sends
the rotation `-8198895 / 2 ^ 23`, which is not `-0.5 * a * 14 = -32795581 / 2 ^ 25`. -/
theorem panorama_setup_ne_exact_product :
    (startHorizontalPanoramaShot acceptingEnv idleSample 110 80 40 false).1._pano_anglePerStep
      = 4685083 / 2 ^ 25
    ∧ (startHorizontalPanoramaShot acceptingEnv idleSample 110 80 40
        false).1._numberOfShotsToTake = 14
    ∧ (startHorizontalPanoramaShot acceptingEnv idleSample 110 80 40 false).2.filter
          Event.isMotion
        = [Event.moveCameraPanorama (-8198895 / 2 ^ 23)]
    ∧ -(1 / 2) * (4685083 / 2 ^ 25 : ℚ) * ((14 : Int) : ℚ) = -32795581 / 2 ^ 25
    ∧ (startHorizontalPanoramaShot acceptingEnv idleSample 110 80 40 false).2.filter
          Event.isMotion
        ≠ [Event.moveCameraPanorama (-(1 / 2) * (4685083 / 2 ^ 25 : ℚ) * ((14 : Int) : ℚ))] := by
  obtain ⟨ha, hN, hround, hexact⟩ := defaultPanorama_values
  have hsetup : (startHorizontalPanoramaShot acceptingEnv idleSample 110 80 40 false).2.filter
      Event.isMotion = [Event.moveCameraPanorama (-8198895 / 2 ^ 23)] := by
    obtain ⟨_, _, _, hev⟩ :=
      startHorizontalPanoramaShot_accepted acceptingEnv idleSample 110 80 40 false rfl rfl
    rw [hev, setupDistance_eq _ _ (by rw [ha]; exact ⟨4685083, -25, by norm_num, by norm_num,
      by norm_num, by norm_num⟩) (by rw [hN]; norm_num), ha, hN, hround]
    rfl
  refine ⟨ha, hN, hsetup, hexact, ?_⟩
  rw [hsetup, hexact]
  intro h
  have h2 := (Event.moveCameraPanorama.injEq _ _).mp (List.head_eq_of_cons_eq h)
  norm_num at h2

/-! ## C14: the debug grid -/

theorem round32_intCast (n : Int) (hn : |n| ≤ 2 ^ 24) : round32 (n : ℚ) = n :=
  round32_of_isFloat32 _ (isFloat32_intCast n hn)

theorem round32_two_mul_intCast (n : Int) (hn : |n| < 2 ^ 24) :
    round32 (((2 * n : Int)) : ℚ) = ((2 * n : Int) : ℚ) :=
  round32_of_isFloat32 _ ⟨n, 1, hn, by norm_num, by norm_num, by push_cast; ring⟩

theorem abs_tmod_five_le (j : Int) : |Int.tmod j 5| ≤ 4 := by
  rcases j with n | m
  · have h : Int.tmod (Int.ofNat n) 5 = ((n % 5 : Nat) : Int) := rfl
    rw [h, abs_le]
    constructor <;> omega
  · have h : Int.tmod (Int.negSucc m) 5 = -(((m + 1) % 5 : Nat) : Int) := rfl
    rw [h, abs_le]
    constructor <;> omega

/-- The third argument `(shotCounter % 5) * 10.0f` of the debug grid command is exact. -/
theorem debugGrid_third (j : Int) :
    fmul (intToFloat (Int.tmod j 5)) 10 = ((Int.tmod j 5 : Int) : ℚ) * 10 := by
  have h4 := abs_le.1 (abs_tmod_five_le j)
  rw [intToFloat_eq _ (by rw [abs_le]; constructor <;> omega)]
  unfold fmul
  have hc : ((Int.tmod j 5 : Int) : ℚ) * 10 = ((Int.tmod j 5 * 10 : Int) : ℚ) := by push_cast; ring
  rw [hc]
  exact round32_intCast _ (by rw [abs_le]; constructor <;> omega)

/-- C14 (as amended): for every shot index `k` with `0 <= k < 2 ^ 24`,
`moveCameraForDebugGrid k false` commands the horizontal step `-20 + 10 * (k mod 5)` and the
vertical step `-20 + 10 * (k div 5)`, every `float` operation being exact in that range; for
`k = 7` these are `0` and `-10`; with `end = true` the displacement is `(-20, -20)` for every
shot index. -/
theorem moveCameraForDebugGrid_steps (k : Int) (hk : 0 ≤ k) (hk2 : k < 2 ^ 24) :
    moveCameraForDebugGrid k false
      = [Event.moveCameraMultishot (-20 + 10 * ((k % 5 : Int) : ℚ))
          (-20 + 10 * ((k / 5 : Int) : ℚ)) (((k % 5 : Int) : ℚ) * 10) true]
    ∧ moveCameraForDebugGrid 7 false = [Event.moveCameraMultishot 0 (-10) 20 true]
    ∧ ∀ j : Int, moveCameraForDebugGrid j true
        = [Event.moveCameraMultishot (-20) (-20) (((Int.tmod j 5 : Int) : ℚ) * 10) true] := by
  have key : ∀ n : Int, 0 ≤ n → n < 2 ^ 24 →
      moveCameraForDebugGrid n false
        = [Event.moveCameraMultishot (-20 + 10 * ((n % 5 : Int) : ℚ))
            (-20 + 10 * ((n / 5 : Int) : ℚ)) (((n % 5 : Int) : ℚ) * 10) true] := by
    intro n hn hn2
    have hthird := debugGrid_third n
    unfold moveCameraForDebugGrid
    simp only [Bool.false_eq_true, if_false]
    rw [hthird, Int.tmod_eq_emod hn (by decide), Int.tdiv_eq_ediv hn (by decide)]
    have e1 : intToFloat (n % 5) = ((n % 5 : Int) : ℚ) :=
      intToFloat_eq _ (by rw [abs_le]; constructor <;> omega)
    have e2 : intToFloat (n / 5) = ((n / 5 : Int) : ℚ) :=
      intToFloat_eq _ (by rw [abs_le]; constructor <;> omega)
    have e3 : fmul 10 ((n % 5 : Int) : ℚ) = 10 * ((n % 5 : Int) : ℚ) := by
      unfold fmul
      have hc : (10 : ℚ) * ((n % 5 : Int) : ℚ) = ((10 * (n % 5) : Int) : ℚ) := by push_cast; ring
      rw [hc]
      exact round32_intCast _ (by rw [abs_le]; constructor <;> omega)
    have e4 : fmul 10 ((n / 5 : Int) : ℚ) = 10 * ((n / 5 : Int) : ℚ) := by
      unfold fmul
      have hc : (10 : ℚ) * ((n / 5 : Int) : ℚ) = ((2 * (5 * (n / 5)) : Int) : ℚ) := by
        push_cast; ring
      rw [hc]
      exact round32_two_mul_intCast _ (by rw [abs_lt]; constructor <;> omega)
    have e5 : fadd (-20) (10 * ((n % 5 : Int) : ℚ)) = -20 + 10 * ((n % 5 : Int) : ℚ) := by
      unfold fadd
      have hc : (-20 : ℚ) + 10 * ((n % 5 : Int) : ℚ) = ((-20 + 10 * (n % 5) : Int) : ℚ) := by
        push_cast; ring
      rw [hc]
      exact round32_intCast _ (by rw [abs_le]; constructor <;> omega)
    have e6 : fadd (-20) (10 * ((n / 5 : Int) : ℚ)) = -20 + 10 * ((n / 5 : Int) : ℚ) := by
      unfold fadd
      have hc : (-20 : ℚ) + 10 * ((n / 5 : Int) : ℚ)
          = ((2 * (5 * (n / 5) - 10) : Int) : ℚ) := by
        push_cast; ring
      rw [hc]
      exact round32_two_mul_intCast _ (by rw [abs_lt]; constructor <;> omega)
    rw [e1, e2, e3, e4, e5, e6]
  refine ⟨key k hk hk2, ?_, ?_⟩
  · rw [key 7 (by decide) (by decide)]
    norm_num
  · intro j
    unfold moveCameraForDebugGrid
    simp only [if_true]
    rw [debugGrid_third j]

/-- C14 (witness): shot index 7 gives the horizontal step `-20 + 10 * (7 mod 5)` and the
vertical step `-20 + 10 * (7 div 5)`. -/
theorem moveCameraForDebugGrid_steps_witness :
    ((0 : Int) ≤ 7 ∧ (7 : Int) < 2 ^ 24)
    ∧ moveCameraForDebugGrid 7 false
      = [Event.moveCameraMultishot (-20 + 10 * (((7 : Int) % 5 : Int) : ℚ))
          (-20 + 10 * (((7 : Int) / 5 : Int) : ℚ)) ((((7 : Int) % 5 : Int) : ℚ) * 10) true] :=
  ⟨⟨by decide, by decide⟩, (moveCameraForDebugGrid_steps 7 (by decide) (by decide)).1⟩

/-- C14 (counterexample): for the shot index `k = 100000007` the quotient `k / 5 = 20000001`
is not a binary32 value and converts to `20000000`; the code commands the vertical step
`199999984`, whereas `-20 + 10 * (k div 5)` is `199999990`. -/
theorem moveCameraForDebugGrid_large_index :
    (0 : Int) ≤ 100000007
    ∧ moveCameraForDebugGrid 100000007 false
        = [Event.moveCameraMultishot 0 199999984 20 true]
    ∧ (-20 + 10 * (((100000007 : Int) / 5 : Int) : ℚ)) = 199999990
    ∧ moveCameraForDebugGrid 100000007 false
        ≠ [Event.moveCameraMultishot (-20 + 10 * (((100000007 : Int) % 5 : Int) : ℚ))
            (-20 + 10 * (((100000007 : Int) / 5 : Int) : ℚ))
            ((((100000007 : Int) % 5 : Int) : ℚ) * 10) true] := by
  have hmod : Int.tmod 100000007 5 = 2 := by decide
  have hdiv : Int.tdiv 100000007 5 = 20000001 := by decide
  have h1 : intToFloat 20000001 = 20000000 := by
    unfold intToFloat
    exact round32_eq_of_tie _ _ (24) (10000000) (by norm_num) (by norm_num [abs_of_pos])
      (by norm_num [abs_of_pos]) (by norm_num) (by norm_num)
  have h2 : fmul 10 20000000 = 200000000 := by
    unfold fmul
    exact round32_eq_of_near _ _ (27) (12500000) (by norm_num) (by norm_num [abs_of_pos])
      (by norm_num [abs_of_pos]) (by norm_num) (by norm_num) (by norm_num)
  have h3 : fadd (-20) 200000000 = 199999984 := by
    unfold fadd
    exact round32_eq_of_near _ _ (27) (12499999) (by norm_num) (by norm_num [abs_of_pos])
      (by norm_num [abs_of_pos]) (by norm_num) (by norm_num) (by norm_num)
  have h4 : intToFloat 2 = 2 := intToFloat_eq 2 (by norm_num)
  have h5 : fmul 10 2 = 20 := by
    unfold fmul
    exact round32_eq_of_near _ _ (4) (10485760) (by norm_num) (by norm_num [abs_of_pos])
      (by norm_num [abs_of_pos]) (by norm_num) (by norm_num) (by norm_num)
  have h6 : fadd (-20) 20 = 0 := by
    unfold fadd
    norm_num [round32_zero]
  have h7 : fmul 2 10 = 20 := by
    unfold fmul
    exact round32_eq_of_near _ _ (4) (10485760) (by norm_num) (by norm_num [abs_of_pos])
      (by norm_num [abs_of_pos]) (by norm_num) (by norm_num) (by norm_num)
  have hcode : moveCameraForDebugGrid 100000007 false
      = [Event.moveCameraMultishot 0 199999984 20 true] := by
    unfold moveCameraForDebugGrid
    simp only [Bool.false_eq_true, if_false]
    rw [hmod, hdiv, h1, h2, h3]
    have h4c : intToFloat 2 = (2 : ℚ) := h4
    rw [h4c, h5, h6, h7]
  refine ⟨by decide, hcode, by norm_num, ?_⟩
  rw [hcode]
  intro h
  have h2 := (Event.moveCameraMultishot.injEq _ _ _ _ _ _ _ _).mp (List.head_eq_of_cons_eq h)
  norm_num at h2

/-! ## C15: camera commands of a light field -/

/-- C15 (as amended): when `startLightfieldShot` succeeds with a finite binary32 distance per
step `d` and a shot count `N` of magnitude at most `2 ^ 24`, with `0.5 * d * N` of magnitude at
most `2 ^ 127`, the only camera motion command of the setup is the single translation
`moveCameraMultishot r 0 0` where `r` is the binary32 rounding of `-0.5 * d * N`, a finite
value within the relative error `2 ^ (-24)` of that product when the product is in the normal
range; any run of non-empty captures that stays below the target sends exactly one translation
`moveCameraMultishot d 0 0` per capture; and whatever is captured afterwards, no effect other
than such a translation or the wake-up of the waiter occurs, so no rotation is ever sent and
the other two axes are always 0. -/
theorem lightfield_commands (env env2 : Env) (c s : ScreenshotController) (setup : List Event)
    (d : ℚ) (N : Int) (isTestRun : Bool)
    (hconn : env.cameraToolsConnected = true)
    (hok : env.startScreenshotSession ScreenshotType.MultiShot
      = ScreenshotSessionStartReturnCode.AllOk)
    (hd : IsFloat32 d) (hN : |N| ≤ 2 ^ 24)
    (hfinite : |(1 / 2) * d * N| ≤ (2 : ℚ) ^ (127 : Int))
    (hstart : startLightfieldShot env c d N isTestRun = (s, setup)) :
    setup.filter Event.isMotion
      = [Event.moveCameraMultishot (round32 (-(1 / 2) * d * N)) 0 0 false]
    ∧ IsFloat32 (round32 (-(1 / 2) * d * N))
    ∧ ((2 : ℚ) ^ (-126 : Int) ≤ |(1 / 2) * d * N| →
        |round32 (-(1 / 2) * d * N) - -(1 / 2) * d * N| ≤ |(1 / 2) * d * N| / 2 ^ 24)
    ∧ (∀ shots : List (List UInt8), (∀ g ∈ shots, g ≠ []) → (shots.length : Int) < N →
        (storeGrabbedShots env2 s shots).2
          = List.replicate shots.length (Event.moveCameraMultishot d 0 0 false))
    ∧ (∀ shots : List (List UInt8), ∀ x ∈ (storeGrabbedShots env2 s shots).2,
        x = Event.moveCameraMultishot d 0 0 false ∨ x = Event.notify_all) := by
  obtain ⟨_, htype, hcount, hdist, hshots, hsetup⟩ :=
    startLightfieldShot_accepted env c d N isTestRun hconn hok
  rw [hstart] at htype hcount hdist hshots hsetup
  simp only at htype hcount hdist hshots hsetup
  have habs : |-(1 / 2) * d * (N : ℚ)| = |(1 / 2) * d * (N : ℚ)| := by
    rw [← abs_neg]
    congr 1
    ring
  have hmod : ∀ c1 : ScreenshotController, c1._typeOfShot = s._typeOfShot →
      c1._pano_anglePerStep = s._pano_anglePerStep →
      c1._lightField_distancePerStep = s._lightField_distancePerStep →
      modifyCamera env2 c1 = [Event.moveCameraMultishot d 0 0 false] := by
    intro c1 h1 _ h3
    rw [modifyCamera_lightfield env2 c1 (by rw [h1, htype]) (by rw [h3, hdist]; exact hd), h3,
      hdist]
  refine ⟨?_, ?_, ?_, ?_, ?_⟩
  · rw [hsetup, setupDistance_eq d N hd hN]
    rfl
  · exact isFloat32_round32 _ (by rw [habs]; exact hfinite)
  · intro hnormal
    have h := abs_round32_sub_le_mul (-(1 / 2) * d * (N : ℚ)) (by rw [habs]; exact hnormal)
    rw [habs] at h
    exact h
  · intro shots hne hlt
    exact (storeGrabbedShots_nonfinal env2 _ shots s hmod hne
      (by rw [hcount, hshots]; omega)).1
  · intro shots
    exact storeGrabbedShots_effects env2 _ shots s hmod

/-- C15 (witness): a three-shot light field with distance 1: the setup translates by
`-0.5 * 1 * 3 = -3 / 2`, which is a binary32 value, and each of two captures translates by `1`
along the first axis. -/
theorem lightfield_commands_witness :
    (acceptingEnv.cameraToolsConnected = true
      ∧ acceptingEnv.startScreenshotSession ScreenshotType.MultiShot
          = ScreenshotSessionStartReturnCode.AllOk
      ∧ IsFloat32 1 ∧ |(3 : Int)| ≤ 2 ^ 24
      ∧ |(1 / 2) * (1 : ℚ) * ((3 : Int) : ℚ)| ≤ (2 : ℚ) ^ (127 : Int))
    ∧ (startLightfieldShot acceptingEnv idleSample 1 3 false).2.filter Event.isMotion
        = [Event.moveCameraMultishot (-3 / 2) 0 0 false]
    ∧ (storeGrabbedShots acceptingEnv (lightfieldSession 3) twoShots).2
        = [Event.moveCameraMultishot 1 0 0 false, Event.moveCameraMultishot 1 0 0 false] := by
  have hone : IsFloat32 1 := ⟨1, 0, by norm_num, by norm_num, by norm_num, by norm_num⟩
  have hthree : |(3 : Int)| ≤ 2 ^ 24 := by norm_num
  have hfinite : |(1 / 2) * (1 : ℚ) * ((3 : Int) : ℚ)| ≤ (2 : ℚ) ^ (127 : Int) := by
    norm_num [abs_of_pos]
  have hround : round32 (-(1 / 2) * (1 : ℚ) * ((3 : Int) : ℚ)) = -3 / 2 := by
    have hx : -(1 / 2) * (1 : ℚ) * ((3 : Int) : ℚ) = ((-3 : Int) : ℚ) * (2 : ℚ) ^ (-1 : Int) := by
      norm_num
    rw [hx, round32_exact (-3) (-1) (by norm_num) (by norm_num)]
    norm_num
  have h := lightfield_commands acceptingEnv acceptingEnv idleSample (lightfieldSession 3)
    (startLightfieldShot acceptingEnv idleSample 1 3 false).2 1 3 false rfl rfl hone hthree
    hfinite rfl
  refine ⟨⟨rfl, rfl, hone, hthree, hfinite⟩, ?_, ?_⟩
  · rw [h.1, hround]
  · rw [h.2.2.2.1 twoShots (by decide) (by decide)]
    rfl

/-- C15 (counterexample): a light field of 45 shots with the distance per step
`13421773 / 2 ^ 27` (the binary32 value nearest to 0.1): the setup translates by `-9 / 4`,
whereas `-0.5 * d * 45` is `-603979785 / 2 ^ 28`. -/
theorem lightfield_setup_ne_exact_product :
    IsFloat32 (13421773 / 2 ^ 27)
    ∧ (startLightfieldShot acceptingEnv idleSample (13421773 / 2 ^ 27) 45 false).2.filter
          Event.isMotion
        = [Event.moveCameraMultishot (-9 / 4) 0 0 false]
    ∧ -(1 / 2) * (13421773 / 2 ^ 27 : ℚ) * ((45 : Int) : ℚ) = -603979785 / 2 ^ 28
    ∧ (startLightfieldShot acceptingEnv idleSample (13421773 / 2 ^ 27) 45 false).2.filter
          Event.isMotion
        ≠ [Event.moveCameraMultishot (-(1 / 2) * (13421773 / 2 ^ 27 : ℚ) * ((45 : Int) : ℚ))
            0 0 false] := by
  have hd : IsFloat32 (13421773 / 2 ^ 27) :=
    ⟨13421773, -27, by norm_num, by norm_num, by norm_num, by norm_num⟩
  have hround : round32 (-(1 / 2) * (13421773 / 2 ^ 27 : ℚ) * ((45 : Int) : ℚ)) = -9 / 4 :=
    round32_eq_of_near _ _ (1) (-9437184) (by norm_num) (by norm_num [abs_of_neg])
      (by norm_num [abs_of_neg]) (by norm_num) (by norm_num) (by norm_num)
  have hexact : -(1 / 2) * (13421773 / 2 ^ 27 : ℚ) * ((45 : Int) : ℚ)
      = -603979785 / 2 ^ 28 := by norm_num
  have hsetup : (startLightfieldShot acceptingEnv idleSample (13421773 / 2 ^ 27) 45
      false).2.filter Event.isMotion = [Event.moveCameraMultishot (-9 / 4) 0 0 false] := by
    obtain ⟨_, _, _, _, _, hev⟩ :=
      startLightfieldShot_accepted acceptingEnv idleSample (13421773 / 2 ^ 27) 45 false rfl rfl
    rw [hev, setupDistance_eq _ _ hd (by norm_num), hround]
    rfl
  refine ⟨hd, hsetup, hexact, ?_⟩
  rw [hsetup, hexact]
  intro h
  have h2 := (Event.moveCameraMultishot.injEq _ _ _ _ _ _ _ _).mp (List.head_eq_of_cons_eq h)
  norm_num at h2

/-! ## C16: an empty capture -/

/-- C16: for every controller, `storeGrabbedShot` called with an empty buffer returns the
controller unchanged and performs no effect, so no camera command is sent. -/
theorem storeGrabbedShot_empty (env : Env) (c : ScreenshotController) :
    storeGrabbedShot env c [] = (c, [])
    ∧ (storeGrabbedShot env c []).2.filter Event.isConnectorCommand = [] := by
  rw [storeGrabbedShot_nil]
  exact ⟨rfl, rfl⟩

/-! ## C17: an accepted start -/

theorem startSession_accepts (env : Env)
    (hok : ∀ t, env.startScreenshotSession t = ScreenshotSessionStartReturnCode.AllOk)
    (c : ScreenshotController) : (startSession env c).1 = true := by
  unfold startSession
  simp [hok]

theorem start_accepted_fields (env : Env) (c : ScreenshotController) (request : StartRequest)
    (hconn : env.cameraToolsConnected = true)
    (hok : ∀ t, env.startScreenshotSession t = ScreenshotSessionStartReturnCode.AllOk) :
    (request.call env c).1._state = ScreenshotControllerState.InSession
    ∧ (request.call env c).1._shotCounter = 0
    ∧ (request.call env c).1._grabbedFrames = []
    ∧ (request.call env c).1._convolutionFrameCounter = c._numberOfFramesToWaitBetweenSteps
    ∧ (request.call env c).1._rootFolder = c._rootFolder
    ∧ (request.call env c).1._numberOfFramesToWaitBetweenSteps
        = c._numberOfFramesToWaitBetweenSteps
    ∧ (request.call env c).1._filetype = c._filetype := by
  have hacc := startSession_accepts env hok
  cases request <;>
    simp only [StartRequest.call, startHorizontalPanoramaShot, startLightfieldShot,
      startDebugGridShot, startMultiViewShot, hconn, hacc, Bool.not_true, Bool.false_eq_true,
      if_false] <;>
    (refine ⟨?_, ?_, ?_, ?_, ?_, ?_, ?_⟩ <;> trivial)

/-- C17: for each of the four start operations, when the connector is connected and accepts
the session, the call ends with state `InSession`, shot counter 0, no buffered frame, the skip
counter equal to the configured frames-to-wait value, and the output configuration (root
folder, frames to wait, file type) unchanged. -/
theorem start_accepted (env : Env) (c : ScreenshotController) (request : StartRequest)
    (hconn : env.cameraToolsConnected = true)
    (hok : ∀ t, env.startScreenshotSession t = ScreenshotSessionStartReturnCode.AllOk) :
    (request.call env c).1._state = ScreenshotControllerState.InSession
    ∧ (request.call env c).1._shotCounter = 0
    ∧ (request.call env c).1._grabbedFrames = []
    ∧ (request.call env c).1._convolutionFrameCounter = c._numberOfFramesToWaitBetweenSteps
    ∧ (request.call env c).1._rootFolder = c._rootFolder
    ∧ (request.call env c).1._numberOfFramesToWaitBetweenSteps
        = c._numberOfFramesToWaitBetweenSteps
    ∧ (request.call env c).1._filetype = c._filetype :=
  start_accepted_fields env c request hconn hok

/-- C17 (witness): the four start operations on the idle controller with an accepting
connector all end `InSession` with a skip counter equal to the configured wait of 0. -/
theorem start_accepted_witness :
    (acceptingEnv.cameraToolsConnected = true
      ∧ ∀ t, acceptingEnv.startScreenshotSession t = ScreenshotSessionStartReturnCode.AllOk)
    ∧ ((StartRequest.horizontalPanorama 110 80 40 false).call acceptingEnv idleSample).1._state
        = ScreenshotControllerState.InSession
    ∧ ((StartRequest.lightfield 1 3 false).call acceptingEnv idleSample).1._state
        = ScreenshotControllerState.InSession
    ∧ (StartRequest.debugGrid.call acceptingEnv idleSample).1._state
        = ScreenshotControllerState.InSession
    ∧ ((StartRequest.multiView 2 false).call acceptingEnv idleSample).1._state
        = ScreenshotControllerState.InSession
    ∧ ((StartRequest.multiView 2 false).call acceptingEnv idleSample).1._convolutionFrameCounter
        = idleSample._numberOfFramesToWaitBetweenSteps :=
  ⟨⟨rfl, fun _ => rfl⟩,
    (start_accepted acceptingEnv idleSample (StartRequest.horizontalPanorama 110 80 40 false)
      rfl (fun _ => rfl)).1,
    (start_accepted acceptingEnv idleSample (StartRequest.lightfield 1 3 false)
      rfl (fun _ => rfl)).1,
    (start_accepted acceptingEnv idleSample StartRequest.debugGrid rfl (fun _ => rfl)).1,
    (start_accepted acceptingEnv idleSample (StartRequest.multiView 2 false)
      rfl (fun _ => rfl)).1,
    (start_accepted acceptingEnv idleSample (StartRequest.multiView 2 false)
      rfl (fun _ => rfl)).2.2.2.1⟩

/-! ## C18: accesses to the session state and the mutex -/

theorem mutexGuarded_sleeps (sleeps : Nat) (rest : List SyncStep) :
    mutexGuarded true
        ((List.replicate sleeps [SyncStep.unlock, SyncStep.lock, SyncStep.readState]).flatten
          ++ rest)
      = mutexGuarded true rest := by
  induction sleeps with
  | zero => rfl
  | succ n ih =>
    rw [List.replicate_succ, List.flatten_cons, List.append_assoc]
    simp only [List.cons_append, List.nil_append, mutexGuarded, Bool.true_and]
    exact ih

theorem mutexGuarded_waitForShots_then (sleeps : Nat) (rest : List SyncStep) :
    mutexGuarded false (waitForShotsSteps sleeps ++ rest) = mutexGuarded false rest := by
  have hshape : waitForShotsSteps sleeps ++ rest
      = SyncStep.lock :: SyncStep.readState
          :: ((List.replicate sleeps
                [SyncStep.unlock, SyncStep.lock, SyncStep.readState]).flatten
              ++ SyncStep.unlock :: rest) := by
    simp [waitForShotsSteps]
  rw [hshape]
  show (true && mutexGuarded true
    ((List.replicate sleeps [SyncStep.unlock, SyncStep.lock, SyncStep.readState]).flatten
      ++ SyncStep.unlock :: rest)) = mutexGuarded false rest
  rw [mutexGuarded_sleeps]
  rfl

/-- C18 (code defect): of the accesses to `_state` the claim lists, only those of
`waitForShots` happen while `_waitCompletionMutex` is held, however often the thread sleeps.
`cancelSession` always reads the state, `shouldTakeShot` reads it when the skip counter is not
positive, `storeGrabbedShot` assigns it on the capture that reaches the target,
`saveGrabbedShots` assigns it when it writes frames, `reset` always assigns it, and
`completeShotSession` reads it after `waitForShots` released the mutex: each of these accesses
happens without the mutex. -/
theorem state_accesses_guarded_only_in_waitForShots :
    (∀ sleeps : Nat, mutexGuarded false (waitForShotsSteps sleeps) = true)
    ∧ (∀ c : ScreenshotController, mutexGuarded false (cancelSessionSteps c) = false)
    ∧ (∀ c : ScreenshotController, c._convolutionFrameCounter ≤ 0 →
        mutexGuarded false (shouldTakeShotSteps c) = false)
    ∧ (∀ (c : ScreenshotController) (grabbedShot : List UInt8), grabbedShot ≠ [] →
        c._numberOfShotsToTake ≤ c._shotCounter + 1 →
        mutexGuarded false (storeGrabbedShotSteps c grabbedShot) = false)
    ∧ (∀ c : ScreenshotController, c._grabbedFrames ≠ [] → c._isTestRun = false →
        mutexGuarded false (saveGrabbedShotsSteps c) = false)
    ∧ mutexGuarded false resetSteps = false
    ∧ (∀ (c : ScreenshotController) (sleeps : Nat),
        mutexGuarded false (completeShotSessionSteps c sleeps) = false) := by
  refine ⟨?_, ?_, ?_, ?_, ?_, rfl, ?_⟩
  · intro sleeps
    have h := mutexGuarded_waitForShots_then sleeps []
    rw [List.append_nil] at h
    rw [h]
    rfl
  · intro c
    unfold cancelSessionSteps
    cases c._state <;> rfl
  · intro c hc
    unfold shouldTakeShotSteps
    rw [if_neg (by omega)]
    rfl
  · intro c grabbedShot hne hge
    have hlen : ¬ grabbedShot.length ≤ 0 := by
      cases grabbedShot with
      | nil => exact absurd rfl hne
      | cons b bs => simp
    have hge2 : c._shotCounter + 1 ≥ c._numberOfShotsToTake := hge
    unfold storeGrabbedShotSteps
    rw [if_neg hlen, if_pos hge2]
    rfl
  · intro c hframes htest
    have hlen : ¬ c._grabbedFrames.length ≤ 0 := by
      cases hf : c._grabbedFrames with
      | nil => exact absurd hf hframes
      | cons b bs => simp
    have ht : (!c._isTestRun) = true := by rw [htest]; rfl
    unfold saveGrabbedShotsSteps
    rw [if_neg hlen, if_pos ht]
    rfl
  · intro c sleeps
    unfold completeShotSessionSteps
    rw [List.append_assoc, List.append_assoc, mutexGuarded_waitForShots_then]
    rfl

/-- C18 (witness): `cancelSession` during a session reads and then assigns the state without
the mutex, whereas `waitForShots` with one sleep holds the mutex at each of its two reads. -/
theorem state_accesses_guarded_only_in_waitForShots_witness :
    cancelSessionSteps sessionWithFrame = [SyncStep.readState, SyncStep.writeState]
    ∧ mutexGuarded false (cancelSessionSteps sessionWithFrame) = false
    ∧ waitForShotsSteps 1
        = [SyncStep.lock, SyncStep.readState, SyncStep.unlock, SyncStep.lock,
           SyncStep.readState, SyncStep.unlock]
    ∧ mutexGuarded false (waitForShotsSteps 1) = true :=
  ⟨by decide, state_accesses_guarded_only_in_waitForShots.2.1 sessionWithFrame, rfl,
    state_accesses_guarded_only_in_waitForShots.1 1⟩

/-! ## C19: the in-place packing loop -/

theorem packRGBAChecked_eq (buf : List UInt8) (n k : Nat) (hlen : 4 * n ≤ buf.length)
    (hk : k ≤ n) : packRGBAChecked buf k = some (packRGBA buf k) := by
  induction k with
  | zero => rfl
  | succ k ih =>
    have ih := ih (by omega)
    have hkeep := (packRGBA_invariant buf k (by omega)).1
    unfold packRGBAChecked at ih ⊢
    rw [List.range_succ, List.foldlM_append, ih, packRGBA_succ]
    simp only [Option.bind_eq_bind, Option.some_bind, List.foldlM_cons, List.foldlM_nil,
      packPixelChecked, hkeep]
    rw [if_pos (by omega)]
    rfl

/-- C19: for every pixel count `n` and every buffer `b` of `4 * n` bytes, the packing loop
makes no access outside the buffer (each 4-byte read at `4 * i` and each 4-byte write at
`3 * i` lies inside it); at iteration `i` the four bytes it reads are still the original
bytes of pixel `i`; and afterwards the bytes at offsets `3 * i`, `3 * i + 1`, `3 * i + 2` are
the original bytes `b[4 * i]`, `b[4 * i + 1]`, `b[4 * i + 2]` for every `i < n`. -/
theorem packRGBA_in_place (b : List UInt8) (n : Nat) (hlen : b.length = 4 * n) :
    packRGBAChecked b n = some (packRGBA b n)
    ∧ (∀ i, i < n → ∀ k, k < 4 → (packRGBA b i)[4 * i + k]? = b[4 * i + k]?)
    ∧ (∀ i, i < n → ∀ k, k < 3 →
        ∃ v : UInt8, b[4 * i + k]? = some v ∧ (packRGBA b n)[3 * i + k]? = some v) := by
  refine ⟨packRGBAChecked_eq b n n (by omega) (le_refl n), ?_, ?_⟩
  · intro i hi k _
    exact (packRGBA_invariant b i (by omega)).2.1 (4 * i + k) (by omega)
  · intro i hi k hk
    have hin : 4 * i + k < b.length := by omega
    refine ⟨b[4 * i + k], List.getElem?_eq_getElem hin, ?_⟩
    rw [(packRGBA_invariant b n (by omega)).2.2 i k hi hk]
    exact List.getElem?_eq_getElem hin

/-- C19 (witness): packing the two pixels `[1, 2, 3, 4, 5, 6, 7, 8]` stays in bounds and
leaves `1, 2, 3, 5, 6, 7` in the first six bytes. -/
theorem packRGBA_in_place_witness :
    ([1, 2, 3, 4, 5, 6, 7, 8] : List UInt8).length = 4 * 2
    ∧ packRGBAChecked [1, 2, 3, 4, 5, 6, 7, 8] 2 = some (packRGBA [1, 2, 3, 4, 5, 6, 7, 8] 2)
    ∧ (packRGBA [1, 2, 3, 4, 5, 6, 7, 8] 2).take 6 = [1, 2, 3, 5, 6, 7] :=
  ⟨rfl, (packRGBA_in_place [1, 2, 3, 4, 5, 6, 7, 8] 2 rfl).1, by decide⟩

/-! ## C20: the skip counter and the presentation ticks -/

theorem presentCalledTimes_counter (s : ScreenshotController) (j : Nat)
    (hF : 0 ≤ s._convolutionFrameCounter) :
    (presentCalledTimes s j)._state = s._state
    ∧ (presentCalledTimes s j)._convolutionFrameCounter
        = max (s._convolutionFrameCounter - (j : Int)) 0 := by
  induction j with
  | zero =>
    refine ⟨rfl, ?_⟩
    simp only [presentCalledTimes, Nat.cast_zero, sub_zero]
    exact (max_eq_left hF).symm
  | succ j ih =>
    obtain ⟨ih1, ih2⟩ := ih
    simp only [presentCalledTimes, presentCalled]
    by_cases hpos : (presentCalledTimes s j)._convolutionFrameCounter > 0
    · rw [if_pos hpos]
      refine ⟨ih1, ?_⟩
      simp only
      rw [ih2] at hpos ⊢
      push_cast
      omega
    · rw [if_neg hpos]
      refine ⟨ih1, ?_⟩
      rw [ih2] at hpos ⊢
      push_cast
      omega

theorem shouldTakeShot_presentCalledTimes (s : ScreenshotController) (j : Nat)
    (hstate : s._state = ScreenshotControllerState.InSession)
    (hF : 0 ≤ s._convolutionFrameCounter) :
    (shouldTakeShot (presentCalledTimes s j) = true ↔ s._convolutionFrameCounter ≤ (j : Int))
    ∧ 0 ≤ (presentCalledTimes s j)._convolutionFrameCounter := by
  obtain ⟨h1, h2⟩ := presentCalledTimes_counter s j hF
  rw [shouldTakeShot_iff, h1, h2]
  constructor
  · constructor
    · intro h
      have := h.1
      omega
    · intro h
      exact ⟨by omega, hstate⟩
  · omega

/-- C20: for every configured wait value `F >= 0`, right after a successful start and right
after any non-final capture of a session, `j` calls of `presentCalled` with nothing in
between make `shouldTakeShot` true if and only if `j >= F`, and the skip counter never drops
below 0. -/
theorem presentCalled_gate (F : Int) (j : Nat) (hF : 0 ≤ F) :
    (∀ (env : Env) (c : ScreenshotController) (request : StartRequest),
      env.cameraToolsConnected = true →
      (∀ t, env.startScreenshotSession t = ScreenshotSessionStartReturnCode.AllOk) →
      c._numberOfFramesToWaitBetweenSteps = F →
      (shouldTakeShot (presentCalledTimes (request.call env c).1 j) = true ↔ F ≤ (j : Int))
      ∧ 0 ≤ (presentCalledTimes (request.call env c).1 j)._convolutionFrameCounter)
    ∧ (∀ (env : Env) (c : ScreenshotController) (g : List UInt8),
      c._state = ScreenshotControllerState.InSession → g ≠ [] →
      c._shotCounter + 1 < c._numberOfShotsToTake →
      c._numberOfFramesToWaitBetweenSteps = F →
      (shouldTakeShot (presentCalledTimes (storeGrabbedShot env c g).1 j) = true
        ↔ F ≤ (j : Int))
      ∧ 0 ≤ (presentCalledTimes (storeGrabbedShot env c g).1 j)._convolutionFrameCounter) := by
  constructor
  · intro env c request hconn hok hwait
    obtain ⟨hs, _, _, hconv, _⟩ := start_accepted_fields env c request hconn hok
    have h := shouldTakeShot_presentCalledTimes (request.call env c).1 j hs
      (by rw [hconv, hwait]; exact hF)
    rw [hconv, hwait] at h
    exact h
  · intro env c g hstate hne hlt hwait
    have hstep := storeGrabbedShot_nonfinal env c g hne hlt
    have hs : (storeGrabbedShot env c g).1._state = ScreenshotControllerState.InSession := by
      rw [hstep]; exact hstate
    have hconv : (storeGrabbedShot env c g).1._convolutionFrameCounter = F := by
      rw [hstep]; exact hwait
    have h := shouldTakeShot_presentCalledTimes (storeGrabbedShot env c g).1 j hs
      (by rw [hconv]; exact hF)
    rw [hconv] at h
    exact h

/-- C20 (witness): with a configured wait of 2, after a successful multi-view start and after
the first capture of a three-shot light field, one tick is not enough and two ticks are. -/
theorem presentCalled_gate_witness :
    (0 : Int) ≤ 2
    ∧ (acceptingEnv.cameraToolsConnected = true
      ∧ waitTwoIdle._numberOfFramesToWaitBetweenSteps = 2
      ∧ ¬ shouldTakeShot (presentCalledTimes
            ((StartRequest.multiView 2 false).call acceptingEnv waitTwoIdle).1 1) = true
      ∧ shouldTakeShot (presentCalledTimes
            ((StartRequest.multiView 2 false).call acceptingEnv waitTwoIdle).1 2) = true)
    ∧ ((startLightfieldShot acceptingEnv waitTwoIdle 1 3 false).1._state
          = ScreenshotControllerState.InSession
      ∧ ¬ shouldTakeShot (presentCalledTimes
            (storeGrabbedShot acceptingEnv (startLightfieldShot acceptingEnv waitTwoIdle 1 3
              false).1 [200, 100, 50, 255]).1 1) = true
      ∧ shouldTakeShot (presentCalledTimes
            (storeGrabbedShot acceptingEnv (startLightfieldShot acceptingEnv waitTwoIdle 1 3
              false).1 [200, 100, 50, 255]).1 2) = true) := by
  have a1 := ((presentCalled_gate 2 1 (by decide)).1 acceptingEnv waitTwoIdle
    (StartRequest.multiView 2 false) rfl (fun _ => rfl) (by decide)).1
  have a2 := ((presentCalled_gate 2 2 (by decide)).1 acceptingEnv waitTwoIdle
    (StartRequest.multiView 2 false) rfl (fun _ => rfl) (by decide)).1
  have b1 := ((presentCalled_gate 2 1 (by decide)).2 acceptingEnv
    (startLightfieldShot acceptingEnv waitTwoIdle 1 3 false).1 [200, 100, 50, 255]
    (by decide) (by decide) (by decide) (by decide)).1
  have b2 := ((presentCalled_gate 2 2 (by decide)).2 acceptingEnv
    (startLightfieldShot acceptingEnv waitTwoIdle 1 3 false).1 [200, 100, 50, 255]
    (by decide) (by decide) (by decide) (by decide)).1
  exact ⟨by decide,
    ⟨rfl, by decide, fun h => absurd (a1.1 h) (by decide), a2.2 (by decide)⟩,
    ⟨by decide, fun h => absurd (b1.1 h) (by decide), b2.2 (by decide)⟩⟩

/-! ## C21: the shot counter counts the buffered frames -/

theorem counter_storeGrabbedShot (env : Env) (c : ScreenshotController) (g : List UInt8)
    (h : c._shotCounter = (c._grabbedFrames.length : Int)) :
    (storeGrabbedShot env c g).1._shotCounter
      = ((storeGrabbedShot env c g).1._grabbedFrames.length : Int) := by
  unfold storeGrabbedShot
  split
  · exact h
  · dsimp only
    split <;>
      (simp only [List.length_append, List.length_singleton]; push_cast; omega)

theorem start_connected_fresh (env : Env) (c : ScreenshotController) (request : StartRequest)
    (hconn : env.cameraToolsConnected = true) :
    (request.call env c).1._grabbedFrames = [] ∧ (request.call env c).1._shotCounter = 0 := by
  constructor <;>
    cases request <;>
      simp only [StartRequest.call, startHorizontalPanoramaShot, startLightfieldShot,
        startDebugGridShot, startMultiViewShot, hconn, Bool.not_true, Bool.false_eq_true,
        if_false] <;>
      split <;> rfl

theorem counter_start (env : Env) (c : ScreenshotController) (request : StartRequest)
    (h : c._shotCounter = (c._grabbedFrames.length : Int)) :
    (request.call env c).1._shotCounter
      = ((request.call env c).1._grabbedFrames.length : Int) := by
  by_cases hconn : env.cameraToolsConnected = true
  · obtain ⟨hf, hc⟩ := start_connected_fresh env c request hconn
    rw [hf, hc]
    rfl
  · have hfalse : env.cameraToolsConnected = false := by
      cases hv : env.cameraToolsConnected
      · rfl
      · exact absurd hv hconn
    rw [start_not_connected env c request hfalse]
    exact h

theorem counter_apply (c : ScreenshotController) (call : MemberCall)
    (h : c._shotCounter = (c._grabbedFrames.length : Int)) :
    (call.apply c).1._shotCounter = ((call.apply c).1._grabbedFrames.length : Int) := by
  cases call with
  | configure rootFolder wait filetype =>
    simp only [MemberCall.apply, configure]
    split
    · exact h
    · rfl
  | start env request => exact counter_start env c request h
  | presentCalled =>
    simp only [MemberCall.apply, presentCalled]
    split
    · exact h
    · exact h
  | storeGrabbedShot env g => exact counter_storeGrabbedShot env c g h
  | reshadeEffectsRendered env runtime =>
    simp only [MemberCall.apply, reshadeEffectsRendered]
    split
    · exact h
    · split
      · exact counter_storeGrabbedShot env _ _ h
      · exact h
  | cancelSession =>
    simp only [MemberCall.apply, cancelSession]
    split <;> exact h
  | completeShotSession env =>
    simp only [MemberCall.apply, completeShotSession, waitForShots]
    split
    · exact h
    · rfl
  | reset => rfl

theorem counter_runCalls (calls : List MemberCall) (c : ScreenshotController)
    (h : c._shotCounter = (c._grabbedFrames.length : Int)) :
    (runCalls c calls)._shotCounter = ((runCalls c calls)._grabbedFrames.length : Int) := by
  induction calls generalizing c with
  | nil => exact h
  | cons call rest ih =>
    simp only [runCalls, List.foldl_cons]
    exact ih _ (counter_apply c call h)

/-- C21: in every controller reachable from an idle controller by any sequence of member
function calls (`configure`, the start operations, `presentCalled`, `storeGrabbedShot` with
any buffer in any state, `reshadeEffectsRendered`, `cancelSession`, the completion watcher,
`reset`), the shot counter equals the number of buffered frames. -/
theorem reachable_counter_eq_frames (c : ScreenshotController) (h : ReachableByCalls c) :
    c._shotCounter = (c._grabbedFrames.length : Int) := by
  obtain ⟨rootFolder, wait, filetype, calls, rfl⟩ := h
  exact counter_runCalls calls _ rfl

/-- C21 (witness): after a frame stored outside any session, a multi-view start, a stored
frame, an empty buffer and a presentation tick, one frame is buffered and the counter is 1. -/
theorem reachable_counter_eq_frames_witness :
    ReachableByCalls (runCalls idleSample sampleCalls)
    ∧ (runCalls idleSample sampleCalls)._grabbedFrames.length = 1
    ∧ (runCalls idleSample sampleCalls)._shotCounter
        = ((runCalls idleSample sampleCalls)._grabbedFrames.length : Int) :=
  ⟨⟨"", 0, ScreenshotFiletype.Jpeg, sampleCalls, rfl⟩, by decide,
    reachable_counter_eq_frames (runCalls idleSample sampleCalls)
      ⟨"", 0, ScreenshotFiletype.Jpeg, sampleCalls, rfl⟩⟩

/-! ## Lemmas on the rotation of a panorama -/

theorem rotationSum_append (xs ys : List Event) :
    rotationSum (xs ++ ys) = rotationSum xs + rotationSum ys := by
  simp [rotationSum]

theorem rotationSum_replicate (n : Nat) (a : ℚ) :
    rotationSum (List.replicate n (Event.moveCameraPanorama a)) = (n : ℚ) * a := by
  induction n with
  | zero => simp [rotationSum]
  | succ n ih =>
    rw [List.replicate_succ]
    have hcons : rotationSum (Event.moveCameraPanorama a
        :: List.replicate n (Event.moveCameraPanorama a))
        = a + rotationSum (List.replicate n (Event.moveCameraPanorama a)) := by
      simp [rotationSum, Event.panoramaRotation]
    rw [hcons, ih]
    push_cast
    ring

theorem rotationSum_of_no_motion (events : List Event)
    (h : events.filter Event.isMotion = []) : rotationSum events = 0 := by
  induction events with
  | nil => rfl
  | cons e rest ih =>
    rw [List.filter_cons] at h
    cases e <;> simp [Event.isMotion] at h <;>
      simp [rotationSum, Event.panoramaRotation] at ih ⊢ <;> exact ih h

theorem isMotion_saveShotToFile (env : Env) (c : ScreenshotController) (folder : String)
    (data : List UInt8) (frameNumber : Int) :
    (saveShotToFile env c folder data frameNumber).filter Event.isMotion = [] := by
  unfold saveShotToFile
  cases hft : c._filetype
  · simp [Event.isMotion]
  · simp [Event.isMotion]
  · by_cases hopen : env.fopenSucceeds
        (folder ++ String.singleton backslash ++ toString frameNumber ++ ".png") = true
    · simp [Event.isMotion, hopen]
    · simp [Event.isMotion, hopen]

theorem isMotion_saveFrames (env : Env) (c : ScreenshotController) (folder : String)
    (frames : List (List UInt8)) (first : Int) :
    (saveFrames env c folder frames first).filter Event.isMotion = [] := by
  induction frames generalizing first with
  | nil => rfl
  | cons frame rest ih =>
    rw [saveFrames, List.filter_append, isMotion_saveShotToFile, ih]
    rfl

theorem isMotion_saveGrabbedShots (env : Env) (c : ScreenshotController) :
    (saveGrabbedShots env c).2.filter Event.isMotion = [] := by
  unfold saveGrabbedShots
  split
  · rfl
  · split
    · dsimp only
      rw [List.filter_append, isMotion_saveFrames]
      rfl
    · rfl

/-- The completion watcher sends no camera motion command. -/
theorem isMotion_completeShotSession (env : Env) (c : ScreenshotController) (out : Outcome)
    (h : completeShotSession env c = some out) : out.2.filter Event.isMotion = [] := by
  unfold completeShotSession waitForShots at h
  by_cases hs : c._state ≠ ScreenshotControllerState.InSession
  · rw [if_pos hs] at h
    simp only [Option.some.injEq] at h
    rw [← h]
    dsimp only
    by_cases hcancel : c._state ≠ ScreenshotControllerState.Canceling
    · rw [if_pos hcancel]
      by_cases htest : c._isTestRun = true
      · rw [if_pos htest]
        rfl
      · rw [if_neg htest]
        simp only [List.filter_append, isMotion_saveGrabbedShots]
        rfl
    · rw [if_neg hcancel]
      rfl
  · rw [if_neg hs] at h
    exact absurd h (by simp)

/-- Captures that end exactly on the target, when every `modifyCamera` call of the session
performs `[e]`: one `e` per capture except the last, which only wakes the waiter. -/
theorem storeGrabbedShots_complete_effects (env : Env) (e : Event)
    (shots : List (List UInt8)) (c : ScreenshotController)
    (hmod : ∀ c1 : ScreenshotController, c1._typeOfShot = c._typeOfShot →
      c1._pano_anglePerStep = c._pano_anglePerStep →
      c1._lightField_distancePerStep = c._lightField_distancePerStep →
      modifyCamera env c1 = [e])
    (hne : ∀ g ∈ shots, g ≠ []) (hsome : shots ≠ [])
    (heq : c._shotCounter + (shots.length : Int) = c._numberOfShotsToTake) :
    (storeGrabbedShots env c shots).2
      = List.replicate (shots.length - 1) e ++ [Event.notify_all] := by
  induction shots generalizing c with
  | nil => exact absurd rfl hsome
  | cons g rest ih =>
    have hg : g ≠ [] := hne g (List.mem_cons_self g rest)
    have hrest : ∀ g2 ∈ rest, g2 ≠ [] := fun g2 h2 => hne g2 (List.mem_cons_of_mem g h2)
    have hlen : ((g :: rest).length : Int) = (rest.length : Int) + 1 := by
      simp
    rw [hlen] at heq
    cases rest with
    | nil =>
      simp only [List.length_nil, Nat.cast_zero, zero_add] at heq
      have hstep := storeGrabbedShot_final env c g hg (by omega)
      simp only [storeGrabbedShots, hstep]
      rfl
    | cons g2 rest2 =>
      have hpos : (0 : Int) < ((g2 :: rest2).length : Int) := by
        simp only [List.length_cons]; push_cast; omega
      have hstep := storeGrabbedShot_nonfinal env c g hg (by omega)
      have hev := hmod
        { c with
          _grabbedFrames := c._grabbedFrames ++ [g]
          _shotCounter := c._shotCounter + 1 } rfl rfl rfl
      have hih := ih
        { c with
          _grabbedFrames := c._grabbedFrames ++ [g]
          _shotCounter := c._shotCounter + 1
          _convolutionFrameCounter := c._numberOfFramesToWaitBetweenSteps }
        (fun c1 h1 h2 h3 => hmod c1 h1 h2 h3) hrest (by simp) (by simp only; omega)
      rw [storeGrabbedShots, hstep]
      dsimp only
      rw [hev, hih]
      simp [List.replicate_succ]

theorem completeShotSession_runs (env : Env) (c : ScreenshotController)
    (hs : c._state ≠ ScreenshotControllerState.InSession) :
    ∃ out : Outcome, completeShotSession env c = some out := by
  unfold completeShotSession waitForShots
  rw [if_pos hs]
  exact ⟨_, rfl⟩

/-! ## C22: where the panorama camera points -/

/-- C22 (as amended): in a horizontal-panorama session started successfully on a request in
range, with angle per step `a` and shot target `N`, whose `N` captures are all non-empty: the
setup rotation is `r`, the binary32 rounding of `-(N/2) * a`; the rotations sent before the
`k`-th capture (`k = 0 .. N-1`, setup included) sum to `r + k * a`, which differs from
`(k - N/2) * a` by at most `(N/2) * a / 2 ^ 24`; so the first shot is taken at `r` and the
last at `r + (N - 1) * a`; the camera motion commands of the whole session are the setup
rotation followed by `N - 1` rotations by `a`; the completion watcher runs and sends no
camera motion command, so the camera is left rotated by `r + (N - 1) * a`. -/
theorem panorama_rotation_sum (env env2 envW : Env) (c s : ScreenshotController)
    (setup : List Event) (totalFoV overlap currentFoV : ℚ) (isTestRun : Bool)
    (shots : List (List UInt8))
    (hconn : env.cameraToolsConnected = true)
    (hok : env.startScreenshotSession ScreenshotType.HorizontalPanorama
      = ScreenshotSessionStartReturnCode.AllOk)
    (hin : PanoramaInputs env totalFoV overlap currentFoV)
    (hstart : startHorizontalPanoramaShot env c totalFoV overlap currentFoV isTestRun
      = (s, setup))
    (hN : (shots.length : Int) = s._numberOfShotsToTake) (hne : ∀ g ∈ shots, g ≠ []) :
    (∀ k, k < shots.length →
        rotationSum (setup ++ (storeGrabbedShots env2 s (shots.take k)).2)
            = round32 (-((s._numberOfShotsToTake : ℚ) / 2) * s._pano_anglePerStep)
              + (k : ℚ) * s._pano_anglePerStep
          ∧ |rotationSum (setup ++ (storeGrabbedShots env2 s (shots.take k)).2)
                - ((k : ℚ) - (s._numberOfShotsToTake : ℚ) / 2) * s._pano_anglePerStep|
              ≤ (s._numberOfShotsToTake : ℚ) / 2 * s._pano_anglePerStep / 2 ^ 24)
    ∧ rotationSum setup
        = round32 (-((s._numberOfShotsToTake : ℚ) / 2) * s._pano_anglePerStep)
    ∧ rotationSum (setup ++ (storeGrabbedShots env2 s (shots.take (shots.length - 1))).2)
        = round32 (-((s._numberOfShotsToTake : ℚ) / 2) * s._pano_anglePerStep)
          + ((s._numberOfShotsToTake : ℚ) - 1) * s._pano_anglePerStep
    ∧ ∃ out : Outcome,
        completeShotSession envW (storeGrabbedShots env2 s shots).1 = some out
        ∧ out.2.filter Event.isMotion = []
        ∧ (setup ++ (storeGrabbedShots env2 s shots).2 ++ out.2).filter Event.isMotion
            = Event.moveCameraPanorama
                (round32 (-((s._numberOfShotsToTake : ℚ) / 2) * s._pano_anglePerStep))
              :: List.replicate (shots.length - 1)
                  (Event.moveCameraPanorama s._pano_anglePerStep)
        ∧ rotationSum (setup ++ (storeGrabbedShots env2 s shots).2 ++ out.2)
            = round32 (-((s._numberOfShotsToTake : ℚ) / 2) * s._pano_anglePerStep)
              + ((s._numberOfShotsToTake : ℚ) - 1) * s._pano_anglePerStep := by
  have hs : (startHorizontalPanoramaShot env c totalFoV overlap currentFoV isTestRun).1 = s := by
    rw [hstart]
  obtain ⟨_, htype, hcount, hsetup⟩ :=
    startHorizontalPanoramaShot_accepted env c totalFoV overlap currentFoV isTestRun hconn hok
  rw [hstart] at htype hcount hsetup
  simp only at htype hcount hsetup
  obtain ⟨⟨_, _, afloat⟩, ⟨hpos, _⟩, _, _⟩ :=
    panorama_parameters env c s totalFoV overlap currentFoV isTestRun hconn hin hs
  obtain ⟨hvalue, herror⟩ :=
    panorama_setup env c s totalFoV overlap currentFoV isTestRun hconn hin hs
  have hform : -(1 / 2) * s._pano_anglePerStep * (s._numberOfShotsToTake : ℚ)
      = -((s._numberOfShotsToTake : ℚ) / 2) * s._pano_anglePerStep := by ring
  have hform2 : 1 / 2 * s._pano_anglePerStep * (s._numberOfShotsToTake : ℚ)
      = (s._numberOfShotsToTake : ℚ) / 2 * s._pano_anglePerStep := by ring
  rw [hform] at hvalue herror
  rw [hform2] at herror
  have hmod : ∀ c1 : ScreenshotController, c1._typeOfShot = s._typeOfShot →
      c1._pano_anglePerStep = s._pano_anglePerStep →
      c1._lightField_distancePerStep = s._lightField_distancePerStep →
      modifyCamera env2 c1 = [Event.moveCameraPanorama s._pano_anglePerStep] := by
    intro c1 h1 h2 _
    rw [modifyCamera_panorama env2 c1 (by rw [h1, htype]) (by rw [h2]; exact afloat), h2]
  have hsum0 : rotationSum setup
      = round32 (-((s._numberOfShotsToTake : ℚ) / 2) * s._pano_anglePerStep) := by
    rw [hsetup, hvalue]
    simp only [rotationSum, List.map_cons, List.map_nil, Event.panoramaRotation,
      List.sum_cons, List.sum_nil]
    ring
  have hbefore : ∀ k, k < shots.length →
      rotationSum (setup ++ (storeGrabbedShots env2 s (shots.take k)).2)
        = round32 (-((s._numberOfShotsToTake : ℚ) / 2) * s._pano_anglePerStep)
          + (k : ℚ) * s._pano_anglePerStep := by
    intro k hk
    have hlen : (shots.take k).length = k := by
      rw [List.length_take]; omega
    have htrace := (storeGrabbedShots_nonfinal env2 _ (shots.take k) s hmod
      (fun g hg => hne g (List.mem_of_mem_take hg)) (by rw [hcount, hlen]; omega)).1
    rw [rotationSum_append, hsum0, htrace, hlen, rotationSum_replicate]
  have hsome : shots ≠ [] := by
    intro h
    rw [h] at hN
    simp only [List.length_nil, Nat.cast_zero] at hN
    omega
  have hlenpos : 0 < shots.length := List.length_pos.mpr hsome
  have htraceAll := storeGrabbedShots_complete_effects env2 _ shots s hmod hne hsome
    (by rw [hcount]; omega)
  have hstateAll := (storeGrabbedShots_complete env2 shots s hne hsome
    (by rw [hcount]; omega)).1
  have hcast : ((shots.length - 1 : Nat) : ℚ) = (s._numberOfShotsToTake : ℚ) - 1 := by
    have h1 : ((shots.length - 1 : Nat) : Int) = s._numberOfShotsToTake - 1 := by omega
    have h2 : (((shots.length - 1 : Nat) : Int) : ℚ) = ((s._numberOfShotsToTake - 1 : Int) : ℚ) := by
      rw [h1]
    push_cast at h2
    exact h2
  refine ⟨?_, hsum0, ?_, ?_⟩
  · intro k hk
    refine ⟨hbefore k hk, ?_⟩
    rw [hbefore k hk]
    have hdiff : round32 (-((s._numberOfShotsToTake : ℚ) / 2) * s._pano_anglePerStep)
          + (k : ℚ) * s._pano_anglePerStep
          - ((k : ℚ) - (s._numberOfShotsToTake : ℚ) / 2) * s._pano_anglePerStep
        = round32 (-((s._numberOfShotsToTake : ℚ) / 2) * s._pano_anglePerStep)
          - -((s._numberOfShotsToTake : ℚ) / 2) * s._pano_anglePerStep := by ring
    rw [hdiff]
    exact herror
  · rw [hbefore (shots.length - 1) (by omega), hcast]
  · obtain ⟨out, hout⟩ := completeShotSession_runs envW (storeGrabbedShots env2 s shots).1
      (by rw [hstateAll]; decide)
    have hquiet := isMotion_completeShotSession envW _ out hout
    refine ⟨out, hout, hquiet, ?_, ?_⟩
    · rw [List.filter_append, List.filter_append, hquiet, htraceAll, hsetup, hvalue]
      simp [List.filter, Event.isMotion]
    · rw [rotationSum_append, rotationSum_append, rotationSum_of_no_motion out.2 hquiet,
        hsum0, htraceAll, rotationSum_append, rotationSum_replicate, hcast]
      simp only [rotationSum, List.map_cons, List.map_nil, Event.panoramaRotation,
        List.sum_cons, List.sum_nil]
      ring

/-- C22 (witness): the panorama of 110 degrees with 80 percent overlap at 40 degrees, with
14 non-empty captures: the setup leaves the camera at `-8198895 / 2 ^ 23`, and the session
leaves it at `-8198895 / 2 ^ 23 + 13 * (4685083 / 2 ^ 25) = 28110499 / 2 ^ 25`, with no camera
motion from the completion watcher. -/
theorem panorama_rotation_sum_witness :
    (acceptingEnv.cameraToolsConnected = true
      ∧ acceptingEnv.startScreenshotSession ScreenshotType.HorizontalPanorama
          = ScreenshotSessionStartReturnCode.AllOk
      ∧ PanoramaInputs acceptingEnv 110 80 40
      ∧ (fourteenShots.length : Int)
          = (startHorizontalPanoramaShot acceptingEnv idleSample 110 80 40
              false).1._numberOfShotsToTake
      ∧ ∀ g ∈ fourteenShots, g ≠ [])
    ∧ rotationSum (startHorizontalPanoramaShot acceptingEnv idleSample 110 80 40 false).2
        = -8198895 / 2 ^ 23
    ∧ ∃ out : Outcome,
        completeShotSession acceptingEnv
            (storeGrabbedShots acceptingEnv
              (startHorizontalPanoramaShot acceptingEnv idleSample 110 80 40 false).1
              fourteenShots).1 = some out
        ∧ out.2.filter Event.isMotion = []
        ∧ rotationSum ((startHorizontalPanoramaShot acceptingEnv idleSample 110 80 40 false).2
              ++ (storeGrabbedShots acceptingEnv
                  (startHorizontalPanoramaShot acceptingEnv idleSample 110 80 40 false).1
                  fourteenShots).2 ++ out.2)
            = 28110499 / 2 ^ 25 := by
  obtain ⟨ha, hshots, hround, _⟩ := defaultPanorama_values
  have hlen : (fourteenShots.length : Int)
      = (startHorizontalPanoramaShot acceptingEnv idleSample 110 80 40
          false).1._numberOfShotsToTake := by
    rw [hshots]
    rfl
  have hne : ∀ g ∈ fourteenShots, g ≠ [] := by
    intro g hg
    rw [List.eq_of_mem_replicate hg]
    decide
  have hr : round32 (-(((14 : Int) : ℚ) / 2) * (4685083 / 2 ^ 25 : ℚ)) = -8198895 / 2 ^ 23 := by
    rw [← hround]
    congr 1
    ring
  have h := panorama_rotation_sum acceptingEnv acceptingEnv acceptingEnv idleSample
    (startHorizontalPanoramaShot acceptingEnv idleSample 110 80 40 false).1
    (startHorizontalPanoramaShot acceptingEnv idleSample 110 80 40 false).2
    110 80 40 false fourteenShots rfl rfl panoramaInputs_default rfl hlen hne
  obtain ⟨out, h1, h2, _, h4⟩ := h.2.2.2
  refine ⟨⟨rfl, rfl, panoramaInputs_default, hlen, hne⟩, ?_, out, h1, h2, ?_⟩
  · rw [h.2.1, ha, hshots, hr]
  · rw [h4, ha, hshots, hr]
    norm_num

/-- C22 (counterexample): for the panorama of 110 degrees with 80 percent overlap at 40
degrees (`a = 4685083 / 2 ^ 25`, `N = 14`) the rotations sent before the first capture sum to
`-8198895 / 2 ^ 23`, which is not `(0 - N/2) * a = -32795581 / 2 ^ 25`. -/
theorem panorama_first_shot_ne_exact :
    (startHorizontalPanoramaShot acceptingEnv idleSample 110 80 40 false).1._pano_anglePerStep
      = 4685083 / 2 ^ 25
    ∧ (startHorizontalPanoramaShot acceptingEnv idleSample 110 80 40
        false).1._numberOfShotsToTake = 14
    ∧ rotationSum ((startHorizontalPanoramaShot acceptingEnv idleSample 110 80 40 false).2
        ++ (storeGrabbedShots acceptingEnv
            (startHorizontalPanoramaShot acceptingEnv idleSample 110 80 40 false).1
            (fourteenShots.take 0)).2)
        = -8198895 / 2 ^ 23
    ∧ (((0 : Nat) : ℚ) - ((14 : Int) : ℚ) / 2) * (4685083 / 2 ^ 25 : ℚ) = -32795581 / 2 ^ 25
    ∧ rotationSum ((startHorizontalPanoramaShot acceptingEnv idleSample 110 80 40 false).2
        ++ (storeGrabbedShots acceptingEnv
            (startHorizontalPanoramaShot acceptingEnv idleSample 110 80 40 false).1
            (fourteenShots.take 0)).2)
        ≠ (((0 : Nat) : ℚ) - ((14 : Int) : ℚ) / 2) * (4685083 / 2 ^ 25 : ℚ) := by
  obtain ⟨ha, hshots, hround, _⟩ := defaultPanorama_values
  have hsum : rotationSum
      ((startHorizontalPanoramaShot acceptingEnv idleSample 110 80 40 false).2
        ++ (storeGrabbedShots acceptingEnv
            (startHorizontalPanoramaShot acceptingEnv idleSample 110 80 40 false).1
            (fourteenShots.take 0)).2) = -8198895 / 2 ^ 23 := by
    obtain ⟨_, _, _, hev⟩ :=
      startHorizontalPanoramaShot_accepted acceptingEnv idleSample 110 80 40 false rfl rfl
    have htake : fourteenShots.take 0 = [] := rfl
    rw [htake, hev, setupDistance_eq _ _ (by rw [ha]; exact ⟨4685083, -25, by norm_num,
      by norm_num, by norm_num, by norm_num⟩) (by rw [hshots]; norm_num), ha, hshots, hround]
    simp [rotationSum, Event.panoramaRotation, storeGrabbedShots]
  have hexact : (((0 : Nat) : ℚ) - ((14 : Int) : ℚ) / 2) * (4685083 / 2 ^ 25 : ℚ)
      = -32795581 / 2 ^ 25 := by norm_num
  refine ⟨ha, hshots, hsum, hexact, ?_⟩
  rw [hsum, hexact]
  norm_num

end IgcsConnector
